import Mathlib

/-!
# Screen driver layer (bios/screen.c, screen_atari.c, screen_vicky2.c, screen_vicky3.c)

A shallow embedding of the XBIOS screen routines: the driver dispatch tables, the
Setscreen / check_moderez / Setcolor paths, the physical-base and video-RAM bookkeeping, the
boot sequence, the deferred palette update and the monitor-change handler.

Conventions of the embedding
* a `WORD` (signed 16 bit) is an `Int`, a `UBYTE`/`UWORD`/`ULONG` or a pointer is a `Nat`;
  conversions between the two are explicit (`ubyte`, `uword`, `sword`, `sbyte`, `toLONG`);
* memory-mapped registers are fields of the state `Hw`; a read returns the last value written;
* functions that live outside these files (VIDEL support, GEMDOS, line-A, VT52, VICKY
  helpers) are the fields of `Extern`: their return values are arbitrary functions of the
  state and the arguments, and the calls that act on the display or on memory are recorded
  in `Hw.trace` (most recent call first); the installation of interrupt vectors is not
  part of the state.
-/

namespace Screen

/-! ## Machine integers -/

/-- Low byte of a signed value (conversion to `UBYTE`). -/
def ubyte (x : Int) : Nat := (x % 256).toNat

/-- The 16-bit pattern of a signed value (conversion to `UWORD`). -/
def uword (x : Int) : Nat := (x % 65536).toNat

/-- Signed reading of a 16-bit pattern (conversion to `WORD`). -/
def sword (n : Nat) : Int :=
  if n % 65536 < 32768 then ((n % 65536 : Nat) : Int) else ((n % 65536 : Nat) : Int) - 65536

/-- Signed reading of a byte (conversion to `SBYTE`). -/
def sbyte (n : Nat) : Int :=
  if n % 256 < 128 then ((n % 256 : Nat) : Int) else ((n % 256 : Nat) : Int) - 256

/-- Signed reading of a 32-bit pattern: the cast `(LONG)ptr`. -/
def toLONG (p : Nat) : Int :=
  if p % 4294967296 < 2147483648 then ((p % 4294967296 : Nat) : Int)
  else ((p % 4294967296 : Nat) : Int) - 4294967296

/-! ## Resolution codes

The header that defines them is not among the sources; the values are the ones written
next to the rows of `vmode_table` (rez=0: ST low, ... rez=7: TT low). -/

/-- ST low resolution, row 0 of `vmode_table`. -/
def ST_LOW : Int := 0
/-- ST medium resolution, row 1 of `vmode_table`. -/
def ST_MEDIUM : Int := 1
/-- ST high (monochrome) resolution, row 2 of `vmode_table`. -/
def ST_HIGH : Int := 2
/-- Modelled from the spec: the reserved index 3 of the legacy resolution space, used as the
Falcon indicator (`FALCON_REZ`; its define is not in the sources). -/
def FALCON_REZ : Int := 3
/-- TT medium resolution, row 4 of `vmode_table`. -/
def TT_MEDIUM : Int := 4
/-- TT high (monochrome) resolution, row 6 of `vmode_table`. -/
def TT_HIGH : Int := 6
/-- TT low resolution, row 7 of `vmode_table`. -/
def TT_LOW : Int := 7
/-- Modelled from the spec: the sentinel "no change, just report current" of the resolution
argument (`REZ_UNSUPPORTED`; its define is not in the sources). -/
def REZ_UNSUPPORTED : Int := -1

/-! ## Build and hardware configuration -/

/-- The three driver tables; a build links exactly one of them as `screen_driver`. -/
inductive Driver
  | atari
  | vicky2
  | vicky3
  deriving DecidableEq, Repr

/-- Compile-time switches and detected hardware. `MIN_REZ` and `MAX_REZ` are defined in a
header that is not among the sources and are kept as parameters. -/
structure Config where
  /-- VIDEL support compiled in and a VIDEL detected (`HAS_VIDEL`, `has_videl`). -/
  has_videl : Bool
  /-- Value of `CONF_WITH_TT_SHIFTER`: decides the length of `vmode_table`. -/
  CONF_WITH_TT_SHIFTER : Bool
  /-- A TT shifter was detected. -/
  has_tt_shifter : Bool
  /-- STe shifter present (`HAS_STE_SHIFTER`). -/
  has_ste_shifter : Bool
  /-- DMA sound present (`HAS_DMASOUND`). -/
  has_dmasound : Bool
  /-- Nova adapter present (`HAS_NOVA`). -/
  has_nova : Bool
  /-- Lowest resolution index accepted by Setscreen. -/
  MIN_REZ : Int
  /-- Highest resolution index accepted by Setscreen. -/
  MAX_REZ : Int
  /-- Base address `VICKY3` of the VICKY III register block (its define is not in the
  sources). -/
  VICKY3 : Nat
  /-- Address `VICKY3_CTRL` written by the VICKY III `init` (its define is not in the
  sources). -/
  VICKY3_CTRL : Nat
  /-- Address `VICKY2` written by the VICKY III `init` (its define is not in the sources). -/
  VICKY2 : Nat
  /-- Start `VRAM_Bank0` of the VICKY II video RAM (its define is not in the sources). -/
  VRAM_Bank0 : Nat
  /-- Value of `CONF_VRAM_ADDRESS`: the fixed video address, 0 when none is configured. -/
  CONF_VRAM_ADDRESS : Nat
  /-- Value of `VIDEO_RAM_SIZE_UNSPECIFIED` (its define is not in the sources). -/
  VIDEO_RAM_SIZE_UNSPECIFIED : Int
  /-- Value of `FALCON_VRAM_SIZE` (its define is not in the sources). -/
  FALCON_VRAM_SIZE : Nat
  /-- Value of `FALCON_DEFAULT_BOOT` (its define is not in the sources). -/
  FALCON_DEFAULT_BOOT : Int
  /-- Value of `VIDEL_PAL`, a bit of the Falcon mode word (its define is not in the sources). -/
  VIDEL_PAL : Nat
  /-- Value of `CONF_WITH_RESET`. -/
  CONF_WITH_RESET : Bool
  /-- Field `os_header.os_conf`. -/
  os_conf : Nat
  /-- Value of `OS_CONF_MULTILANG` (its define is not in the sources). -/
  OS_CONF_MULTILANG : Nat
  /-- Value of `OS_PAL`. -/
  OS_PAL : Bool
  deriving Repr

/-- `HAS_TT_SHIFTER`: TT support compiled in and a TT shifter detected. -/
def HAS_TT_SHIFTER (cfg : Config) : Bool := cfg.CONF_WITH_TT_SHIFTER && cfg.has_tt_shifter

/-! ## Driver tables -/

/-- Names of the functions that appear in the initialisers of the driver tables. -/
inductive Fn
  | screen_atari_init
  | atari_calc_vram_size
  | atari_check_moderez
  | initialise_palette_registers_atari
  | screen_can_change_resolution_atari
  | atari_get_current_mode_info
  | atari_setphys
  | atari_get_monitor_type
  | atari_get_palette
  | atari_get_pixel_size
  | atari_physbase
  | atari_setscreen
  | atari_setcolor
  | atari_set_palette
  | screen_vicky2_screen_init
  | screen_vicky2_calc_vram_size
  | screen_vicky2_check_moderez
  | screen_vicky2_initialise_palette_registers
  | screen_vicky2_screen_can_change_resolution
  | screen_vicky2_get_current_mode_info
  | screen_vicky2_setphys
  | screen_vicky2_get_monitor_type
  | screen_vicky2_screen_get_number_of_colors_nuances
  | get_std_pixel_size
  | screen_vicky2_physbase
  | screen_vicky2_setscreen
  | screen_vicky2_set_palette
  | vicky3_init
  | vicky3_calc_vram_size
  | vicky3_check_moderez
  | vicky3_initialise_palette_registers
  | vicky3_can_change_resolution
  | vicky3_get_current_mode_info
  | vicky3_setphys
  | vicky3_get_monitor_type
  | vicky3_get_number_of_colors_nuances
  | vicky3_physbase
  | vicky3_setscreen
  | vicky3_set_palette
  deriving DecidableEq, Repr

/-- The struct `SCREEN_DRIVER`: fourteen function pointers, in declaration order.
`none` is the null pointer. -/
structure SCREEN_DRIVER where
  init : Option Fn
  calc_vram_size : Option Fn
  check_moderez : Option Fn
  initialise_palette_registers : Option Fn
  can_change_resolution : Option Fn
  get_current_mode_info : Option Fn
  setphys : Option Fn
  get_monitor_type : Option Fn
  get_number_of_colors_nuances : Option Fn
  get_pixel_size : Option Fn
  physbase : Option Fn
  setscreen : Option Fn
  setcolor : Option Fn
  set_palette : Option Fn
  deriving DecidableEq, Repr

/-- A brace initialiser without designators: the values fill the members in declaration
order and the members left over are zero-initialised (null). -/
def SCREEN_DRIVER.ofInitialisers (l : List Fn) : SCREEN_DRIVER :=
  { init := l[0]?
    calc_vram_size := l[1]?
    check_moderez := l[2]?
    initialise_palette_registers := l[3]?
    can_change_resolution := l[4]?
    get_current_mode_info := l[5]?
    setphys := l[6]?
    get_monitor_type := l[7]?
    get_number_of_colors_nuances := l[8]?
    get_pixel_size := l[9]?
    physbase := l[10]?
    setscreen := l[11]?
    setcolor := l[12]?
    set_palette := l[13]? }

/-- The members of a table, in declaration order. -/
def SCREEN_DRIVER.slots (t : SCREEN_DRIVER) : List (Option Fn) :=
  [t.init, t.calc_vram_size, t.check_moderez, t.initialise_palette_registers,
   t.can_change_resolution, t.get_current_mode_info, t.setphys, t.get_monitor_type,
   t.get_number_of_colors_nuances, t.get_pixel_size, t.physbase, t.setscreen,
   t.setcolor, t.set_palette]

/-- The table `screen_driver_atari` (screen_atari.c). -/
def screen_driver_atari : SCREEN_DRIVER :=
  SCREEN_DRIVER.ofInitialisers
    [ Fn.screen_atari_init,
      Fn.atari_calc_vram_size,
      Fn.atari_check_moderez,
      Fn.initialise_palette_registers_atari,
      Fn.screen_can_change_resolution_atari,
      Fn.atari_get_current_mode_info,
      Fn.atari_setphys,
      Fn.atari_get_monitor_type,
      Fn.atari_get_palette,
      Fn.atari_get_pixel_size,
      Fn.atari_physbase,
      Fn.atari_setscreen,
      Fn.atari_setcolor,
      Fn.screen_vicky2_set_palette ]

/-- The table `a2560_screen_driver_vicky2` (screen_vicky2.c). -/
def a2560_screen_driver_vicky2 : SCREEN_DRIVER :=
  SCREEN_DRIVER.ofInitialisers
    [ Fn.screen_vicky2_screen_init,
      Fn.screen_vicky2_calc_vram_size,
      Fn.screen_vicky2_check_moderez,
      Fn.screen_vicky2_initialise_palette_registers,
      Fn.screen_vicky2_screen_can_change_resolution,
      Fn.screen_vicky2_get_current_mode_info,
      Fn.screen_vicky2_setphys,
      Fn.screen_vicky2_get_monitor_type,
      Fn.screen_vicky2_screen_get_number_of_colors_nuances,
      Fn.get_std_pixel_size,
      Fn.screen_vicky2_physbase,
      Fn.screen_vicky2_setscreen,
      Fn.screen_vicky2_set_palette ]

/-- The table `a2560_screen_driver_vicky3` (screen_vicky3.c). -/
def a2560_screen_driver_vicky3 : SCREEN_DRIVER :=
  SCREEN_DRIVER.ofInitialisers
    [ Fn.vicky3_init,
      Fn.vicky3_calc_vram_size,
      Fn.vicky3_check_moderez,
      Fn.vicky3_initialise_palette_registers,
      Fn.vicky3_can_change_resolution,
      Fn.vicky3_get_current_mode_info,
      Fn.vicky3_setphys,
      Fn.vicky3_get_monitor_type,
      Fn.vicky3_get_number_of_colors_nuances,
      Fn.get_std_pixel_size,
      Fn.vicky3_physbase,
      Fn.vicky3_setscreen,
      Fn.vicky3_set_palette ]

/-- The table linked as `screen_driver` in a build. -/
def screen_driver : Driver → SCREEN_DRIVER
  | Driver.atari => screen_driver_atari
  | Driver.vicky2 => a2560_screen_driver_vicky2
  | Driver.vicky3 => a2560_screen_driver_vicky3

/-! ## State -/

/-- Calls that leave this layer, in the order they are made (see `Hw.trace`). -/
inductive Event
  | vsync
  | Srealloc (size : Nat)
  | linea_init (planes xrez yrez : Nat)
  | vt52_init
  | swv_vec
  | videl_setrez (rez videlmode : Int)
  | initialise_falcon_palette (videlmode : Int)
  | vicky2_set_video_mode (mode : Int)
  | balloc_stram (size : Int) (top : Bool)
  | vsetmode (mode : Int)
  | initialise_tt_palette (rez : Int)
  | vicky2_init
  deriving DecidableEq, Repr

/-- The struct `FOENIX_VIDEO_MODE`, with the members the drivers read. -/
structure FOENIX_VIDEO_MODE where
  id : Nat
  w : Nat
  h : Nat
  bpp : Nat
  deriving DecidableEq, Repr

/-- System variables and memory-mapped registers used by the screen layer. -/
structure Hw where
  /-- Logical screen base (system variable). -/
  v_bas_ad : Nat
  /-- Register `VIDEOBASE_ADDR_HI` (byte). -/
  VIDEOBASE_ADDR_HI : Nat
  /-- Register `VIDEOBASE_ADDR_MID` (byte). -/
  VIDEOBASE_ADDR_MID : Nat
  /-- Register `VIDEOBASE_ADDR_LOW` (byte). -/
  VIDEOBASE_ADDR_LOW : Nat
  /-- Shadow of the shifter mode (a byte system variable). -/
  sshiftmod : Nat
  /-- Register `ST_SHIFTER` (byte). -/
  ST_SHIFTER : Nat
  /-- Register `TT_SHIFTER` (byte). -/
  TT_SHIFTER : Nat
  /-- VIDEL mode variable `current_video_mode`. -/
  current_video_mode : Int
  /-- The sixteen words at `ST_PALETTE_REGS`. -/
  palette : Nat → Nat
  /-- Flag `rez_was_hacked`. -/
  rez_was_hacked : Bool
  /-- VBL semaphore (a `WORD`). -/
  vblsem : Int
  /-- Pending palette pointer, 0 when nothing is pending. -/
  colorptr : Nat
  /-- Default shifter mode (a byte system variable). -/
  defshiftmod : Nat
  /-- MFP GPIP register at 0xfffffa01 (byte). -/
  gpip : Nat
  /-- Register `DMASOUND_CTRL` (byte). -/
  DMASOUND_CTRL : Nat
  /-- Bookkeeping `video_ram_size`. -/
  video_ram_size : Int
  /-- Bookkeeping `video_ram_addr`. -/
  video_ram_addr : Nat
  /-- Line-A variable `v_planes`. -/
  v_planes : Nat
  /-- Line-A variable `V_REZ_HZ`. -/
  V_REZ_HZ : Nat
  /-- Line-A variable `V_REZ_VT`. -/
  V_REZ_VT : Nat
  /-- Mode that `vicky2_read_video_mode` reads back from the VICKY II. -/
  vicky2_mode : FOENIX_VIDEO_MODE
  /-- Bitmap 0 start address held by the VICKY II. -/
  vicky2_bitmap0 : Nat
  /-- Register `VICKY_B_BG_COLOR`. -/
  VICKY_B_BG_COLOR : Nat
  /-- Colour lookup table 0 of the VICKY II. -/
  vicky_lut0 : Nat → Nat
  /-- The 32-bit registers reached through `R32(address)` by the VICKY III driver. -/
  r32 : Nat → Nat
  /-- Register `SYNCMODE` (byte). -/
  SYNCMODE : Nat
  /-- Register `STE_LINE_OFFSET` (byte). -/
  STE_LINE_OFFSET : Nat
  /-- Register `STE_HORZ_SCROLL` (byte). -/
  STE_HORZ_SCROLL : Nat
  /-- Calls made to the collaborators, most recent first. -/
  trace : List Event

/-- Functions called by the screen layer whose code is outside these files. Each one may
read the whole state; what it returns is not constrained. -/
structure Extern where
  /-- Function `vfixmode(mode)`. -/
  vfixmode : Hw → Int → Int
  /-- Function `vgetsize(mode)`. -/
  vgetsize : Hw → Int → Nat
  /-- GEMDOS `Srealloc(size)`: the new address, 0 on failure. -/
  Srealloc : Hw → Nat → Nat
  /-- Query `vsetmode(-1)`. -/
  vsetmode_query : Hw → Int
  /-- Values of `sshiftmod` and `current_video_mode` left by `videl_setrez(rez, mode)`. -/
  videl_setrez : Hw → Int → Int → Nat × Int
  /-- Content of the ST palette registers left by `initialise_falcon_palette(mode)`. -/
  initialise_falcon_palette : Hw → Int → (Nat → Nat)
  /-- Function `videl_getrez()`. -/
  videl_getrez : Hw → Int
  /-- Function `videl_check_moderez(moderez)`. -/
  videl_check_moderez : Hw → Int → Int
  /-- Function `videl_get_current_mode_info`: planes, width, height. -/
  videl_get_current_mode_info : Hw → Nat × Nat × Nat
  /-- Function `vmontype()`, also reached as `VgetMonitor()`. -/
  vmontype : Hw → Int
  /-- Mode descriptor in effect after `vicky2_set_video_mode(vicky, mode)`. -/
  vicky2_set_video_mode : Hw → Int → FOENIX_VIDEO_MODE
  /-- Function `convert_atari2vicky_color`. -/
  convert_atari2vicky_color : Nat → Nat
  /-- Word stored in memory at an address. -/
  peekw : Nat → Nat
  /-- Content of the result register when a routine returns no value. -/
  d0 : Hw → Int
  /-- Pointer that a routine expecting one pointer finds when it is entered with two
  `WORD` arguments. -/
  args_as_pointer : Int → Int → Nat
  /-- Function `get_novamembase()`. -/
  get_novamembase : Hw → Nat
  /-- Allocator `balloc_stram(size, top)`: the address of the block. -/
  balloc_stram : Hw → Int → Bool → Nat
  /-- Value of `boot_resolution` after the NVRAM read of `screen_atari_init` (the default
  when there is no NVRAM or the read fails). -/
  nvram_boot_resolution : Hw → Int
  /-- Function `lookup_videl_mode(mode)`, as a truth value. -/
  lookup_videl_mode : Hw → Int → Bool
  /-- Macro `VALID_VDI_BPP(mode)`. -/
  VALID_VDI_BPP : Int → Bool
  /-- Values of `sshiftmod` and `current_video_mode` left by `vsetmode(mode)`. -/
  vsetmode : Hw → Int → Nat × Int
  /-- Content of the ST palette registers left by `initialise_tt_palette(rez)`. -/
  initialise_tt_palette : Hw → Int → (Nat → Nat)
  /-- Mode and bitmap 0 address programmed by `vicky2_init()`. -/
  vicky2_init : Hw → FOENIX_VIDEO_MODE × Nat

/-- Record a call to a collaborator. -/
def emit (e : Event) (s : Hw) : Hw := { s with trace := e :: s.trace }

/-- Store into one cell of a register block. -/
def setReg (f : Nat → Nat) (i v : Nat) : Nat → Nat := fun j => if j = i then v else f j

/-- Monitor code `MON_MONO` (what `shifter_get_monitor_type` reports when GPIP bit 7 is
clear; `screen_atari_init` tests the monitor type against zero). -/
def MON_MONO : Int := 0

/-- Macro `MODEREZ` of screen_vicky3.c. -/
def MODEREZ : Nat := 4

/-- Macro `FALSE`. -/
def FALSE : Bool := false

/-! ## Physical address (screen_atari.c, screen_vicky2.c, screen_vicky3.c) -/

/-- Function `atari_setphys`. -/
def atari_setphys (cfg : Config) (s : Hw) (addr : Nat) : Hw :=
  let a := addr % 4294967296
  let s := { s with VIDEOBASE_ADDR_HI := (a >>> 16) % 256 }
  let s := { s with VIDEOBASE_ADDR_MID := (a >>> 8) % 256 }
  if cfg.has_videl || HAS_TT_SHIFTER cfg || cfg.has_ste_shifter then
    { s with VIDEOBASE_ADDR_LOW := a % 256 }
  else s

/-- Function `screen_vicky2_setphys`: the body is empty. -/
def screen_vicky2_setphys (s : Hw) (_addr : Nat) : Hw := s

/-- Function `setphys` of screen_vicky3.c. -/
def vicky3_setphys (cfg : Config) (s : Hw) (addr : Nat) : Hw :=
  let s := { s with r32 := setReg s.r32 cfg.VICKY3 0 }
  let s := { s with r32 := setReg s.r32 (cfg.VICKY3 + 4) ((addr % 4294967296) / 4) }
  { s with r32 := setReg s.r32 0xFC000000 (1 + (MODEREZ <<< 1)) }

/-- Function `screen_setphys`: forwards to the `setphys` slot of the linked table. -/
def screen_setphys (cfg : Config) (d : Driver) (s : Hw) (addr : Nat) : Hw :=
  match d with
  | Driver.atari => atari_setphys cfg s addr
  | Driver.vicky2 => screen_vicky2_setphys s addr
  | Driver.vicky3 => vicky3_setphys cfg s addr

/-- Function `logbase`. -/
def logbase (s : Hw) : Nat := s.v_bas_ad

/-! ## Palette -/

/-- Function `atari_setcolor`. -/
def atari_setcolor (cfg : Config) (s : Hw) (colorNum color : Int) : Int × Hw :=
  let colorNum := uword colorNum &&& 0x000f
  let mask := if cfg.has_videl || HAS_TT_SHIFTER cfg || cfg.has_ste_shifter then 0x0fff else 0x0777
  let oldcolor := sword (s.palette colorNum &&& mask)
  let s := if color ≥ 0 then { s with palette := setReg s.palette colorNum (uword color) } else s
  (oldcolor, s)

/-- The do-while loop of `screen_vicky2_set_palette`, entered with index `i`: it writes
entries `i`, `i-1`, ..., `0` of lookup table 0. -/
def vicky2_lut_loop (ext : Extern) (new_palette : Nat → Nat) : Nat → Hw → Hw
  | 0, s => { s with vicky_lut0 := setReg s.vicky_lut0 0 (ext.convert_atari2vicky_color (new_palette 0)) }
  | i + 1, s =>
    vicky2_lut_loop ext new_palette i
      { s with vicky_lut0 :=
          setReg s.vicky_lut0 (i + 1) (ext.convert_atari2vicky_color (new_palette (i + 1))) }

/-- Function `screen_vicky2_set_palette`; `new_palette i` is the word `new_palette[i]`. -/
def screen_vicky2_set_palette (ext : Extern) (s : Hw) (new_palette : Nat → Nat) : Hw :=
  let s := { s with VICKY_B_BG_COLOR := ext.convert_atari2vicky_color (new_palette 0) }
  vicky2_lut_loop ext new_palette (16 - 1 - 1) s

/-- Function `set_palette` of screen_vicky3.c: nothing but a debug message. -/
def vicky3_set_palette (s : Hw) (_new_palette : Nat → Nat) : Hw := s

/-- Function `setcolor`: forwards to the `setcolor` slot of the linked table. In the two
VICKY tables the thirteenth initialiser, which lands in that slot, is the driver's palette
writer; it then takes the stacked arguments for its pointer and returns no value. -/
def setcolor (cfg : Config) (ext : Extern) (d : Driver) (s : Hw) (colorNum color : Int) :
    Int × Hw :=
  match d with
  | Driver.atari => atari_setcolor cfg s colorNum color
  | Driver.vicky2 =>
    let p := ext.args_as_pointer colorNum color
    let s1 := screen_vicky2_set_palette ext s (fun i => ext.peekw (p + 2 * i))
    (ext.d0 s1, s1)
  | Driver.vicky3 =>
    let p := ext.args_as_pointer colorNum color
    let s1 := vicky3_set_palette s (fun i => ext.peekw (p + 2 * i))
    (ext.d0 s1, s1)

/-- Function `setpalette`: the debug loop apart, it stores the pointer in `colorptr`. -/
def setpalette (s : Hw) (palettePtr : Nat) : Hw := { s with colorptr := palettePtr }

/-! ## Resolution (screen_atari.c, screen_vicky2.c) -/

/-- Function `vsync`: waits for the next vertical blank. -/
def vsync (s : Hw) : Hw := emit Event.vsync s

/-- Call of `videl_setrez(rez, videlmode)`, which sets `sshiftmod`. -/
def videl_setrez (ext : Extern) (s : Hw) (rez videlmode : Int) : Hw :=
  let r := ext.videl_setrez s rez videlmode
  emit (Event.videl_setrez rez videlmode) { s with sshiftmod := r.1, current_video_mode := r.2 }

/-- Call of `initialise_falcon_palette(videlmode)`. -/
def initialise_falcon_palette (ext : Extern) (s : Hw) (videlmode : Int) : Hw :=
  emit (Event.initialise_falcon_palette videlmode)
    { s with palette := ext.initialise_falcon_palette s videlmode }

/-- Function `atari_setrez`. -/
def atari_setrez (cfg : Config) (ext : Extern) (s : Hw) (rez videlmode : Int) : Hw :=
  if cfg.has_videl then
    if rez ≥ ST_LOW ∧ rez ≤ FALCON_REZ then
      let s := videl_setrez ext s rez videlmode
      initialise_falcon_palette ext s videlmode
    else s
  else if HAS_TT_SHIFTER cfg then
    if rez ≠ FALCON_REZ ∧ rez ≠ REZ_UNSUPPORTED then
      let s := { s with sshiftmod := ubyte rez }
      { s with TT_SHIFTER := s.sshiftmod }
    else s
  else if rez ≤ ST_HIGH then
    let s := { s with sshiftmod := ubyte rez }
    { s with ST_SHIFTER := s.sshiftmod }
  else s

/-- Function `atari_getrez`. -/
def atari_getrez (cfg : Config) (ext : Extern) (s : Hw) : Int :=
  if cfg.has_videl then ext.videl_getrez s
  else if HAS_TT_SHIFTER cfg then ((s.TT_SHIFTER &&& 0x07 : Nat) : Int)
  else ((s.ST_SHIFTER &&& 0x03 : Nat) : Int)

/-- Function `getrez`; the other builds return the shadow `sshiftmod`. -/
def getrez (cfg : Config) (ext : Extern) (d : Driver) (s : Hw) : Int :=
  match d with
  | Driver.atari => atari_getrez cfg ext s
  | _ => (s.sshiftmod : Int)

/-- The struct `video_mode`. -/
structure video_mode where
  planes : Nat
  hz_rez : Nat
  vt_rez : Nat
  deriving DecidableEq, Repr

/-- The table `vmode_table`: three rows, eight when `CONF_WITH_TT_SHIFTER` is set. -/
def vmode_table (cfg : Config) : List video_mode :=
  [ ⟨4, 320, 200⟩, ⟨2, 640, 200⟩, ⟨1, 640, 400⟩ ] ++
  (if cfg.CONF_WITH_TT_SHIFTER then
    [ ⟨0, 0, 0⟩, ⟨4, 640, 480⟩, ⟨0, 0, 0⟩, ⟨1, 1280, 960⟩, ⟨8, 320, 480⟩ ]
   else [])

/-- Function `shifter_get_current_mode_info`. A read past the end of the table is given
the all-zero row. -/
def shifter_get_current_mode_info (cfg : Config) (s : Hw) : Nat × Nat × Nat :=
  let vmode := s.sshiftmod &&& 7
  let row := ((vmode_table cfg)[vmode]?).getD ⟨0, 0, 0⟩
  (row.planes, row.hz_rez, row.vt_rez)

/-- Function `atari_get_current_mode_info`. -/
def atari_get_current_mode_info (cfg : Config) (ext : Extern) (s : Hw) : Nat × Nat × Nat :=
  if cfg.has_videl then ext.videl_get_current_mode_info s
  else shifter_get_current_mode_info cfg s

/-- Function `screen_vicky2_get_current_mode_info`. -/
def screen_vicky2_get_current_mode_info (s : Hw) : Nat × Nat × Nat :=
  let mode := s.vicky2_mode
  (mode.bpp % 65536, mode.w % 65536, mode.h % 65536)

/-- Function `get_current_mode_info` of screen_vicky3.c. -/
def vicky3_get_current_mode_info (_s : Hw) : Nat × Nat × Nat := (1, 1024, 768)

/-- Function `screen_init_services`. -/
def screen_init_services (s : Hw) (planes xrez yrez : Nat) : Hw :=
  let s := { s with vblsem := sword (uword (s.vblsem - 1)) }
  let s := emit (Event.linea_init planes xrez yrez) s
  let s := emit Event.vt52_init s
  { s with vblsem := sword (uword (s.vblsem + 1)) }

/-- Function `screen_init_services_from_mode_info`. -/
def screen_init_services_from_mode_info (cfg : Config) (ext : Extern) (d : Driver) (s : Hw) :
    Hw :=
  let info :=
    match d with
    | Driver.atari => atari_get_current_mode_info cfg ext s
    | Driver.vicky2 => screen_vicky2_get_current_mode_info s
    | Driver.vicky3 => vicky3_get_current_mode_info s
  screen_init_services s info.1 info.2.1 info.2.2

/-- Function `screen_set_rez_hacked`. -/
def screen_set_rez_hacked (s : Hw) : Hw :=
  let s := { s with rez_was_hacked := true }
  screen_init_services s s.v_planes s.V_REZ_HZ s.V_REZ_VT

/-- The VIDEL block of `atari_setscreen`: `none` when `Srealloc` failed (the function then
returns -1), else the state, the fixed-up `videlmode` and `oldmode`. -/
def atari_setscreen_videl (cfg : Config) (ext : Extern) (s : Hw) (logLoc physLoc : Nat)
    (rez videlmode : Int) : Hw × Option (Int × Int) :=
  if cfg.has_videl then
    if rez = FALCON_REZ then
      if videlmode ≠ -1 then
        let videlmode := ext.vfixmode s videlmode
        if logLoc = 0 ∧ physLoc = 0 then
          let size := ext.vgetsize s videlmode
          let addr := ext.Srealloc s size
          let s := emit (Event.Srealloc size) s
          if addr = 0 then (s, none)
          else
            let s := { s with v_bas_ad := addr }
            let s := screen_setphys cfg Driver.atari s addr
            (s, some (videlmode, ext.vsetmode_query s))
        else (s, some (videlmode, ext.vsetmode_query s))
      else (s, some (videlmode, ext.vsetmode_query s))
    else (s, some (videlmode, 0))
  else (s, some (videlmode, 0))

/-- Function `atari_setscreen`. -/
def atari_setscreen (cfg : Config) (ext : Extern) (s : Hw) (logLoc physLoc : Nat)
    (rez videlmode : Int) : Int × Hw :=
  let s := if toLONG logLoc > 0 then { s with v_bas_ad := logLoc } else s
  let s := if toLONG physLoc > 0 then screen_setphys cfg Driver.atari s physLoc else s
  if s.rez_was_hacked ∨ rez = -1 then (0, s)
  else if rez < cfg.MIN_REZ ∨ rez > cfg.MAX_REZ then (-1, s)
  else
    match atari_setscreen_videl cfg ext s logLoc physLoc rez videlmode with
    | (s, none) => (-1, s)
    | (s, some (videlmode, oldmode)) =>
      let s := vsync s
      let s := atari_setrez cfg ext s rez videlmode
      let s := screen_init_services_from_mode_info cfg ext Driver.atari s
      (oldmode, s)

/-- Function `screen_vicky2_setrez`. -/
def screen_vicky2_setrez (ext : Extern) (s : Hw) (rez mode : Int) : Hw :=
  if rez ≠ FALCON_REZ then s
  else emit (Event.vicky2_set_video_mode mode)
    { s with vicky2_mode := ext.vicky2_set_video_mode s mode }

/-- Function `screen_vicky2_setscreen`. -/
def screen_vicky2_setscreen (cfg : Config) (ext : Extern) (s : Hw) (logical physical : Nat)
    (rez videlmode : Int) : Int × Hw :=
  let oldmode : Int := 0
  let s := if toLONG logical > 0 then { s with v_bas_ad := logical } else s
  let s := if toLONG physical > 0 then screen_setphys cfg Driver.vicky2 s physical else s
  if s.rez_was_hacked ∨ rez = -1 then (0, s)
  else if rez < cfg.MIN_REZ ∨ rez > cfg.MAX_REZ then (-1, s)
  else
    let s := vsync s
    let s := screen_vicky2_setrez ext s rez videlmode
    let s := screen_init_services_from_mode_info cfg ext Driver.vicky2 s
    (oldmode, s)

/-- Function `vicky3_setscreen`: a debug message, then `return MODEREZ`. -/
def vicky3_setscreen (s : Hw) (_logical _physical : Nat) (_rez _videlmode : Int) : Int × Hw :=
  ((MODEREZ : Int), s)

/-- Function `setscreen`: forwards to the `setscreen` slot of the linked table. -/
def setscreen (cfg : Config) (ext : Extern) (d : Driver) (s : Hw) (logLoc physLoc : Nat)
    (rez videlmode : Int) : Int × Hw :=
  match d with
  | Driver.atari => atari_setscreen cfg ext s logLoc physLoc rez videlmode
  | Driver.vicky2 => screen_vicky2_setscreen cfg ext s logLoc physLoc rez videlmode
  | Driver.vicky3 => vicky3_setscreen s logLoc physLoc rez videlmode

/-! ## Mode checks (screen.c, screen_atari.c) -/

/-- Function `shifter_check_moderez`. -/
def shifter_check_moderez (cfg : Config) (ext : Extern) (s : Hw) (moderez : Int) : Int :=
  if moderez > 0 then 0
  else
    let return_rez : Int := ((uword moderez &&& 0x00ff : Nat) : Int)
    let return_rez :=
      if HAS_TT_SHIFTER cfg then
        (if return_rez = TT_HIGH then TT_MEDIUM else return_rez)
      else
        (if return_rez = ST_HIGH then ST_LOW else return_rez)
    if return_rez = getrez cfg ext Driver.atari s then 0
    else sword (0xff00 ||| return_rez.toNat)

/-- Function `shifter_screen_can_change_resolution`; `Getrez()` traps to `getrez`. -/
def shifter_screen_can_change_resolution (cfg : Config) (ext : Extern) (s : Hw) : Bool :=
  let rez := getrez cfg ext Driver.atari s
  if HAS_TT_SHIFTER cfg then decide (rez ≠ TT_HIGH)
  else decide (rez ≠ ST_HIGH)

/-- Function `screen_can_change_resolution_atari`. -/
def screen_can_change_resolution_atari (cfg : Config) (ext : Extern) (s : Hw) : Bool :=
  if s.rez_was_hacked then FALSE
  else if cfg.has_videl then decide (ext.vmontype s ≠ MON_MONO)
  else shifter_screen_can_change_resolution cfg ext s

/-- Function `screen_can_change_resolution`. -/
def screen_can_change_resolution (cfg : Config) (ext : Extern) (d : Driver) (s : Hw) : Bool :=
  if s.rez_was_hacked then FALSE
  else
    match d with
    | Driver.atari => screen_can_change_resolution_atari cfg ext s
    | Driver.vicky2 => FALSE
    | Driver.vicky3 => FALSE

/-- Function `atari_check_moderez`. -/
def atari_check_moderez (cfg : Config) (ext : Extern) (s : Hw) (moderez : Int) : Int :=
  if cfg.has_videl then ext.videl_check_moderez s moderez
  else shifter_check_moderez cfg ext s moderez

/-- Function `check_moderez`. -/
def check_moderez (cfg : Config) (ext : Extern) (d : Driver) (s : Hw) (moderez : Int) : Int :=
  if !screen_can_change_resolution cfg ext d s then 0
  else
    match d with
    | Driver.atari => atari_check_moderez cfg ext s moderez
    | Driver.vicky2 => 0
    | Driver.vicky3 => (MODEREZ : Int)

/-! ## Monitor change (screen_atari.c) -/

/-- The monitor flag as `screen_detect_monitor_change` senses it. With DMA sound the handler
reads `DMASOUND_CTRL`, then GPIP twice, and goes round again until the two GPIP reads agree
in sign and `DMASOUND_CTRL` reads as before; registers hold their value between reads here,
so the first pass leaves the loop. -/
def sense_monoflag (cfg : Config) (s : Hw) : Int :=
  let monoflag := sbyte s.gpip
  if cfg.has_dmasound then
    let dmaplay := sbyte s.DMASOUND_CTRL
    let monoflag := sbyte s.gpip
    if ubyte dmaplay &&& 1 ≠ 0 then sbyte (ubyte (-monoflag)) else monoflag
  else monoflag

/-- Function `screen_detect_monitor_change`. -/
def screen_detect_monitor_change (cfg : Config) (s : Hw) : Hw :=
  if cfg.has_videl then s
  else
    let monoflag := sense_monoflag cfg s
    let tt := HAS_TT_SHIFTER cfg
    let shifter := (if tt then s.TT_SHIFTER else s.ST_SHIFTER) % 256
    let curres := if tt then shifter &&& 7 else shifter &&& 3
    let monores := if tt then ubyte TT_HIGH else ubyte ST_HIGH
    let newres : Option Nat :=
      if curres = monores then
        if monoflag ≥ 0 then none
        else
          let newres := s.defshiftmod % 256
          some (if newres = monores then ubyte ST_LOW else newres)
      else
        if monoflag < 0 then none
        else some monores
    match newres with
    | none => s
    | some newres =>
      let s := { s with sshiftmod := newres }
      let v := ((shifter &&& 0xf8) ||| newres) % 256
      let s := if tt then { s with TT_SHIFTER := v } else { s with ST_SHIFTER := v }
      emit Event.swv_vec s

/-! ## Video RAM size and physical base (screen_atari.c, screen_vicky2.c, screen_vicky3.c) -/

/-- Modelled from the spec: the fixed slack `EXTRA_VRAM_SIZE` added to the frame-buffer size.
Its define is not in the sources; the comment at its use in `atari_calc_vram_size` gives
the value ("TT TOS allocates 256 bytes more than actually needed"). -/
def EXTRA_VRAM_SIZE : Nat := 256

/-- Function `atari_calc_vram_size`. The product `w / 8 * planes` stays below 2^16 for the
rows of `vmode_table`, so the width of `int` plays no part. -/
def atari_calc_vram_size (cfg : Config) (ext : Extern) (s : Hw) : Nat :=
  if cfg.has_videl then
    let vram_size := ext.vgetsize s (ext.vsetmode_query s) % 4294967296
    let vram_size := if vram_size < cfg.FALCON_VRAM_SIZE then cfg.FALCON_VRAM_SIZE else vram_size
    (vram_size + EXTRA_VRAM_SIZE) % 4294967296
  else
    let info := atari_get_current_mode_info cfg ext s
    let planes := info.1
    let w := info.2.1
    let h := info.2.2
    let vram_size := ((w / 8 * planes) * h) % 4294967296
    if HAS_TT_SHIFTER cfg then (vram_size + EXTRA_VRAM_SIZE) % 4294967296
    else ((vram_size + 768 + 255) % 4294967296) &&& (4294967295 - 255)

/-- Function `screen_vicky2_calc_vram_size`. -/
def screen_vicky2_calc_vram_size (s : Hw) : Nat :=
  let mode := s.vicky2_mode
  ((mode.w % 4294967296) * (mode.h % 4294967296) + EXTRA_VRAM_SIZE) % 4294967296

/-- Function `calc_vram_size` of screen_vicky3.c. -/
def vicky3_calc_vram_size (_s : Hw) : Nat := 1024 / 8 * 768

/-- Function `calc_vram_size` of screen.c: forwards to the linked table. -/
def calc_vram_size (cfg : Config) (ext : Extern) (d : Driver) (s : Hw) : Nat :=
  match d with
  | Driver.atari => atari_calc_vram_size cfg ext s
  | Driver.vicky2 => screen_vicky2_calc_vram_size s
  | Driver.vicky3 => vicky3_calc_vram_size s

/-- Function `atari_physbase`. -/
def atari_physbase (cfg : Config) (ext : Extern) (s : Hw) : Nat :=
  if cfg.has_nova && s.rez_was_hacked then ext.get_novamembase s
  else
    let addr := s.VIDEOBASE_ADDR_HI % 256
    let addr := (addr <<< 8) % 4294967296
    let addr := addr ||| (s.VIDEOBASE_ADDR_MID % 256)
    let addr := (addr <<< 8) % 4294967296
    if cfg.has_videl || HAS_TT_SHIFTER cfg || cfg.has_ste_shifter then
      addr ||| (s.VIDEOBASE_ADDR_LOW % 256)
    else addr

/-- Function `screen_vicky2_physbase`. -/
def screen_vicky2_physbase (cfg : Config) (s : Hw) : Nat :=
  (s.vicky2_bitmap0 + cfg.VRAM_Bank0) % 4294967296

/-- Function `vicky3_physbase`. -/
def vicky3_physbase (cfg : Config) (s : Hw) : Nat :=
  ((s.r32 (cfg.VICKY3 + 4) % 4294967296) * 4) % 4294967296

/-- Function `physbase`: forwards to the `physbase` slot of the linked table. -/
def physbase (cfg : Config) (ext : Extern) (d : Driver) (s : Hw) : Nat :=
  match d with
  | Driver.atari => atari_physbase cfg ext s
  | Driver.vicky2 => screen_vicky2_physbase cfg s
  | Driver.vicky3 => vicky3_physbase cfg s

/-! ## Boot (screen.c, screen_atari.c, screen_vicky2.c, screen_vicky3.c) -/

/-- Monitor code `MON_COLOR` (what `shifter_get_monitor_type` reports when GPIP bit 7 is set);
its define is not in the sources, `screen_atari_init` only tests it against zero. -/
def MON_COLOR : Int := 1

/-- The table `default_palette`, with the colours of screen.h. -/
def default_palette : List Nat :=
  [ 0x0fff, 0x0f00, 0x00f0, 0x0ff0,
    0x000f, 0x0f0f, 0x00ff, 0x0555,
    0x0333, 0x0f33, 0x03f3, 0x0ff3,
    0x033f, 0x0f3f, 0x03ff, 0x0000 ]

/-- The loop of `initialise_ste_palette` over the entries from `i` up, `n` of them. -/
def initialise_ste_palette_loop (mask : Nat) : Nat → Nat → (Nat → Nat) → (Nat → Nat)
  | 0, _, regs => regs
  | n + 1, i, regs =>
    initialise_ste_palette_loop mask n (i + 1) (setReg regs i (default_palette.getD i 0 &&& mask))

/-- Function `initialise_ste_palette`. -/
def initialise_ste_palette (s : Hw) (mask : Nat) : Hw :=
  { s with palette := initialise_ste_palette_loop mask 16 0 s.palette }

/-- Function `fixup_ste_palette`. -/
def fixup_ste_palette (s : Hw) (rez : Int) : Hw :=
  if rez = ST_MEDIUM then { s with palette := setReg s.palette 3 (s.palette 15) }
  else if rez = ST_HIGH then { s with palette := setReg s.palette 1 (s.palette 15) }
  else s

/-- Call of `initialise_tt_palette(rez)`. -/
def initialise_tt_palette (ext : Extern) (s : Hw) (rez : Int) : Hw :=
  emit (Event.initialise_tt_palette rez) { s with palette := ext.initialise_tt_palette s rez }

/-- Function `initialise_palette_registers_atari`. -/
def initialise_palette_registers_atari (cfg : Config) (ext : Extern) (s : Hw) (rez mode : Int) :
    Hw :=
  let mask := if cfg.has_videl || HAS_TT_SHIFTER cfg || cfg.has_ste_shifter then 0x0fff else 0x0777
  let s := initialise_ste_palette s mask
  let s :=
    if cfg.has_videl then initialise_falcon_palette ext s mode
    else if HAS_TT_SHIFTER cfg then initialise_tt_palette ext s rez
    else s
  fixup_ste_palette s rez

/-- Function `shifter_get_monitor_type`. -/
def shifter_get_monitor_type (s : Hw) : Int :=
  if (s.gpip % 256) &&& 0x80 ≠ 0 then MON_COLOR else MON_MONO

/-- Function `atari_get_monitor_type`. -/
def atari_get_monitor_type (cfg : Config) (ext : Extern) (s : Hw) : Int :=
  if cfg.has_videl then ext.vmontype s else shifter_get_monitor_type s

/-- Function `get_default_palmode`. -/
def get_default_palmode (cfg : Config) : Bool :=
  if cfg.os_conf = cfg.OS_CONF_MULTILANG then cfg.OS_PAL
  else decide (cfg.os_conf &&& 0x0001 ≠ 0)

/-- Call of `vsetmode(mode)`, which sets `sshiftmod`. -/
def vsetmode (ext : Extern) (s : Hw) (mode : Int) : Hw :=
  let r := ext.vsetmode s mode
  emit (Event.vsetmode mode) { s with sshiftmod := r.1, current_video_mode := r.2 }

/-- The mode part of `screen_atari_init`: the state and the values of `rez` and
`boot_resolution` it leaves. `get_monitor_type()` reaches `atari_get_monitor_type`. -/
def screen_atari_init_mode (cfg : Config) (ext : Extern) (s : Hw) : Hw × Int × Int :=
  let monitor_type := atari_get_monitor_type cfg ext s
  if cfg.has_videl then
    let s :=
      if cfg.CONF_VRAM_ADDRESS ≠ 0 then screen_setphys cfg Driver.atari s cfg.CONF_VRAM_ADDRESS
      else screen_setphys cfg Driver.atari s 0x10000
    let boot_resolution := ext.nvram_boot_resolution s
    let s := { s with current_video_mode := boot_resolution }
    let boot_resolution := ext.vfixmode s boot_resolution
    let boot_resolution :=
      if !ext.lookup_videl_mode s boot_resolution then cfg.FALCON_DEFAULT_BOOT
      else boot_resolution
    let boot_resolution :=
      if !ext.VALID_VDI_BPP boot_resolution then cfg.FALCON_DEFAULT_BOOT else boot_resolution
    let s := vsetmode ext s boot_resolution
    (s, (s.sshiftmod : Int), boot_resolution)
  else if HAS_TT_SHIFTER cfg then
    let rez := if monitor_type ≠ 0 then TT_MEDIUM else TT_HIGH
    let s := { s with sshiftmod := ubyte rez }
    ({ s with TT_SHIFTER := ubyte rez }, rez, 0)
  else
    let s := vsync s
    let s := if cfg.CONF_WITH_RESET then vsync s else s
    let rez := if monitor_type ≠ 0 then ST_LOW else ST_HIGH
    let s := { s with sshiftmod := ubyte rez }
    let s := { s with ST_SHIFTER := ubyte rez }
    let s :=
      if cfg.has_ste_shifter then { s with STE_LINE_OFFSET := 0, STE_HORZ_SCROLL := 0 } else s
    (s, rez, 0)

/-- Function `screen_atari_init`. The two `setexc` calls install exception vectors, which
are not part of the state. -/
def screen_atari_init (cfg : Config) (ext : Extern) (s : Hw) : Hw :=
  let s := { s with vblsem := 0 }
  let r := screen_atari_init_mode cfg ext s
  let s := r.1
  let rez := r.2.1
  let boot_resolution := r.2.2
  let sync_mode :=
    if cfg.has_videl then (if uword boot_resolution &&& cfg.VIDEL_PAL ≠ 0 then 0x02 else 0x00)
    else if HAS_TT_SHIFTER cfg then 0x01
    else (if get_default_palmode cfg then 0x02 else 0x00)
  let s := { s with SYNCMODE := sync_mode }
  initialise_palette_registers_atari cfg ext s rez boot_resolution

/-- Function `screen_vicky2_screen_init`; the interrupt handler it installs is not part of
the state. -/
def screen_vicky2_screen_init (ext : Extern) (s : Hw) : Hw :=
  let r := ext.vicky2_init s
  let s := emit Event.vicky2_init { s with vicky2_mode := r.1, vicky2_bitmap0 := r.2 }
  { s with vblsem := 0 }

/-- Function `init` of screen_vicky3.c. -/
def vicky3_init (cfg : Config) (s : Hw) : Hw :=
  let s := { s with r32 := setReg s.r32 cfg.VICKY2 0x80 }
  { s with r32 := setReg s.r32 cfg.VICKY3_CTRL 0 }

/-- Function `setup_video_ram`. -/
def setup_video_ram (cfg : Config) (ext : Extern) (d : Driver) (s : Hw) : Hw :=
  let r : Int × Nat × Hw :=
    if cfg.CONF_VRAM_ADDRESS ≠ 0 then
      (cfg.VIDEO_RAM_SIZE_UNSPECIFIED, cfg.CONF_VRAM_ADDRESS, s)
    else
      let vram_size := toLONG (calc_vram_size cfg ext d s)
      (vram_size, ext.balloc_stram s vram_size true, emit (Event.balloc_stram vram_size true) s)
  let s := r.2.2
  let s := { s with video_ram_size := r.1 }
  let s := { s with video_ram_addr := r.2.1 }
  { s with v_bas_ad := s.video_ram_addr }

/-- Function `screen_init`. -/
def screen_init (cfg : Config) (ext : Extern) (d : Driver) (s : Hw) : Hw :=
  let s :=
    match d with
    | Driver.atari => screen_atari_init cfg ext s
    | Driver.vicky2 => screen_vicky2_screen_init ext s
    | Driver.vicky3 => vicky3_init cfg s
  let s := { s with rez_was_hacked := FALSE }
  let s := setup_video_ram cfg ext d s
  screen_setphys cfg d s s.video_ram_addr

/-! ## Deferred palette update (screen.c) -/

/-- Function `screen_do_set_palette`: forwards to the `set_palette` slot of the linked table.
In the Atari table that slot holds `screen_vicky2_set_palette`; in the two VICKY tables it
is null, and the call has no defined outcome (`none`). -/
def screen_do_set_palette (_cfg : Config) (ext : Extern) (d : Driver) (s : Hw)
    (new_palette : Nat) : Option Hw :=
  match d with
  | Driver.atari =>
    some (screen_vicky2_set_palette ext s (fun i => ext.peekw (new_palette + 2 * i)))
  | Driver.vicky2 => none
  | Driver.vicky3 => none

/-- Modelled from the spec: the apply phase `apply_pending_palette()` of the vertical-blank
handler, whose code is not among the sources: it "reads the stored pointer; if
non-sentinel, dispatches to the chipset's palette writer and clears the pointer to
sentinel". -/
def apply_pending_palette (cfg : Config) (ext : Extern) (d : Driver) (s : Hw) : Option Hw :=
  if s.colorptr = 0 then some s
  else
    match screen_do_set_palette cfg ext d s s.colorptr with
    | none => none
    | some s1 => some { s1 with colorptr := 0 }

/-! ## The calls available after boot -/

/-- One call into the screen layer, with its arguments. -/
inductive Call
  | check_moderez (moderez : Int)
  | setscreen (logLoc physLoc : Nat) (rez videlmode : Int)
  | setcolor (colorNum color : Int)
  | setpalette (palettePtr : Nat)
  | screen_setphys (addr : Nat)
  | screen_detect_monitor_change

/-- State after one call. `screen_detect_monitor_change` exists in the Atari build only. -/
def runCall (cfg : Config) (ext : Extern) (d : Driver) (s : Hw) : Call → Hw
  | Call.check_moderez _ => s
  | Call.setscreen logLoc physLoc rez videlmode =>
    (setscreen cfg ext d s logLoc physLoc rez videlmode).2
  | Call.setcolor colorNum color => (setcolor cfg ext d s colorNum color).2
  | Call.setpalette palettePtr => setpalette s palettePtr
  | Call.screen_setphys addr => screen_setphys cfg d s addr
  | Call.screen_detect_monitor_change =>
    match d with
    | Driver.atari => screen_detect_monitor_change cfg s
    | _ => s

/-- State after a sequence of calls, made from left to right. -/
def runCalls (cfg : Config) (ext : Extern) (d : Driver) (s : Hw) (calls : List Call) : Hw :=
  calls.foldl (runCall cfg ext d) s

/-- Repeated query `atari_setcolor(colorNum, color)`: the values returned, in order, and
the final state. -/
def setcolor_repeat (cfg : Config) (colorNum color : Int) : Nat → Hw → List Int × Hw
  | 0, s => ([], s)
  | n + 1, s =>
    let r := atari_setcolor cfg s colorNum color
    let rest := setcolor_repeat cfg colorNum color n r.2
    (r.1 :: rest.1, rest.2)

/-! ## Sample configurations and states -/

/-- A plain ST: no VIDEL, no TT shifter, no STe shifter; resolutions 0..7 accepted. -/
def cfgST : Config :=
  { has_videl := false, CONF_WITH_TT_SHIFTER := false, has_tt_shifter := false,
    has_ste_shifter := false, has_dmasound := false, has_nova := false,
    MIN_REZ := 0, MAX_REZ := 7, VICKY3 := 0xFC000000, VICKY3_CTRL := 0xFC000000,
    VICKY2 := 0x00B40000, VRAM_Bank0 := 0x00C00000, CONF_VRAM_ADDRESS := 0,
    VIDEO_RAM_SIZE_UNSPECIFIED := -1, FALCON_VRAM_SIZE := 368640, FALCON_DEFAULT_BOOT := 0,
    VIDEL_PAL := 0x20, CONF_WITH_RESET := false, os_conf := 0, OS_CONF_MULTILANG := 0xff,
    OS_PAL := true }

/-- A TT: TT shifter compiled in and detected. -/
def cfgTT : Config :=
  { cfgST with CONF_WITH_TT_SHIFTER := true, has_tt_shifter := true }

/-- A Falcon: VIDEL detected. -/
def cfgFalcon : Config :=
  { cfgST with has_videl := true, has_ste_shifter := true, has_dmasound := true }

/-- Collaborators that answer zero everywhere. -/
def ext0 : Extern :=
  { vfixmode := fun _ m => m
    vgetsize := fun _ _ => 0
    Srealloc := fun _ _ => 0
    vsetmode_query := fun s => s.current_video_mode
    videl_setrez := fun s _ m => (s.sshiftmod, m)
    initialise_falcon_palette := fun s _ => s.palette
    videl_getrez := fun s => (s.sshiftmod : Int)
    videl_check_moderez := fun _ _ => 0
    videl_get_current_mode_info := fun _ => (0, 0, 0)
    vmontype := fun _ => 0
    vicky2_set_video_mode := fun s _ => s.vicky2_mode
    convert_atari2vicky_color := fun c => c
    peekw := fun _ => 0
    d0 := fun _ => 0
    args_as_pointer := fun _ _ => 0
    get_novamembase := fun _ => 0
    balloc_stram := fun _ _ _ => 0
    nvram_boot_resolution := fun _ => 0
    lookup_videl_mode := fun _ _ => true
    VALID_VDI_BPP := fun _ => true
    vsetmode := fun s m => (s.sshiftmod, m)
    initialise_tt_palette := fun s _ => s.palette
    vicky2_init := fun s => (s.vicky2_mode, s.vicky2_bitmap0) }

/-- A state with every variable and register zero: ST low on the shifter. -/
def hw0 : Hw :=
  { v_bas_ad := 0, VIDEOBASE_ADDR_HI := 0, VIDEOBASE_ADDR_MID := 0, VIDEOBASE_ADDR_LOW := 0,
    sshiftmod := 0, ST_SHIFTER := 0, TT_SHIFTER := 0, current_video_mode := 0,
    palette := fun _ => 0, rez_was_hacked := false, vblsem := 0, colorptr := 0,
    defshiftmod := 0, gpip := 0, DMASOUND_CTRL := 0, video_ram_size := 0, video_ram_addr := 0,
    v_planes := 0, V_REZ_HZ := 0, V_REZ_VT := 0, vicky2_mode := ⟨0, 0, 0, 0⟩,
    vicky2_bitmap0 := 0, VICKY_B_BG_COLOR := 0, vicky_lut0 := fun _ => 0, r32 := fun _ => 0,
    SYNCMODE := 0, STE_LINE_OFFSET := 0, STE_HORZ_SCROLL := 0, trace := [] }

/-- ST high on a monochrome monitor: shadow and shifter hold 2. -/
def hwMono : Hw := { hw0 with sshiftmod := 2, ST_SHIFTER := 2 }

/-- Collaborators as in `ext0`, with an allocator that returns the address `A`. -/
def extAlloc (A : Nat) : Extern := { ext0 with balloc_stram := fun _ _ _ => A }

/-- A state as `hw0` with a colour monitor attached (GPIP bit 7 set). -/
def hwColour : Hw := { hw0 with gpip := 0x80 }

/-- Collaborators as in `ext0`, with a `vgetsize` that needs 153600 bytes for the VIDEL mode 0
and 614400 bytes for any other mode. -/
def extVgetsize : Extern :=
  { ext0 with vgetsize := fun _ m => if m = 0 then 153600 else 614400 }

/-- An STe: STe shifter and DMA sound, no TT shifter, no VIDEL. -/
def cfgSTe : Config := { cfgST with has_ste_shifter := true, has_dmasound := true }

/-! ## Vocabulary of the statements -/

/-- The address part of Setscreen, common to the Atari and VICKY II drivers: the logical
base is stored iff `(LONG)logLoc > 0`, the physical base is programmed iff
`(LONG)physLoc > 0`. -/
def setscreen_addresses (cfg : Config) (d : Driver) (s : Hw) (logLoc physLoc : Nat) : Hw :=
  let s := if toLONG logLoc > 0 then { s with v_bas_ad := logLoc } else s
  if toLONG physLoc > 0 then screen_setphys cfg d s physLoc else s

/-- The mode variables (shadow, shifter registers, VIDEL and VICKY II mode) and the trace
of collaborator calls are the same in `s1` as in `s`: no mode change, no call to the
allocator, to `vsync` or to the console layer. -/
def ModeUntouched (s s1 : Hw) : Prop :=
  s1.sshiftmod = s.sshiftmod ∧ s1.ST_SHIFTER = s.ST_SHIFTER ∧ s1.TT_SHIFTER = s.TT_SHIFTER ∧
  s1.current_video_mode = s.current_video_mode ∧ s1.vicky2_mode = s.vicky2_mode ∧
  s1.trace = s.trace

/-- The physical video-base registers of the Atari chipsets are the same in `s1` as in `s`. -/
def VideoBaseUntouched (s s1 : Hw) : Prop :=
  s1.VIDEOBASE_ADDR_HI = s.VIDEOBASE_ADDR_HI ∧ s1.VIDEOBASE_ADDR_MID = s.VIDEOBASE_ADDR_MID ∧
  s1.VIDEOBASE_ADDR_LOW = s.VIDEOBASE_ADDR_LOW

/-- The resolution that `shifter_check_moderez` goes on with for the low byte `nn` of its
argument: the monochrome resolution is replaced (`TT_HIGH` by `TT_MEDIUM` on a TT,
`ST_HIGH` by `ST_LOW` otherwise), any other value is kept. -/
def demote_mono (cfg : Config) (nn : Nat) : Nat :=
  if HAS_TT_SHIFTER cfg then (if nn = 6 then 4 else nn) else (if nn = 2 then 0 else nn)

/-- The colour bits of the chipset: 0x0fff with a VIDEL, TT or STe shifter, 0x0777 on a
plain ST. -/
def colour_mask (cfg : Config) : Nat :=
  if cfg.has_videl || HAS_TT_SHIFTER cfg || cfg.has_ste_shifter then 0x0fff else 0x0777

/-- The raw byte requirement of a mode `(planes, w, h)`: `(w / 8 * planes) * h`. -/
def raw_vram_size (t : Nat × Nat × Nat) : Nat := (t.2.1 / 8 * t.1) * t.2.2

/-- The product `planes * w * h` of a mode `(planes, w, h)`. -/
def mode_product (t : Nat × Nat × Nat) : Nat := t.1 * t.2.1 * t.2.2

/-- The modes `(planes, w, h)` of `vmode_table`, the all-zero row included. -/
def shifter_modes : List (Nat × Nat × Nat) :=
  [(4, 320, 200), (2, 640, 200), (1, 640, 400), (0, 0, 0), (4, 640, 480), (1, 1280, 960),
   (8, 320, 480)]

/-- The monochrome resolution of a shifter: `TT_HIGH` on a TT, `ST_HIGH` otherwise. -/
def mono_res (cfg : Config) : Nat := if HAS_TT_SHIFTER cfg then 6 else 2

/-- The bits of the shifter register that `screen_detect_monitor_change` reads as the
current resolution: three on a TT, two otherwise. -/
def res_mask (cfg : Config) : Nat := if HAS_TT_SHIFTER cfg then 7 else 3

/-- The shifter register of the chipset, as a byte. -/
def shifter_reg (cfg : Config) (s : Hw) : Nat :=
  (if HAS_TT_SHIFTER cfg then s.TT_SHIFTER else s.ST_SHIFTER) % 256

/-- The state with a new value in the shifter register of the chipset. -/
def with_shifter_reg (cfg : Config) (s : Hw) (v : Nat) : Hw :=
  if HAS_TT_SHIFTER cfg then { s with TT_SHIFTER := v } else { s with ST_SHIFTER := v }

/-- The fallback resolution for a monitor sensed with flag `monoflag`: the monochrome
resolution for a monochrome monitor (`monoflag >= 0`); for a colour monitor `defshiftmod`,
or `ST_LOW` when `defshiftmod` is the monochrome resolution. -/
def fallback_res (cfg : Config) (s : Hw) (monoflag : Int) : Nat :=
  if monoflag ≥ 0 then mono_res cfg
  else if s.defshiftmod % 256 = mono_res cfg then 0 else s.defshiftmod % 256

/-- The sensed monitor disagrees with the current resolution: the current resolution is the
monochrome one and the monitor is colour, or the other way round. -/
def monitor_mismatch (cfg : Config) (s : Hw) : Prop :=
  ¬ (((shifter_reg cfg s &&& res_mask cfg) = mono_res cfg) ↔ (sense_monoflag cfg s ≥ 0))

/-- The state in which `screen_init` calls `setup_video_ram` on the Atari driver: after
`screen_atari_init`, with `rez_was_hacked` cleared. -/
def atari_booted (cfg : Config) (ext : Extern) (s : Hw) : Hw :=
  { screen_atari_init cfg ext s with rez_was_hacked := FALSE }

/-- The address `A` is one the video-base registers of the chipset can hold: below 2^24, and
on a plain ST a multiple of 256. -/
def representable (cfg : Config) (A : Nat) : Prop :=
  A < 16777216 ∧
  ((cfg.has_videl || HAS_TT_SHIFTER cfg || cfg.has_ste_shifter) = false → A % 256 = 0)

/-- The calls that re-initialise the console layer: `linea_init` and `vt52_init`. -/
def is_console_event : Event → Bool
  | Event.linea_init _ _ _ => true
  | Event.vt52_init => true
  | _ => false

/-- The resolutions of the chipset that are not reserved: 0, 1, 2 on an ST or STe;
0, 1, 2, 4, 6, 7 on a TT. -/
def valid_res (cfg : Config) (n : Nat) : Prop :=
  if HAS_TT_SHIFTER cfg then n = 0 ∨ n = 1 ∨ n = 2 ∨ n = 4 ∨ n = 6 ∨ n = 7
  else n = 0 ∨ n = 1 ∨ n = 2

/-- The shadow `sshiftmod` agrees with the resolution bits of the shifter register and is a
resolution of the chipset. -/
def shadow_ok (cfg : Config) (s : Hw) : Prop :=
  s.sshiftmod = shifter_reg cfg s &&& res_mask cfg ∧ valid_res cfg s.sshiftmod

/-- Bit 7 of a byte. -/
def bit7 (g : Nat) : Bool := decide ((g % 256) &&& 0x80 ≠ 0)

/-- Bit 0 of a byte. -/
def bit0 (d : Nat) : Bool := decide ((d % 256) &&& 0x01 ≠ 0)

/-! # Theorems -/

/-! ## Driver tables: what the initialisers populate -/

/-- C1: the three tables do not populate all fourteen slots in declaration order. The two
VICKY tables have thirteen initialisers, so their `setcolor` slot holds the palette writer
and their `set_palette` slot is null; the Atari table has fourteen, but its `set_palette`
slot holds the VICKY II palette writer and not `atari_set_palette`. The first twelve slots
of every table are populated. -/
theorem C1_driver_table_slots :
    a2560_screen_driver_vicky2.set_palette = none ∧
    a2560_screen_driver_vicky2.setcolor = some Fn.screen_vicky2_set_palette ∧
    a2560_screen_driver_vicky3.set_palette = none ∧
    a2560_screen_driver_vicky3.setcolor = some Fn.vicky3_set_palette ∧
    screen_driver_atari.setcolor = some Fn.atari_setcolor ∧
    screen_driver_atari.set_palette = some Fn.screen_vicky2_set_palette ∧
    screen_driver_atari.set_palette ≠ some Fn.atari_set_palette ∧
    (∀ d : Driver, ∀ o ∈ (screen_driver d).slots.take 12, o ≠ none) := by
  refine ⟨by decide, by decide, by decide, by decide, by decide, by decide, by decide, ?_⟩
  intro d
  cases d <;> decide

/-! ## Setscreen: the early returns -/

/-- The flag `rez_was_hacked` is not written by `screen_setphys`. -/
theorem screen_setphys_rez_was_hacked (cfg : Config) (d : Driver) (s : Hw) (addr : Nat) :
    (screen_setphys cfg d s addr).rez_was_hacked = s.rez_was_hacked := by
  cases d <;> simp only [screen_setphys, atari_setphys, screen_vicky2_setphys, vicky3_setphys]
  split <;> rfl

/-- The address part of Setscreen leaves the hacked flag alone. -/
theorem setscreen_addresses_rez_was_hacked (cfg : Config) (d : Driver) (s : Hw)
    (logLoc physLoc : Nat) :
    (setscreen_addresses cfg d s logLoc physLoc).rez_was_hacked = s.rez_was_hacked := by
  unfold setscreen_addresses
  by_cases h1 : toLONG logLoc > 0 <;> by_cases h2 : toLONG physLoc > 0 <;>
    simp [h1, h2, screen_setphys_rez_was_hacked]

/-- The address part of Setscreen touches neither the mode variables nor the trace. -/
theorem setscreen_addresses_frame (cfg : Config) (d : Driver) (s : Hw) (logLoc physLoc : Nat) :
    let s1 := setscreen_addresses cfg d s logLoc physLoc
    s1.sshiftmod = s.sshiftmod ∧ s1.ST_SHIFTER = s.ST_SHIFTER ∧ s1.TT_SHIFTER = s.TT_SHIFTER ∧
    s1.current_video_mode = s.current_video_mode ∧ s1.vicky2_mode = s.vicky2_mode ∧
    s1.trace = s.trace ∧ s1.palette = s.palette ∧ s1.vblsem = s.vblsem := by
  unfold setscreen_addresses
  by_cases h1 : toLONG logLoc > 0 <;> by_cases h2 : toLONG physLoc > 0 <;>
    cases d <;>
    simp [h1, h2, screen_setphys, atari_setphys, screen_vicky2_setphys, vicky3_setphys] <;>
    split <;> simp

/-- With both addresses non-positive the address part of Setscreen is the identity. -/
theorem setscreen_addresses_none (cfg : Config) (d : Driver) (s : Hw) (logLoc physLoc : Nat)
    (h1 : toLONG logLoc ≤ 0) (h2 : toLONG physLoc ≤ 0) :
    setscreen_addresses cfg d s logLoc physLoc = s := by
  unfold setscreen_addresses
  simp [not_lt.mpr h1, not_lt.mpr h2]

/-- Setscreen on the Atari driver when changes are forbidden or `rez` is -1. -/
theorem atari_setscreen_neutral (cfg : Config) (ext : Extern) (s : Hw) (logLoc physLoc : Nat)
    (rez videlmode : Int) (h : s.rez_was_hacked = true ∨ rez = -1) :
    atari_setscreen cfg ext s logLoc physLoc rez videlmode =
      (0, setscreen_addresses cfg Driver.atari s logLoc physLoc) := by
  have hf := setscreen_addresses_rez_was_hacked cfg Driver.atari s logLoc physLoc
  unfold setscreen_addresses at hf
  unfold atari_setscreen setscreen_addresses
  simp only [hf]
  rw [if_pos h]

/-- Setscreen on the VICKY II driver when changes are forbidden or `rez` is -1. -/
theorem screen_vicky2_setscreen_neutral (cfg : Config) (ext : Extern) (s : Hw)
    (logLoc physLoc : Nat) (rez videlmode : Int) (h : s.rez_was_hacked = true ∨ rez = -1) :
    screen_vicky2_setscreen cfg ext s logLoc physLoc rez videlmode =
      (0, setscreen_addresses cfg Driver.vicky2 s logLoc physLoc) := by
  have hf := setscreen_addresses_rez_was_hacked cfg Driver.vicky2 s logLoc physLoc
  unfold setscreen_addresses at hf
  unfold screen_vicky2_setscreen setscreen_addresses
  simp only [hf]
  rw [if_pos h]

/-- The address part of Setscreen leaves the mode variables and the trace alone. -/
theorem setscreen_addresses_mode (cfg : Config) (d : Driver) (s : Hw) (logLoc physLoc : Nat) :
    ModeUntouched s (setscreen_addresses cfg d s logLoc physLoc) := by
  have h := setscreen_addresses_frame cfg d s logLoc physLoc
  exact ⟨h.1, h.2.1, h.2.2.1, h.2.2.2.1, h.2.2.2.2.1, h.2.2.2.2.2.1⟩

/-- C2: when `rez_was_hacked` is set or `rez` is -1, `atari_setscreen` and
`screen_vicky2_setscreen` return 0 (so never -1), whatever `rez` is; they leave `sshiftmod`,
the shifter registers and the video mode as they were and call neither `Srealloc`, `vsync`
nor the console re-initialisation (the trace is unchanged); and when moreover
`(LONG)logLoc <= 0` and `(LONG)physLoc <= 0` the whole state is unchanged. -/
theorem C2_setscreen_neutral (cfg : Config) (ext : Extern) (s : Hw) (logLoc physLoc : Nat)
    (rez videlmode : Int) (h : s.rez_was_hacked = true ∨ rez = -1) :
    ((atari_setscreen cfg ext s logLoc physLoc rez videlmode).1 = 0 ∧
      (atari_setscreen cfg ext s logLoc physLoc rez videlmode).1 ≠ -1 ∧
      ModeUntouched s (atari_setscreen cfg ext s logLoc physLoc rez videlmode).2 ∧
      (toLONG logLoc ≤ 0 → toLONG physLoc ≤ 0 →
        (atari_setscreen cfg ext s logLoc physLoc rez videlmode).2 = s)) ∧
    ((screen_vicky2_setscreen cfg ext s logLoc physLoc rez videlmode).1 = 0 ∧
      (screen_vicky2_setscreen cfg ext s logLoc physLoc rez videlmode).1 ≠ -1 ∧
      ModeUntouched s (screen_vicky2_setscreen cfg ext s logLoc physLoc rez videlmode).2 ∧
      (toLONG logLoc ≤ 0 → toLONG physLoc ≤ 0 →
        (screen_vicky2_setscreen cfg ext s logLoc physLoc rez videlmode).2 = s)) := by
  rw [atari_setscreen_neutral cfg ext s logLoc physLoc rez videlmode h,
    screen_vicky2_setscreen_neutral cfg ext s logLoc physLoc rez videlmode h]
  have hne : (0 : Int) ≠ -1 := by decide
  refine ⟨⟨rfl, hne, setscreen_addresses_mode _ _ _ _ _, ?_⟩,
    ⟨rfl, hne, setscreen_addresses_mode _ _ _ _ _, ?_⟩⟩
  · intro h1 h2
    exact setscreen_addresses_none _ _ _ _ _ h1 h2
  · intro h1 h2
    exact setscreen_addresses_none _ _ _ _ _ h1 h2

/-- Witness of C2: a hacked state, an out-of-range `rez` of 100 and both addresses given. -/
theorem C2_setscreen_neutral_witness :
    ({ hw0 with rez_was_hacked := true } : Hw).rez_was_hacked = true ∧
    (atari_setscreen cfgST ext0 { hw0 with rez_was_hacked := true } 0x1000 0x2000 100 0).1 = 0 ∧
    (screen_vicky2_setscreen cfgST ext0 { hw0 with rez_was_hacked := true }
      0x1000 0x2000 100 0).1 = 0 :=
  ⟨rfl,
   (C2_setscreen_neutral cfgST ext0 { hw0 with rez_was_hacked := true } 0x1000 0x2000 100 0
      (Or.inl rfl)).1.1,
   (C2_setscreen_neutral cfgST ext0 { hw0 with rez_was_hacked := true } 0x1000 0x2000 100 0
      (Or.inl rfl)).2.1⟩

/-! ## The hacked state is terminal -/

/-- The flag is set by `screen_set_rez_hacked`. -/
theorem screen_set_rez_hacked_flag (s : Hw) : (screen_set_rez_hacked s).rez_was_hacked = true := by
  simp [screen_set_rez_hacked, screen_init_services, emit]

/-- The flag is not written by `atari_setcolor`. -/
theorem atari_setcolor_flag (cfg : Config) (s : Hw) (colorNum color : Int) :
    (atari_setcolor cfg s colorNum color).2.rez_was_hacked = s.rez_was_hacked := by
  unfold atari_setcolor
  by_cases h : color ≥ 0 <;> simp [h]

/-- The flag is not written by the lookup-table loop of the VICKY II palette writer. -/
theorem vicky2_lut_loop_flag (ext : Extern) (p : Nat → Nat) (i : Nat) (s : Hw) :
    (vicky2_lut_loop ext p i s).rez_was_hacked = s.rez_was_hacked := by
  induction i generalizing s with
  | zero => simp [vicky2_lut_loop]
  | succ n ih => simp [vicky2_lut_loop, ih]

/-- The flag is not written by what the `setcolor` slot calls. -/
theorem setcolor_flag (cfg : Config) (ext : Extern) (d : Driver) (s : Hw) (colorNum color : Int) :
    (setcolor cfg ext d s colorNum color).2.rez_was_hacked = s.rez_was_hacked := by
  cases d
  · exact atari_setcolor_flag cfg s colorNum color
  · simp [setcolor, screen_vicky2_set_palette, vicky2_lut_loop_flag]
  · simp [setcolor, vicky3_set_palette]

/-- The flag is not written by `screen_detect_monitor_change`. -/
theorem screen_detect_monitor_change_flag (cfg : Config) (s : Hw) :
    (screen_detect_monitor_change cfg s).rez_was_hacked = s.rez_was_hacked := by
  unfold screen_detect_monitor_change
  split
  · rfl
  · simp only []
    split
    · rfl
    · split <;> simp [emit]

/-- A Setscreen call made in the hacked state leaves the flag set, for every driver. -/
theorem setscreen_flag (cfg : Config) (ext : Extern) (d : Driver) (s : Hw) (logLoc physLoc : Nat)
    (rez videlmode : Int) (h : s.rez_was_hacked = true) :
    (setscreen cfg ext d s logLoc physLoc rez videlmode).2.rez_was_hacked = true := by
  cases d
  · simp only [setscreen]
    rw [atari_setscreen_neutral cfg ext s logLoc physLoc rez videlmode (Or.inl h)]
    simp [setscreen_addresses_rez_was_hacked, h]
  · simp only [setscreen]
    rw [screen_vicky2_setscreen_neutral cfg ext s logLoc physLoc rez videlmode (Or.inl h)]
    simp [setscreen_addresses_rez_was_hacked, h]
  · simpa [setscreen, vicky3_setscreen] using h

/-- One call made in the hacked state leaves the flag set. -/
theorem runCall_flag (cfg : Config) (ext : Extern) (d : Driver) (s : Hw) (c : Call)
    (h : s.rez_was_hacked = true) : (runCall cfg ext d s c).rez_was_hacked = true := by
  cases c with
  | check_moderez m => simpa [runCall] using h
  | setscreen logLoc physLoc rez videlmode =>
    simpa [runCall] using setscreen_flag cfg ext d s logLoc physLoc rez videlmode h
  | setcolor colorNum color => simp [runCall, setcolor_flag, h]
  | setpalette palettePtr => simpa [runCall, setpalette] using h
  | screen_setphys addr => simp [runCall, screen_setphys_rez_was_hacked, h]
  | screen_detect_monitor_change =>
    cases d <;> simp [runCall, screen_detect_monitor_change_flag, h]

/-- Any sequence of calls made in the hacked state leaves the flag set. -/
theorem runCalls_flag (cfg : Config) (ext : Extern) (d : Driver) (calls : List Call) (s : Hw)
    (h : s.rez_was_hacked = true) : (runCalls cfg ext d s calls).rez_was_hacked = true := by
  induction calls generalizing s with
  | nil => simpa [runCalls] using h
  | cons c cs ih =>
    have := ih (runCall cfg ext d s c) (runCall_flag cfg ext d s c h)
    simpa [runCalls] using this

/-- In the hacked state `check_moderez` answers 0, for every driver and argument. -/
theorem check_moderez_hacked (cfg : Config) (ext : Extern) (d : Driver) (s : Hw) (m : Int)
    (h : s.rez_was_hacked = true) : check_moderez cfg ext d s m = 0 := by
  simp [check_moderez, screen_can_change_resolution, h, FALSE]

/-- Before the lock, on a plain ST in ST low, the code 0xFF01 (ST medium) is accepted:
`check_moderez` returns it. -/
theorem check_moderez_before_lock :
    check_moderez cfgST ext0 Driver.atari hw0 (sword 0xFF01) = sword 0xFF01 := by
  decide

/-- C3: after `screen_set_rez_hacked`, whatever finite sequence of `check_moderez`,
`setscreen`, `setcolor`, `setpalette`, `screen_setphys` and `screen_detect_monitor_change`
calls follows, on any of the three drivers, `rez_was_hacked` is still set and
`check_moderez(m)` returns 0 for every `m`. -/
theorem C3_hacked_is_terminal (cfg : Config) (ext : Extern) (d : Driver) (s : Hw)
    (calls : List Call) :
    (runCalls cfg ext d (screen_set_rez_hacked s) calls).rez_was_hacked = true ∧
    ∀ m : Int, check_moderez cfg ext d (runCalls cfg ext d (screen_set_rez_hacked s) calls) m = 0 := by
  have h := runCalls_flag cfg ext d calls (screen_set_rez_hacked s) (screen_set_rez_hacked_flag s)
  exact ⟨h, fun m => check_moderez_hacked cfg ext d _ m h⟩

/-! ## Setscreen: invalid resolutions -/

/-- The logical base after the address part of Setscreen. -/
theorem setscreen_addresses_v_bas_ad (cfg : Config) (d : Driver) (s : Hw) (logLoc physLoc : Nat) :
    (setscreen_addresses cfg d s logLoc physLoc).v_bas_ad =
      if toLONG logLoc > 0 then logLoc else s.v_bas_ad := by
  unfold setscreen_addresses
  by_cases h1 : toLONG logLoc > 0 <;> by_cases h2 : toLONG physLoc > 0 <;>
    cases d <;>
    simp [h1, h2, screen_setphys, atari_setphys, screen_vicky2_setphys, vicky3_setphys] <;>
    split <;> simp

/-- The physical base registers after the address part of Setscreen, Atari driver. -/
theorem setscreen_addresses_videobase (cfg : Config) (s : Hw) (logLoc physLoc : Nat) :
    (toLONG physLoc ≤ 0 →
      VideoBaseUntouched s (setscreen_addresses cfg Driver.atari s logLoc physLoc)) ∧
    (toLONG physLoc > 0 →
      (setscreen_addresses cfg Driver.atari s logLoc physLoc).VIDEOBASE_ADDR_HI =
        ((physLoc % 4294967296) >>> 16) % 256 ∧
      (setscreen_addresses cfg Driver.atari s logLoc physLoc).VIDEOBASE_ADDR_MID =
        ((physLoc % 4294967296) >>> 8) % 256) := by
  unfold setscreen_addresses VideoBaseUntouched
  constructor
  · intro h2
    by_cases h1 : toLONG logLoc > 0 <;> simp [h1, not_lt.mpr h2]
  · intro h2
    by_cases h1 : toLONG logLoc > 0 <;>
      simp [h1, h2, screen_setphys, atari_setphys] <;> split <;> simp

/-- The body of `atari_setscreen` after its address part. -/
theorem atari_setscreen_eq (cfg : Config) (ext : Extern) (s : Hw) (logLoc physLoc : Nat)
    (rez videlmode : Int) :
    atari_setscreen cfg ext s logLoc physLoc rez videlmode =
      if (setscreen_addresses cfg Driver.atari s logLoc physLoc).rez_was_hacked = true ∨ rez = -1
      then (0, setscreen_addresses cfg Driver.atari s logLoc physLoc)
      else if rez < cfg.MIN_REZ ∨ rez > cfg.MAX_REZ
      then (-1, setscreen_addresses cfg Driver.atari s logLoc physLoc)
      else
        match atari_setscreen_videl cfg ext (setscreen_addresses cfg Driver.atari s logLoc physLoc)
            logLoc physLoc rez videlmode with
        | (s1, none) => (-1, s1)
        | (s1, some (videlmode1, oldmode)) =>
          (oldmode, screen_init_services_from_mode_info cfg ext Driver.atari
            (atari_setrez cfg ext (vsync s1) rez videlmode1)) := rfl

/-- The body of `screen_vicky2_setscreen` after its address part. -/
theorem screen_vicky2_setscreen_eq (cfg : Config) (ext : Extern) (s : Hw) (logLoc physLoc : Nat)
    (rez videlmode : Int) :
    screen_vicky2_setscreen cfg ext s logLoc physLoc rez videlmode =
      if (setscreen_addresses cfg Driver.vicky2 s logLoc physLoc).rez_was_hacked = true ∨ rez = -1
      then (0, setscreen_addresses cfg Driver.vicky2 s logLoc physLoc)
      else if rez < cfg.MIN_REZ ∨ rez > cfg.MAX_REZ
      then (-1, setscreen_addresses cfg Driver.vicky2 s logLoc physLoc)
      else
        (0, screen_init_services_from_mode_info cfg ext Driver.vicky2
          (screen_vicky2_setrez ext (vsync (setscreen_addresses cfg Driver.vicky2 s logLoc physLoc))
            rez videlmode)) := rfl

/-- The guard of the first early return fails when the display is not hacked and `rez` is
not -1. -/
theorem not_neutral_guard (cfg : Config) (d : Driver) (s : Hw) (logLoc physLoc : Nat) (rez : Int)
    (hh : s.rez_was_hacked = false) (hn : rez ≠ -1) :
    ¬ ((setscreen_addresses cfg d s logLoc physLoc).rez_was_hacked = true ∨ rez = -1) := by
  rw [setscreen_addresses_rez_was_hacked, hh]
  simp [hn]

/-- Setscreen on the Atari driver for a resolution outside `[MIN_REZ, MAX_REZ]`. -/
theorem atari_setscreen_invalid (cfg : Config) (ext : Extern) (s : Hw) (logLoc physLoc : Nat)
    (rez videlmode : Int) (hh : s.rez_was_hacked = false)
    (hr : rez < cfg.MIN_REZ ∨ rez > cfg.MAX_REZ) (hn : rez ≠ -1) :
    atari_setscreen cfg ext s logLoc physLoc rez videlmode =
      (-1, setscreen_addresses cfg Driver.atari s logLoc physLoc) := by
  rw [atari_setscreen_eq, if_neg (not_neutral_guard cfg _ s logLoc physLoc rez hh hn), if_pos hr]

/-- Setscreen on the VICKY II driver for a resolution outside `[MIN_REZ, MAX_REZ]`. -/
theorem screen_vicky2_setscreen_invalid (cfg : Config) (ext : Extern) (s : Hw)
    (logLoc physLoc : Nat) (rez videlmode : Int) (hh : s.rez_was_hacked = false)
    (hr : rez < cfg.MIN_REZ ∨ rez > cfg.MAX_REZ) (hn : rez ≠ -1) :
    screen_vicky2_setscreen cfg ext s logLoc physLoc rez videlmode =
      (-1, setscreen_addresses cfg Driver.vicky2 s logLoc physLoc) := by
  rw [screen_vicky2_setscreen_eq, if_neg (not_neutral_guard cfg _ s logLoc physLoc rez hh hn),
    if_pos hr]

/-- C4, counterexample: on a plain ST that is not hacked, `atari_setscreen` with the invalid
resolution 8 (outside 0..7, not -1), `logLoc = 0x1000` and `physLoc = 0x12300` returns -1
but has already stored the logical base and programmed the video-base registers. -/
theorem C4_counterexample :
    hw0.rez_was_hacked = false ∧ ((8 : Int) < cfgST.MIN_REZ ∨ (8 : Int) > cfgST.MAX_REZ) ∧
    (8 : Int) ≠ -1 ∧
    (atari_setscreen cfgST ext0 hw0 0x1000 0x12300 8 0).1 = -1 ∧
    (atari_setscreen cfgST ext0 hw0 0x1000 0x12300 8 0).2.v_bas_ad = 0x1000 ∧
    hw0.v_bas_ad = 0 ∧
    (atari_setscreen cfgST ext0 hw0 0x1000 0x12300 8 0).2.VIDEOBASE_ADDR_HI = 0x01 ∧
    (atari_setscreen cfgST ext0 hw0 0x1000 0x12300 8 0).2.VIDEOBASE_ADDR_MID = 0x23 ∧
    hw0.VIDEOBASE_ADDR_HI = 0 ∧ hw0.VIDEOBASE_ADDR_MID = 0 := by
  decide

/-- The state after the address part of Setscreen on the Atari driver: the logical base and
the three video-base registers are the only fields that can differ. -/
theorem setscreen_addresses_atari_eq (cfg : Config) (s : Hw) (logLoc physLoc : Nat) :
    setscreen_addresses cfg Driver.atari s logLoc physLoc =
      { s with
        v_bas_ad := if toLONG logLoc > 0 then logLoc else s.v_bas_ad,
        VIDEOBASE_ADDR_HI :=
          if toLONG physLoc > 0 then ((physLoc % 4294967296) >>> 16) % 256
          else s.VIDEOBASE_ADDR_HI,
        VIDEOBASE_ADDR_MID :=
          if toLONG physLoc > 0 then ((physLoc % 4294967296) >>> 8) % 256
          else s.VIDEOBASE_ADDR_MID,
        VIDEOBASE_ADDR_LOW :=
          if toLONG physLoc > 0 ∧
              (cfg.has_videl || HAS_TT_SHIFTER cfg || cfg.has_ste_shifter) = true
          then (physLoc % 4294967296) % 256 else s.VIDEOBASE_ADDR_LOW } := by
  unfold setscreen_addresses screen_setphys atari_setphys
  by_cases h1 : toLONG logLoc > 0 <;> by_cases h2 : toLONG physLoc > 0 <;>
    by_cases h3 : (cfg.has_videl || HAS_TT_SHIFTER cfg || cfg.has_ste_shifter) = true <;>
    simp only [h1, h2, h3, if_true, if_false, and_self, and_true, and_false, true_and,
      false_and, Bool.false_eq_true]

/-- The state after the address part of Setscreen on the VICKY II driver: only the logical
base can differ, `screen_vicky2_setphys` being empty. -/
theorem setscreen_addresses_vicky2_eq (cfg : Config) (s : Hw) (logLoc physLoc : Nat) :
    setscreen_addresses cfg Driver.vicky2 s logLoc physLoc =
      { s with v_bas_ad := if toLONG logLoc > 0 then logLoc else s.v_bas_ad } := by
  unfold setscreen_addresses screen_setphys screen_vicky2_setphys
  by_cases h1 : toLONG logLoc > 0 <;> by_cases h2 : toLONG physLoc > 0 <;>
    simp only [h1, h2, if_true, if_false]

/-- C4, amended: for a resolution outside `[MIN_REZ, MAX_REZ]` other than -1, the display not
hacked, `atari_setscreen` and `screen_vicky2_setscreen` return -1 after the address part of
Setscreen has run. `sshiftmod`, the shifter registers and the video mode are unchanged and
no collaborator is called. The logical base is `logLoc` when `(LONG)logLoc > 0` and
unchanged otherwise. On the Atari driver the video-base registers are programmed from
`physLoc` when `(LONG)physLoc > 0` (bits 16..23 in the high register, bits 8..15 in the
middle one, bits 0..7 in the low one where the chipset has it) and unchanged otherwise, and
no other field of the state changes. On the VICKY II driver the physical base is not
programmed, `screen_vicky2_setphys` being empty: only the logical base can change and
`physbase()` returns what it did. With both addresses non-positive the whole state is
unchanged. -/
theorem C4_setscreen_invalid_rez (cfg : Config) (ext : Extern) (s : Hw) (logLoc physLoc : Nat)
    (rez videlmode : Int) (hh : s.rez_was_hacked = false)
    (hr : rez < cfg.MIN_REZ ∨ rez > cfg.MAX_REZ) (hn : rez ≠ -1) :
    ((atari_setscreen cfg ext s logLoc physLoc rez videlmode).1 = -1 ∧
      ModeUntouched s (atari_setscreen cfg ext s logLoc physLoc rez videlmode).2 ∧
      (atari_setscreen cfg ext s logLoc physLoc rez videlmode).2.v_bas_ad =
        (if toLONG logLoc > 0 then logLoc else s.v_bas_ad) ∧
      (toLONG physLoc ≤ 0 →
        VideoBaseUntouched s (atari_setscreen cfg ext s logLoc physLoc rez videlmode).2) ∧
      (toLONG logLoc ≤ 0 → toLONG physLoc ≤ 0 →
        (atari_setscreen cfg ext s logLoc physLoc rez videlmode).2 = s) ∧
      (toLONG physLoc > 0 →
        (atari_setscreen cfg ext s logLoc physLoc rez videlmode).2.VIDEOBASE_ADDR_HI =
          ((physLoc % 4294967296) >>> 16) % 256 ∧
        (atari_setscreen cfg ext s logLoc physLoc rez videlmode).2.VIDEOBASE_ADDR_MID =
          ((physLoc % 4294967296) >>> 8) % 256 ∧
        (atari_setscreen cfg ext s logLoc physLoc rez videlmode).2.VIDEOBASE_ADDR_LOW =
          (if cfg.has_videl || HAS_TT_SHIFTER cfg || cfg.has_ste_shifter
           then (physLoc % 4294967296) % 256 else s.VIDEOBASE_ADDR_LOW)) ∧
      (atari_setscreen cfg ext s logLoc physLoc rez videlmode).2 =
        { s with
          v_bas_ad := if toLONG logLoc > 0 then logLoc else s.v_bas_ad,
          VIDEOBASE_ADDR_HI :=
            if toLONG physLoc > 0 then ((physLoc % 4294967296) >>> 16) % 256
            else s.VIDEOBASE_ADDR_HI,
          VIDEOBASE_ADDR_MID :=
            if toLONG physLoc > 0 then ((physLoc % 4294967296) >>> 8) % 256
            else s.VIDEOBASE_ADDR_MID,
          VIDEOBASE_ADDR_LOW :=
            if toLONG physLoc > 0 ∧
                (cfg.has_videl || HAS_TT_SHIFTER cfg || cfg.has_ste_shifter) = true
            then (physLoc % 4294967296) % 256 else s.VIDEOBASE_ADDR_LOW }) ∧
    ((screen_vicky2_setscreen cfg ext s logLoc physLoc rez videlmode).1 = -1 ∧
      ModeUntouched s (screen_vicky2_setscreen cfg ext s logLoc physLoc rez videlmode).2 ∧
      (screen_vicky2_setscreen cfg ext s logLoc physLoc rez videlmode).2.v_bas_ad =
        (if toLONG logLoc > 0 then logLoc else s.v_bas_ad) ∧
      (toLONG logLoc ≤ 0 → toLONG physLoc ≤ 0 →
        (screen_vicky2_setscreen cfg ext s logLoc physLoc rez videlmode).2 = s) ∧
      (screen_vicky2_setscreen cfg ext s logLoc physLoc rez videlmode).2 =
        { s with v_bas_ad := if toLONG logLoc > 0 then logLoc else s.v_bas_ad } ∧
      VideoBaseUntouched s (screen_vicky2_setscreen cfg ext s logLoc physLoc rez videlmode).2 ∧
      screen_vicky2_physbase cfg
          (screen_vicky2_setscreen cfg ext s logLoc physLoc rez videlmode).2 =
        screen_vicky2_physbase cfg s) := by
  rw [atari_setscreen_invalid cfg ext s logLoc physLoc rez videlmode hh hr hn,
    screen_vicky2_setscreen_invalid cfg ext s logLoc physLoc rez videlmode hh hr hn]
  refine ⟨⟨rfl, setscreen_addresses_mode _ _ _ _ _, setscreen_addresses_v_bas_ad _ _ _ _ _,
      (setscreen_addresses_videobase _ _ _ _).1, ?_, ?_, setscreen_addresses_atari_eq _ _ _ _⟩,
    ⟨rfl, setscreen_addresses_mode _ _ _ _ _, setscreen_addresses_v_bas_ad _ _ _ _ _, ?_,
      setscreen_addresses_vicky2_eq _ _ _ _, ?_, ?_⟩⟩
  · intro h1 h2
    exact setscreen_addresses_none _ _ _ _ _ h1 h2
  · intro h2
    simp only []
    rw [setscreen_addresses_atari_eq]
    by_cases h3 : (cfg.has_videl || HAS_TT_SHIFTER cfg || cfg.has_ste_shifter) = true
    · simp only [h2, h3, if_true, and_self]
    · simp only [h2, h3, if_true, if_false, and_self, and_false, Bool.false_eq_true]
  · intro h1 h2
    exact setscreen_addresses_none _ _ _ _ _ h1 h2
  · simp only []
    rw [setscreen_addresses_vicky2_eq]
    exact ⟨rfl, rfl, rfl⟩
  · simp only []
    rw [setscreen_addresses_vicky2_eq]
    rfl

/-- Witness of C4 (amended): resolution 8 on a plain ST, both addresses given. The Atari
driver leaves 0x01 and 0x23 in the video-base registers, the VICKY II driver leaves
`physbase()` as it was. -/
theorem C4_setscreen_invalid_rez_witness :
    hw0.rez_was_hacked = false ∧ ((8 : Int) < cfgST.MIN_REZ ∨ (8 : Int) > cfgST.MAX_REZ) ∧
    (atari_setscreen cfgST ext0 hw0 0x1000 0x12300 8 0).1 = -1 ∧
    (screen_vicky2_setscreen cfgST ext0 hw0 0x1000 0x12300 8 0).1 = -1 ∧
    (atari_setscreen cfgST ext0 hw0 0x1000 0x12300 8 0).2.VIDEOBASE_ADDR_HI = 0x01 ∧
    (atari_setscreen cfgST ext0 hw0 0x1000 0x12300 8 0).2.VIDEOBASE_ADDR_MID = 0x23 ∧
    screen_vicky2_physbase cfgST (screen_vicky2_setscreen cfgST ext0 hw0 0x1000 0x12300 8 0).2 =
      screen_vicky2_physbase cfgST hw0 :=
  ⟨rfl, by decide,
   (C4_setscreen_invalid_rez cfgST ext0 hw0 0x1000 0x12300 8 0 rfl (by decide) (by decide)).1.1,
   (C4_setscreen_invalid_rez cfgST ext0 hw0 0x1000 0x12300 8 0 rfl (by decide) (by decide)).2.1,
   ((C4_setscreen_invalid_rez cfgST ext0 hw0 0x1000 0x12300 8 0 rfl (by decide)
      (by decide)).1.2.2.2.2.2.1 (by decide)).1,
   ((C4_setscreen_invalid_rez cfgST ext0 hw0 0x1000 0x12300 8 0 rfl (by decide)
      (by decide)).1.2.2.2.2.2.1 (by decide)).2.1,
   (C4_setscreen_invalid_rez cfgST ext0 hw0 0x1000 0x12300 8 0 rfl (by decide)
      (by decide)).2.2.2.2.2.2.2⟩

/-! ## Setscreen on the shifters: the mode-change path -/

/-- Without VIDEL the VIDEL block of `atari_setscreen` does nothing. -/
theorem atari_setscreen_videl_shifter (cfg : Config) (ext : Extern) (s : Hw)
    (logLoc physLoc : Nat) (rez videlmode : Int) (hv : cfg.has_videl = false) :
    atari_setscreen_videl cfg ext s logLoc physLoc rez videlmode = (s, some (videlmode, 0)) := by
  simp [atari_setscreen_videl, hv]

/-- Setscreen on a shifter, display not hacked, `rez` in `[MIN_REZ, MAX_REZ]`: the call
returns 0 after `vsync`, `atari_setrez` and the console re-initialisation. -/
theorem atari_setscreen_shifter (cfg : Config) (ext : Extern) (s : Hw) (logLoc physLoc : Nat)
    (rez videlmode : Int) (hv : cfg.has_videl = false) (hh : s.rez_was_hacked = false)
    (h1 : cfg.MIN_REZ ≤ rez) (h2 : rez ≤ cfg.MAX_REZ) (hn : rez ≠ -1) :
    atari_setscreen cfg ext s logLoc physLoc rez videlmode =
      (0, screen_init_services_from_mode_info cfg ext Driver.atari
        (atari_setrez cfg ext (vsync (setscreen_addresses cfg Driver.atari s logLoc physLoc))
          rez videlmode)) := by
  rw [atari_setscreen_eq, if_neg (not_neutral_guard cfg _ s logLoc physLoc rez hh hn),
    if_neg (by omega), atari_setscreen_videl_shifter _ _ _ _ _ _ _ hv]

/-- The console re-initialisation writes only `vblsem` and the trace. -/
theorem screen_init_services_from_mode_info_frame (cfg : Config) (ext : Extern) (d : Driver)
    (s : Hw) :
    let s1 := screen_init_services_from_mode_info cfg ext d s
    s1.sshiftmod = s.sshiftmod ∧ s1.ST_SHIFTER = s.ST_SHIFTER ∧ s1.TT_SHIFTER = s.TT_SHIFTER ∧
    s1.current_video_mode = s.current_video_mode ∧ s1.v_bas_ad = s.v_bas_ad ∧
    s1.rez_was_hacked = s.rez_was_hacked := by
  simp [screen_init_services_from_mode_info, screen_init_services, emit]

/-- The trace after the console re-initialisation on a shifter: `linea_init` with the row of
`vmode_table` that `sshiftmod & 7` selects, then `vt52_init`. -/
theorem screen_init_services_from_mode_info_trace (cfg : Config) (ext : Extern) (s : Hw)
    (hv : cfg.has_videl = false) :
    (screen_init_services_from_mode_info cfg ext Driver.atari s).trace =
      Event.vt52_init ::
        Event.linea_init (((vmode_table cfg)[s.sshiftmod &&& 7]?).getD ⟨0, 0, 0⟩).planes
          (((vmode_table cfg)[s.sshiftmod &&& 7]?).getD ⟨0, 0, 0⟩).hz_rez
          (((vmode_table cfg)[s.sshiftmod &&& 7]?).getD ⟨0, 0, 0⟩).vt_rez :: s.trace := by
  simp [screen_init_services_from_mode_info, screen_init_services, emit,
    atari_get_current_mode_info, shifter_get_current_mode_info, hv]

/-- On a plain ST `atari_setrez` ignores every resolution above `ST_HIGH`. -/
theorem atari_setrez_st_reserved (cfg : Config) (ext : Extern) (s : Hw) (rez videlmode : Int)
    (hv : cfg.has_videl = false) (ht : HAS_TT_SHIFTER cfg = false) (hr : ST_HIGH < rez) :
    atari_setrez cfg ext s rez videlmode = s := by
  simp [atari_setrez, hv, ht, not_le.mpr hr]

/-- On a shifter `atari_setrez` stores a resolution of the chipset in `sshiftmod` and in the
shifter register. -/
theorem atari_setrez_shifter (cfg : Config) (ext : Extern) (s : Hw) (rez videlmode : Int)
    (hv : cfg.has_videl = false)
    (hvalid : if HAS_TT_SHIFTER cfg then rez ≠ FALCON_REZ ∧ rez ≠ REZ_UNSUPPORTED
      else rez ≤ ST_HIGH) :
    atari_setrez cfg ext s rez videlmode =
      if HAS_TT_SHIFTER cfg then { s with sshiftmod := ubyte rez, TT_SHIFTER := ubyte rez }
      else { s with sshiftmod := ubyte rez, ST_SHIFTER := ubyte rez } := by
  by_cases ht : HAS_TT_SHIFTER cfg = true
  · simp only [ht, if_true] at hvalid
    simp [atari_setrez, hv, ht, hvalid.1, hvalid.2]
  · simp only [ht] at hvalid
    simp only [Bool.not_eq_true] at ht
    simp only [Bool.false_eq_true, if_false] at hvalid
    simp [atari_setrez, hv, ht, hvalid]

/-- C5, counterexample: on a plain ST in ST low, not hacked, with `MIN_REZ = 0` and
`MAX_REZ = 7`, Setscreen for the reserved index 3 returns 0, not the failure code -1. -/
theorem C5_counterexample :
    cfgST.has_videl = false ∧ HAS_TT_SHIFTER cfgST = false ∧ hw0.rez_was_hacked = false ∧
    cfgST.MIN_REZ = 0 ∧ cfgST.MAX_REZ = 7 ∧
    (atari_setscreen cfgST ext0 hw0 0 0 3 0).1 = 0 ∧
    (atari_setscreen cfgST ext0 hw0 0 0 3 0).1 ≠ -1 := by
  decide

/-- C5, amended: on a plain ST (no VIDEL, no TT shifter), not hacked, Setscreen for a
resolution index above `ST_HIGH` that lies in `[MIN_REZ, MAX_REZ]` (index 3 when these are 0
and 7) returns 0 and leaves the current mode unchanged, for every current mode: `sshiftmod`
and the shifter registers keep their values. The console is re-initialised once, with the
geometry of the unchanged mode. -/
theorem C5_reserved_rez_on_st (cfg : Config) (ext : Extern) (s : Hw) (logLoc physLoc : Nat)
    (rez videlmode : Int) (hv : cfg.has_videl = false) (ht : HAS_TT_SHIFTER cfg = false)
    (hh : s.rez_was_hacked = false) (hr : ST_HIGH < rez)
    (h1 : cfg.MIN_REZ ≤ rez) (h2 : rez ≤ cfg.MAX_REZ) :
    (atari_setscreen cfg ext s logLoc physLoc rez videlmode).1 = 0 ∧
    (atari_setscreen cfg ext s logLoc physLoc rez videlmode).2.sshiftmod = s.sshiftmod ∧
    (atari_setscreen cfg ext s logLoc physLoc rez videlmode).2.ST_SHIFTER = s.ST_SHIFTER ∧
    (atari_setscreen cfg ext s logLoc physLoc rez videlmode).2.TT_SHIFTER = s.TT_SHIFTER ∧
    (atari_setscreen cfg ext s logLoc physLoc rez videlmode).2.trace =
      Event.vt52_init ::
        Event.linea_init (((vmode_table cfg)[s.sshiftmod &&& 7]?).getD ⟨0, 0, 0⟩).planes
          (((vmode_table cfg)[s.sshiftmod &&& 7]?).getD ⟨0, 0, 0⟩).hz_rez
          (((vmode_table cfg)[s.sshiftmod &&& 7]?).getD ⟨0, 0, 0⟩).vt_rez ::
        Event.vsync :: s.trace := by
  have hn : rez ≠ -1 := by
    have : (2 : Int) < rez := hr
    omega
  have ha := setscreen_addresses_frame cfg Driver.atari s logLoc physLoc
  rw [atari_setscreen_shifter cfg ext s logLoc physLoc rez videlmode hv hh h1 h2 hn,
    atari_setrez_st_reserved cfg ext _ rez videlmode hv ht hr]
  have hf := screen_init_services_from_mode_info_frame cfg ext Driver.atari
    (vsync (setscreen_addresses cfg Driver.atari s logLoc physLoc))
  have htr := screen_init_services_from_mode_info_trace cfg ext
    (vsync (setscreen_addresses cfg Driver.atari s logLoc physLoc)) hv
  refine ⟨rfl, ?_, ?_, ?_, ?_⟩
  · rw [hf.1]; exact ha.1
  · rw [hf.2.1]; exact ha.2.1
  · rw [hf.2.2.1]; exact ha.2.2.1
  · rw [htr]
    simp only [vsync, emit]
    rw [ha.1, ha.2.2.2.2.2.1]

/-- Witness of C5 (amended): index 3 on a plain ST in ST low. -/
theorem C5_reserved_rez_on_st_witness :
    (atari_setscreen cfgST ext0 hw0 0 0 3 0).1 = 0 ∧
    (atari_setscreen cfgST ext0 hw0 0 0 3 0).2.sshiftmod = hw0.sshiftmod :=
  ⟨(C5_reserved_rez_on_st cfgST ext0 hw0 0 0 3 0 rfl rfl rfl (by decide) (by decide)
      (by decide)).1,
   (C5_reserved_rez_on_st cfgST ext0 hw0 0 0 3 0 rfl rfl rfl (by decide) (by decide)
      (by decide)).2.1⟩

/-! ## Setscreen with a monochrome monitor -/

/-- With the monochrome resolution current on a shifter, `check_moderez` answers 0. -/
theorem check_moderez_mono (cfg : Config) (ext : Extern) (s : Hw) (m : Int)
    (hv : cfg.has_videl = false)
    (hmono : shifter_screen_can_change_resolution cfg ext s = false) :
    check_moderez cfg ext Driver.atari s m = 0 := by
  by_cases hh : s.rez_was_hacked = true
  · exact check_moderez_hacked cfg ext Driver.atari s m hh
  · simp [check_moderez, screen_can_change_resolution, screen_can_change_resolution_atari,
      hh, hv, hmono]

/-- C6, counterexample: a plain ST in ST high (monochrome monitor, so
`shifter_screen_can_change_resolution()` is false), not hacked. Setscreen for ST low is not
rejected: `sshiftmod` and the shifter register become 0 and the console is re-initialised
for 320x200 with 4 planes. -/
theorem C6_counterexample :
    cfgST.has_videl = false ∧ hwMono.rez_was_hacked = false ∧
    atari_getrez cfgST ext0 hwMono = ST_HIGH ∧
    shifter_screen_can_change_resolution cfgST ext0 hwMono = false ∧
    hwMono.sshiftmod = 2 ∧ hwMono.ST_SHIFTER = 2 ∧
    (atari_setscreen cfgST ext0 hwMono 0 0 ST_LOW 0).2.sshiftmod = 0 ∧
    (atari_setscreen cfgST ext0 hwMono 0 0 ST_LOW 0).2.ST_SHIFTER = 0 ∧
    (atari_setscreen cfgST ext0 hwMono 0 0 ST_LOW 0).2.trace =
      [Event.vt52_init, Event.linea_init 4 320 200, Event.vsync] := by
  decide

/-- C6, amended: on a shifter chipset whose current resolution is the monochrome one
(`shifter_screen_can_change_resolution()` is false) only `check_moderez` refuses: it returns
0 for every argument. `atari_setscreen` does not consult the monitor: not hacked, for a
resolution `rez` in `[MIN_REZ, MAX_REZ]` that the chipset takes (at most `ST_HIGH` on an ST,
not `FALCON_REZ` on a TT), it returns 0, stores `rez` in `sshiftmod` and in the shifter
register, and re-initialises the console once with the row of `vmode_table` for `rez`. -/
theorem C6_setscreen_ignores_monitor (cfg : Config) (ext : Extern) (s : Hw)
    (logLoc physLoc : Nat) (rez videlmode : Int) (hv : cfg.has_videl = false)
    (hmono : shifter_screen_can_change_resolution cfg ext s = false)
    (hh : s.rez_was_hacked = false) (h1 : cfg.MIN_REZ ≤ rez) (h2 : rez ≤ cfg.MAX_REZ)
    (hn : rez ≠ -1)
    (hvalid : if HAS_TT_SHIFTER cfg then rez ≠ FALCON_REZ ∧ rez ≠ REZ_UNSUPPORTED
      else rez ≤ ST_HIGH) :
    (∀ m : Int, check_moderez cfg ext Driver.atari s m = 0) ∧
    (atari_setscreen cfg ext s logLoc physLoc rez videlmode).1 = 0 ∧
    (atari_setscreen cfg ext s logLoc physLoc rez videlmode).2.sshiftmod = ubyte rez ∧
    (if HAS_TT_SHIFTER cfg
      then (atari_setscreen cfg ext s logLoc physLoc rez videlmode).2.TT_SHIFTER
      else (atari_setscreen cfg ext s logLoc physLoc rez videlmode).2.ST_SHIFTER) = ubyte rez ∧
    (atari_setscreen cfg ext s logLoc physLoc rez videlmode).2.trace =
      Event.vt52_init ::
        Event.linea_init (((vmode_table cfg)[ubyte rez &&& 7]?).getD ⟨0, 0, 0⟩).planes
          (((vmode_table cfg)[ubyte rez &&& 7]?).getD ⟨0, 0, 0⟩).hz_rez
          (((vmode_table cfg)[ubyte rez &&& 7]?).getD ⟨0, 0, 0⟩).vt_rez ::
        Event.vsync :: s.trace := by
  have ha := setscreen_addresses_frame cfg Driver.atari s logLoc physLoc
  refine ⟨fun m => check_moderez_mono cfg ext s m hv hmono, ?_⟩
  rw [atari_setscreen_shifter cfg ext s logLoc physLoc rez videlmode hv hh h1 h2 hn,
    atari_setrez_shifter cfg ext _ rez videlmode hv hvalid]
  have hf := fun t => screen_init_services_from_mode_info_frame cfg ext Driver.atari t
  have htr := fun t => screen_init_services_from_mode_info_trace cfg ext t hv
  by_cases ht : HAS_TT_SHIFTER cfg = true
  · simp only [ht, if_true]
    refine ⟨trivial, ?_, ?_, ?_⟩
    · rw [(hf _).1]
    · rw [(hf _).2.2.1]
    · rw [htr]
      simp only [vsync, emit]
      rw [ha.2.2.2.2.2.1]
  · simp only [Bool.not_eq_true] at ht
    simp only [ht, Bool.false_eq_true, if_false]
    refine ⟨trivial, ?_, ?_, ?_⟩
    · rw [(hf _).1]
    · rw [(hf _).2.1]
    · rw [htr]
      simp only [vsync, emit]
      rw [ha.2.2.2.2.2.1]

/-- Witness of C6 (amended): ST high current on a plain ST, ST low requested. -/
theorem C6_setscreen_ignores_monitor_witness :
    shifter_screen_can_change_resolution cfgST ext0 hwMono = false ∧
    (atari_setscreen cfgST ext0 hwMono 0 0 0 0).2.sshiftmod = ubyte 0 :=
  ⟨by decide,
   (C6_setscreen_ignores_monitor cfgST ext0 hwMono 0 0 0 0 rfl (by decide) rfl (by decide)
      (by decide) (by decide) (by decide)).2.2.1⟩

/-! ## Setscreen on VIDEL: allocation failure -/

/-- C7: on a VIDEL chipset, not hacked, for `videlmode` other than -1, when `atari_setscreen`
is called with `logLoc = 0`, `physLoc = 0`, `rez = FALCON_REZ` and `Srealloc` returns null,
the call returns -1; `v_bas_ad`, the video-base registers, `sshiftmod` and
`current_video_mode` keep their values; the only call that can have been made is the
`Srealloc` itself: no `vsync`, no mode register write, no console re-initialisation. -/
theorem C7_videl_realloc_failure (cfg : Config) (ext : Extern) (s : Hw) (videlmode : Int)
    (hv : cfg.has_videl = true) (hh : s.rez_was_hacked = false) (hm : videlmode ≠ -1)
    (hfail : ext.Srealloc s (ext.vgetsize s (ext.vfixmode s videlmode)) = 0) :
    (atari_setscreen cfg ext s 0 0 FALCON_REZ videlmode).1 = -1 ∧
    (atari_setscreen cfg ext s 0 0 FALCON_REZ videlmode).2.v_bas_ad = s.v_bas_ad ∧
    VideoBaseUntouched s (atari_setscreen cfg ext s 0 0 FALCON_REZ videlmode).2 ∧
    (atari_setscreen cfg ext s 0 0 FALCON_REZ videlmode).2.sshiftmod = s.sshiftmod ∧
    (atari_setscreen cfg ext s 0 0 FALCON_REZ videlmode).2.current_video_mode =
      s.current_video_mode ∧
    (atari_setscreen cfg ext s 0 0 FALCON_REZ videlmode).2.ST_SHIFTER = s.ST_SHIFTER ∧
    (atari_setscreen cfg ext s 0 0 FALCON_REZ videlmode).2.TT_SHIFTER = s.TT_SHIFTER ∧
    (atari_setscreen cfg ext s 0 0 FALCON_REZ videlmode).2.palette = s.palette ∧
    ((atari_setscreen cfg ext s 0 0 FALCON_REZ videlmode).2 = s ∨
      (atari_setscreen cfg ext s 0 0 FALCON_REZ videlmode).2 =
        emit (Event.Srealloc (ext.vgetsize s (ext.vfixmode s videlmode))) s) := by
  have hs : setscreen_addresses cfg Driver.atari s 0 0 = s :=
    setscreen_addresses_none cfg Driver.atari s 0 0 (by decide) (by decide)
  have hF : FALCON_REZ ≠ -1 := by decide
  rw [atari_setscreen_eq, hs, if_neg (by simp [hh, hF])]
  by_cases hr : FALCON_REZ < cfg.MIN_REZ ∨ FALCON_REZ > cfg.MAX_REZ
  · rw [if_pos hr]
    simp [VideoBaseUntouched]
  · rw [if_neg hr]
    simp [atari_setscreen_videl, hv, hm, hfail, emit, VideoBaseUntouched]

/-- Witness of C7: a Falcon whose `Srealloc` fails, video mode 0x1234 requested. -/
theorem C7_videl_realloc_failure_witness :
    cfgFalcon.has_videl = true ∧
    ext0.Srealloc hw0 (ext0.vgetsize hw0 (ext0.vfixmode hw0 0x1234)) = 0 ∧
    (atari_setscreen cfgFalcon ext0 hw0 0 0 FALCON_REZ 0x1234).1 = -1 :=
  ⟨rfl, rfl, (C7_videl_realloc_failure cfgFalcon ext0 hw0 0x1234 rfl rfl (by decide) rfl).1⟩

/-! ## Setscreen on the VICKY III -/

/-- C8: evaluation on the VICKY III driver. `setscreen` forwards to `vicky3_setscreen`,
which returns `MODEREZ` and leaves the whole state as it was for all arguments; so with
`logLoc = 0x1000` and `physLoc = 0x2000`, both positive as signed 32-bit values, the
logical base is still 0 and the start-address register is not written. On the VICKY II
driver the same call stores the logical base, but its `setphys` is empty: the bitmap address
is still 0. -/
theorem C8_vicky3_setscreen_ignores_addresses :
    (∀ (cfg : Config) (ext : Extern) (s : Hw) (logLoc physLoc : Nat) (rez videlmode : Int),
      setscreen cfg ext Driver.vicky3 s logLoc physLoc rez videlmode = ((MODEREZ : Int), s)) ∧
    toLONG 0x1000 > 0 ∧ toLONG 0x2000 > 0 ∧
    logbase (setscreen cfgST ext0 Driver.vicky3 hw0 0x1000 0x2000 (-1) 0).2 = 0 ∧
    logbase (setscreen cfgST ext0 Driver.vicky3 hw0 0x1000 0x2000 (-1) 0).2 ≠ 0x1000 ∧
    (setscreen cfgST ext0 Driver.vicky3 hw0 0x1000 0x2000 (-1) 0).2.r32 (cfgST.VICKY3 + 4) = 0 ∧
    logbase (setscreen cfgST ext0 Driver.vicky2 hw0 0x1000 0x2000 (-1) 0).2 = 0x1000 ∧
    (setscreen cfgST ext0 Driver.vicky2 hw0 0x1000 0x2000 (-1) 0).2.vicky2_bitmap0 = 0 := by
  refine ⟨fun _ _ _ _ _ _ _ => rfl, by decide, by decide, by decide, by decide, by decide,
    by decide, by decide⟩

/-- On the Atari shifters and on the VICKY II, Setscreen leaves in `v_bas_ad` the value
`logLoc` when `(LONG)logLoc > 0` and the previous value otherwise. -/
theorem setscreen_logical_base (cfg : Config) (ext : Extern) (s : Hw) (logLoc physLoc : Nat)
    (rez videlmode : Int) (hv : cfg.has_videl = false) :
    logbase (setscreen cfg ext Driver.atari s logLoc physLoc rez videlmode).2 =
      (if toLONG logLoc > 0 then logLoc else s.v_bas_ad) ∧
    logbase (setscreen cfg ext Driver.vicky2 s logLoc physLoc rez videlmode).2 =
      (if toLONG logLoc > 0 then logLoc else s.v_bas_ad) := by
  have ha := setscreen_addresses_v_bas_ad cfg Driver.atari s logLoc physLoc
  have hb := setscreen_addresses_v_bas_ad cfg Driver.vicky2 s logLoc physLoc
  constructor
  · simp only [setscreen, logbase, atari_setscreen_eq]
    split
    · exact ha
    · split
      · exact ha
      · rw [atari_setscreen_videl_shifter _ _ _ _ _ _ _ hv]
        simp only []
        rw [(screen_init_services_from_mode_info_frame cfg ext Driver.atari _).2.2.2.2.1]
        rw [← ha]
        simp only [atari_setrez, hv, vsync, emit]
        simp only [Bool.false_eq_true, if_false]
        split
        · split <;> rfl
        · split <;> rfl
  · simp only [setscreen, logbase, screen_vicky2_setscreen_eq]
    split
    · exact hb
    · split
      · exact hb
      · simp only []
        rw [(screen_init_services_from_mode_info_frame cfg ext Driver.vicky2 _).2.2.2.2.1]
        rw [← hb]
        simp only [screen_vicky2_setrez, vsync, emit]
        split <;> rfl

/-! ## check_moderez on the shifters -/

/-- Masking with 0x00ff takes the low byte. -/
theorem and_ff (x : Nat) : x &&& 0x00ff = x % 256 := by
  have := Nat.and_pow_two_sub_one_eq_mod x 8
  simpa using this

set_option maxRecDepth 100000 in
/-- Or-ing a byte into 0xff00 adds it. -/
theorem or_ff00 : ∀ r < 256, 0xff00 ||| r = 0xff00 + r := by
  decide

/-- The codes 0xFF00 to 0xFFFF read back from their signed form. -/
theorem uword_sword_ff (r : Nat) (h : r < 256) : uword (sword (0xff00 + r)) = 0xff00 + r := by
  unfold uword sword
  have h1 : (0xff00 + r) % 65536 = 0xff00 + r := Nat.mod_eq_of_lt (by omega)
  rw [h1, if_neg (by omega)]
  omega

/-- The codes 0xFF00 to 0xFFFF are not zero in signed form. -/
theorem sword_ff_ne_zero (r : Nat) (h : r < 256) : sword (0xff00 + r) ≠ 0 := by
  unfold sword
  have h1 : (0xff00 + r) % 65536 = 0xff00 + r := Nat.mod_eq_of_lt (by omega)
  rw [h1, if_neg (by omega)]
  omega

/-- What `shifter_check_moderez` returns, in terms of the low byte of its argument. -/
theorem shifter_check_moderez_eq (cfg : Config) (ext : Extern) (s : Hw) (m : Int) :
    shifter_check_moderez cfg ext s m =
      if m > 0 then 0
      else if ((demote_mono cfg (uword m % 256) : Nat) : Int) = getrez cfg ext Driver.atari s then 0
      else sword (0xff00 + demote_mono cfg (uword m % 256)) := by
  have hlt : demote_mono cfg (uword m % 256) < 256 := by
    have : uword m % 256 < 256 := Nat.mod_lt _ (by decide)
    unfold demote_mono
    split <;> split <;> omega
  unfold shifter_check_moderez
  by_cases hm : m > 0
  · simp [hm]
  · simp only [hm, if_false, and_ff]
    have hd : (if HAS_TT_SHIFTER cfg = true then
          (if ((uword m % 256 : Nat) : Int) = TT_HIGH then TT_MEDIUM else ((uword m % 256 : Nat) : Int))
        else (if ((uword m % 256 : Nat) : Int) = ST_HIGH then ST_LOW else ((uword m % 256 : Nat) : Int)))
        = ((demote_mono cfg (uword m % 256) : Nat) : Int) := by
      unfold demote_mono TT_HIGH TT_MEDIUM ST_HIGH ST_LOW
      by_cases ht : HAS_TT_SHIFTER cfg = true
      · rw [if_pos ht, if_pos ht]
        by_cases h6 : uword m % 256 = 6
        · rw [h6]
          rfl
        · have : ¬ ((uword m % 256 : Nat) : Int) = 6 := by omega
          rw [if_neg h6, if_neg this]
      · rw [if_neg ht, if_neg ht]
        by_cases h2 : uword m % 256 = 2
        · rw [h2]
          rfl
        · have : ¬ ((uword m % 256 : Nat) : Int) = 2 := by omega
          rw [if_neg h2, if_neg this]
    rw [hd, Int.toNat_ofNat, or_ff00 _ hlt]

/-- When the resolution is changeable on a shifter, the current resolution is not the
monochrome one. -/
theorem getrez_not_mono (cfg : Config) (ext : Extern) (s : Hw) (hv : cfg.has_videl = false)
    (hc : screen_can_change_resolution cfg ext Driver.atari s = true) :
    getrez cfg ext Driver.atari s ≠ (if HAS_TT_SHIFTER cfg then 6 else 2) := by
  unfold screen_can_change_resolution at hc
  by_cases hh : s.rez_was_hacked = true
  · simp [hh, FALSE] at hc
  · simp only [hh, if_false] at hc
    simp only [screen_can_change_resolution_atari, hh, hv, if_false,
      shifter_screen_can_change_resolution, TT_HIGH, ST_HIGH] at hc
    by_cases ht : HAS_TT_SHIFTER cfg = true
    · simp only [ht, if_true] at hc ⊢
      simpa using hc
    · simp only [ht, if_false] at hc ⊢
      simpa using hc

set_option maxRecDepth 100000 in
/-- C9: `shifter_check_moderez` tells mode values from resolution codes by the sign of the
word (`moderez > 0`), not by the form 0xFFnn. On a plain ST in ST low (resolution
changeable) the argument 0x8001, which is not of the form 0xFFnn, is answered 0xFF01 and not
0; with ST medium current the argument 0 is answered 0xFF00. The code 0xFF01 is answered
0xFF01, the code 0xFF00 of the current resolution 0, and the positive value 0x0001 is
answered 0. In ST low a word with low byte 1 is answered non-zero exactly when its high byte
is 0x80 or above, not only when it is 0xFF. -/
theorem C9_mode_value_taken_for_resolution :
    cfgST.has_videl = false ∧
    screen_can_change_resolution cfgST ext0 Driver.atari hw0 = true ∧
    getrez cfgST ext0 Driver.atari hw0 = 0 ∧
    uword (sword 0x8001) = 0x8001 ∧ uword (sword 0x8001) / 256 ≠ 0xFF ∧
    check_moderez cfgST ext0 Driver.atari hw0 (sword 0x8001) = sword 0xFF01 ∧
    check_moderez cfgST ext0 Driver.atari hw0 (sword 0x8001) ≠ 0 ∧
    screen_can_change_resolution cfgST ext0 Driver.atari
      { hw0 with sshiftmod := 1, ST_SHIFTER := 1 } = true ∧
    check_moderez cfgST ext0 Driver.atari { hw0 with sshiftmod := 1, ST_SHIFTER := 1 } 0
      = sword 0xFF00 ∧
    check_moderez cfgST ext0 Driver.atari { hw0 with sshiftmod := 1, ST_SHIFTER := 1 } 0 ≠ 0 ∧
    check_moderez cfgST ext0 Driver.atari hw0 (sword 0xFF01) = sword 0xFF01 ∧
    check_moderez cfgST ext0 Driver.atari hw0 (sword 0xFF00) = 0 ∧
    check_moderez cfgST ext0 Driver.atari hw0 (sword 0x0001) = 0 ∧
    (∀ hi : Fin 256,
      (check_moderez cfgST ext0 Driver.atari hw0 (sword (hi.val * 256 + 1)) ≠ 0 ↔
        128 ≤ hi.val)) := by
  decide

/-- What `check_moderez` returns with the resolution changeable on a shifter (non-VIDEL)
chipset. It returns 0 for every `moderez > 0`. For every `moderez <= 0` (all codes 0xFFnn,
but also 0 and the other negative values) it takes the low byte `nn`, replaces the
monochrome resolution (`ST_HIGH` by `ST_LOW`, on a TT `TT_HIGH` by `TT_MEDIUM`) to get `nn'`,
and returns 0 if `nn'` equals `getrez()` and the code 0xFF00|nn' otherwise. So a non-zero
result is always a code 0xFF00|nn' with `nn` different from `getrez()`. -/
theorem check_moderez_shifter_cases (cfg : Config) (ext : Extern) (s : Hw) (m : Int)
    (hv : cfg.has_videl = false)
    (hc : screen_can_change_resolution cfg ext Driver.atari s = true) :
    (m > 0 → check_moderez cfg ext Driver.atari s m = 0) ∧
    (m ≤ 0 → ((demote_mono cfg (uword m % 256) : Nat) : Int) = getrez cfg ext Driver.atari s →
      check_moderez cfg ext Driver.atari s m = 0) ∧
    (m ≤ 0 → ((demote_mono cfg (uword m % 256) : Nat) : Int) ≠ getrez cfg ext Driver.atari s →
      check_moderez cfg ext Driver.atari s m = sword (0xFF00 + demote_mono cfg (uword m % 256)) ∧
      uword (check_moderez cfg ext Driver.atari s m) = 0xFF00 + demote_mono cfg (uword m % 256)) ∧
    (check_moderez cfg ext Driver.atari s m ≠ 0 →
      m ≤ 0 ∧ ((uword m % 256 : Nat) : Int) ≠ getrez cfg ext Driver.atari s ∧
      uword (check_moderez cfg ext Driver.atari s m) = 0xFF00 + demote_mono cfg (uword m % 256)) := by
  have hlt : demote_mono cfg (uword m % 256) < 256 := by
    have : uword m % 256 < 256 := Nat.mod_lt _ (by decide)
    unfold demote_mono
    split <;> split <;> omega
  have hck : check_moderez cfg ext Driver.atari s m =
      if m > 0 then 0
      else if ((demote_mono cfg (uword m % 256) : Nat) : Int) = getrez cfg ext Driver.atari s
      then 0
      else sword (0xff00 + demote_mono cfg (uword m % 256)) := by
    rw [← shifter_check_moderez_eq]
    simp [check_moderez, hc, atari_check_moderez, hv]
  have hmono := getrez_not_mono cfg ext s hv hc
  refine ⟨?_, ?_, ?_, ?_⟩
  · intro hm
    rw [hck, if_pos hm]
  · intro hm he
    rw [hck, if_neg (by omega), if_pos he]
  · intro hm hne
    rw [hck, if_neg (by omega), if_neg hne]
    exact ⟨rfl, uword_sword_ff _ hlt⟩
  · intro hnz
    rw [hck] at hnz ⊢
    by_cases hm : m > 0
    · simp [hm] at hnz
    · rw [if_neg hm] at hnz ⊢
      by_cases he : ((demote_mono cfg (uword m % 256) : Nat) : Int) = getrez cfg ext Driver.atari s
      · simp [he] at hnz
      · rw [if_neg he]
        refine ⟨by omega, ?_, uword_sword_ff _ hlt⟩
        intro hnn
        apply he
        rw [← hnn]
        unfold demote_mono
        by_cases ht : HAS_TT_SHIFTER cfg = true
        · rw [if_pos ht] at hmono ⊢
          have : uword m % 256 ≠ 6 := by
            intro h6
            apply hmono
            rw [← hnn, h6]
            rfl
          rw [if_neg this]
        · rw [if_neg ht] at hmono ⊢
          have : uword m % 256 ≠ 2 := by
            intro h2
            apply hmono
            rw [← hnn, h2]
            rfl
          rw [if_neg this]

/-- An instance of `check_moderez_shifter_cases`: ST low current on a plain ST, code 0xFF01
(ST medium). -/
theorem check_moderez_shifter_cases_example :
    screen_can_change_resolution cfgST ext0 Driver.atari hw0 = true ∧
    uword (check_moderez cfgST ext0 Driver.atari hw0 (sword 0xFF01)) =
      0xFF00 + demote_mono cfgST (uword (sword 0xFF01) % 256) :=
  ⟨by decide,
   ((check_moderez_shifter_cases cfgST ext0 hw0 (sword 0xFF01) rfl (by decide)).2.2.1
      (by decide) (by decide)).2⟩

/-! ## Setcolor as a query -/

/-- A value masked with the colour bits is its own signed reading. -/
theorem sword_and_colour_mask (cfg : Config) (x : Nat) :
    sword (x &&& colour_mask cfg) = ((x &&& colour_mask cfg : Nat) : Int) := by
  have h1 : x &&& colour_mask cfg ≤ colour_mask cfg := Nat.and_le_right
  have h2 : colour_mask cfg ≤ 0x0fff := by
    unfold colour_mask
    split <;> decide
  have h3 : (x &&& colour_mask cfg) % 65536 = x &&& colour_mask cfg :=
    Nat.mod_eq_of_lt (by omega)
  unfold sword
  rw [h3, if_pos (by omega)]

/-- With a negative colour `atari_setcolor` returns the masked register and leaves the state
as it was. -/
theorem atari_setcolor_query (cfg : Config) (s : Hw) (colorNum color : Int) (h : color < 0) :
    atari_setcolor cfg s colorNum color =
      (((s.palette (uword colorNum &&& 15) &&& colour_mask cfg : Nat) : Int), s) := by
  have hs := sword_and_colour_mask cfg (s.palette (uword colorNum &&& 15))
  unfold colour_mask at hs ⊢
  unfold atari_setcolor
  simp only [ge_iff_le, not_le.mpr h, if_false]
  rw [← hs]

/-- C10: for every `colorNum` and every negative `color`, `atari_setcolor` writes no palette
register (the state after the call is the state before), and `N` calls in a row all return
the same value: palette register `colorNum & 15` masked with 0x0fff (STe, TT, VIDEL) or
0x0777 (plain ST). -/
theorem C10_setcolor_query_idempotent (cfg : Config) (s : Hw) (colorNum color : Int)
    (h : color < 0) (N : Nat) :
    setcolor_repeat cfg colorNum color N s =
      (List.replicate N
        (((s.palette (uword colorNum &&& 15) &&&
          (if cfg.has_videl || HAS_TT_SHIFTER cfg || cfg.has_ste_shifter then 0x0fff else 0x0777)
          : Nat) : Int)), s) ∧
    (atari_setcolor cfg s colorNum color).2 = s ∧
    (∀ i : Nat, (atari_setcolor cfg s colorNum color).2.palette i = s.palette i) := by
  have hq := atari_setcolor_query cfg s colorNum color h
  unfold colour_mask at hq
  refine ⟨?_, by rw [hq], fun i => by rw [hq]⟩
  induction N with
  | zero => rfl
  | succ n ih =>
    unfold setcolor_repeat
    simp only [hq, ih, List.replicate_succ]

/-- Witness of C10: three queries of colour 1 on a plain ST whose registers hold 0xFFFF. -/
theorem C10_setcolor_query_idempotent_witness :
    ((-1 : Int) < 0) ∧
    (setcolor_repeat cfgST 1 (-1) 3 { hw0 with palette := fun _ => 0xFFFF }).1 =
      [0x0777, 0x0777, 0x0777] :=
  ⟨by decide,
   by
    have h := (C10_setcolor_query_idempotent cfgST { hw0 with palette := fun _ => 0xFFFF }
      1 (-1) (by decide) 3).1
    rw [h]
    decide⟩

/-! ## Setcolor as a store -/

/-- A non-negative `WORD` is its own 16-bit pattern. -/
theorem uword_of_nonneg (x : Int) (h0 : 0 ≤ x) (h1 : x ≤ 32767) : ((uword x : Nat) : Int) = x := by
  unfold uword
  omega

/-- With a non-negative colour `atari_setcolor` returns the masked register and stores the
colour in it. -/
theorem atari_setcolor_store (cfg : Config) (s : Hw) (colorNum color : Int) (h : color ≥ 0) :
    atari_setcolor cfg s colorNum color =
      (((s.palette (uword colorNum &&& 15) &&& colour_mask cfg : Nat) : Int),
        { s with palette := setReg s.palette (uword colorNum &&& 15) (uword color) }) := by
  have hs := sword_and_colour_mask cfg (s.palette (uword colorNum &&& 15))
  unfold colour_mask at hs ⊢
  unfold atari_setcolor
  simp only [h, if_true]
  rw [← hs]

/-- C11: for every `colorNum` and every `color >= 0`, `atari_setcolor(colorNum, color)`
returns the previous value of palette entry `colorNum & 15` (the value a query returned
before the call: the register restricted to the colour bits); it updates exactly that entry
(every other palette register, and the rest of the state, is unchanged); and a following
query `atari_setcolor(colorNum, -1)` returns the value just set, `color` restricted to the
colour bits of the chipset (0x0fff on STe, TT and VIDEL, 0x0777 on a plain ST). -/
theorem C11_setcolor_store (cfg : Config) (s : Hw) (colorNum color : Int) (h : color ≥ 0) :
    (atari_setcolor cfg s colorNum color).1 =
      ((s.palette (uword colorNum &&& 15) &&& colour_mask cfg : Nat) : Int) ∧
    (atari_setcolor cfg s colorNum color).1 = (atari_setcolor cfg s colorNum (-1)).1 ∧
    (atari_setcolor cfg s colorNum color).2 =
      { s with palette := setReg s.palette (uword colorNum &&& 15) (uword color) } ∧
    (∀ j : Nat, j ≠ (uword colorNum &&& 15) →
      (atari_setcolor cfg s colorNum color).2.palette j = s.palette j) ∧
    (atari_setcolor cfg s colorNum color).2.palette (uword colorNum &&& 15) = uword color ∧
    (atari_setcolor cfg (atari_setcolor cfg s colorNum color).2 colorNum (-1)).1 =
      ((uword color &&& colour_mask cfg : Nat) : Int) ∧
    (color ≤ 32767 → ((uword color : Nat) : Int) = color) ∧
    colour_mask cfg =
      (if cfg.has_videl || HAS_TT_SHIFTER cfg || cfg.has_ste_shifter then 0x0fff else 0x0777) := by
  have hst := atari_setcolor_store cfg s colorNum color h
  have hq := atari_setcolor_query cfg s colorNum (-1) (by decide)
  have hq2 := atari_setcolor_query cfg
    { s with palette := setReg s.palette (uword colorNum &&& 15) (uword color) } colorNum (-1)
    (by decide)
  rw [hst, hq, hq2]
  refine ⟨rfl, rfl, rfl, ?_, ?_, ?_, fun h1 => uword_of_nonneg color h h1, rfl⟩
  · intro j hj
    simp [setReg, hj]
  · simp [setReg]
  · simp [setReg]

/-- Witness of C11: colour 0x0fff stored in entry 17 & 15 = 1 of a plain ST. -/
theorem C11_setcolor_store_witness :
    ((0x0fff : Int) ≥ 0) ∧
    (atari_setcolor cfgST (atari_setcolor cfgST hw0 17 0x0fff).2 17 (-1)).1 =
      ((uword 0x0fff &&& colour_mask cfgST : Nat) : Int) :=
  ⟨by decide, (C11_setcolor_store cfgST hw0 17 0x0fff (by decide)).2.2.2.2.2.1⟩

/-! ## Physical base round trip on the Atari chipsets -/

/-- Three bytes joined the way `atari_physbase` joins the video-base registers. -/
theorem bytes_join (hi mid low : Nat) (h1 : hi < 256) (h2 : mid < 256) (h3 : low < 256) :
    ((((hi <<< 8) % 4294967296 ||| mid) <<< 8) % 4294967296) ||| low
      = hi * 65536 + mid * 256 + low := by
  have a1 : (hi <<< 8) % 4294967296 = 2 ^ 8 * hi := by
    rw [Nat.shiftLeft_eq]
    omega
  have a2 : 2 ^ 8 * hi ||| mid = 2 ^ 8 * hi + mid :=
    (Nat.mul_add_lt_is_or (by simpa using h2) hi).symm
  have a3 : ((2 ^ 8 * hi + mid) <<< 8) % 4294967296 = 2 ^ 8 * (2 ^ 8 * hi + mid) := by
    rw [Nat.shiftLeft_eq]
    omega
  have a4 : 2 ^ 8 * (2 ^ 8 * hi + mid) ||| low = 2 ^ 8 * (2 ^ 8 * hi + mid) + low :=
    (Nat.mul_add_lt_is_or (by simpa using h3) _).symm
  rw [a1, a2, a3, a4]
  omega

/-- Two bytes joined the way `atari_physbase` joins them on a plain ST. -/
theorem bytes_join_st (hi mid : Nat) (h1 : hi < 256) (h2 : mid < 256) :
    ((((hi <<< 8) % 4294967296 ||| mid) <<< 8) % 4294967296)
      = hi * 65536 + mid * 256 := by
  have a1 : (hi <<< 8) % 4294967296 = 2 ^ 8 * hi := by
    rw [Nat.shiftLeft_eq]
    omega
  have a2 : 2 ^ 8 * hi ||| mid = 2 ^ 8 * hi + mid :=
    (Nat.mul_add_lt_is_or (by simpa using h2) hi).symm
  have a3 : ((2 ^ 8 * hi + mid) <<< 8) % 4294967296 = 2 ^ 8 * (2 ^ 8 * hi + mid) := by
    rw [Nat.shiftLeft_eq]
    omega
  rw [a1, a2, a3]
  omega

/-- What `atari_physbase` reads after `atari_setphys(A)` when the Nova override is off. -/
theorem atari_physbase_setphys (cfg : Config) (ext : Extern) (s : Hw) (A : Nat)
    (hn : (cfg.has_nova && s.rez_was_hacked) = false) :
    atari_physbase cfg ext (atari_setphys cfg s A) =
      (if cfg.has_videl || HAS_TT_SHIFTER cfg || cfg.has_ste_shifter then A % 16777216
       else A % 16777216 / 256 * 256) := by
  have hhi : (A % 4294967296) >>> 16 % 256 < 256 := Nat.mod_lt _ (by decide)
  have hmid : (A % 4294967296) >>> 8 % 256 < 256 := Nat.mod_lt _ (by decide)
  have hlow : A % 4294967296 % 256 < 256 := Nat.mod_lt _ (by decide)
  have s16 : (A % 4294967296) >>> 16 = A % 4294967296 / 65536 := by
    rw [Nat.shiftRight_eq_div_pow]
  have s8 : (A % 4294967296) >>> 8 = A % 4294967296 / 256 := by
    rw [Nat.shiftRight_eq_div_pow]
  by_cases hf : (cfg.has_videl || HAS_TT_SHIFTER cfg || cfg.has_ste_shifter) = true
  · simp only [atari_physbase, atari_setphys, hf, if_true, hn, Bool.false_eq_true, if_false,
      Nat.mod_mod]
    rw [bytes_join _ _ _ hhi hmid hlow, s16, s8]
    omega
  · simp only [atari_physbase, atari_setphys, hf, if_false, hn, Bool.false_eq_true,
      Nat.mod_mod]
    rw [bytes_join_st _ _ hhi hmid, s16, s8]
    omega

/-- C12: on the Atari driver with the Nova override off, `atari_physbase()` right after
`atari_setphys(A)` returns `A` for every `A < 2^24` on STe, TT and VIDEL, and for every
`A < 2^24` that is a multiple of 256 on a plain ST; for any other `A` it returns the
truncation given by the byte split: `A mod 2^24`, with the low byte cleared on a plain ST. -/
theorem C12_setphys_physbase_roundtrip (cfg : Config) (ext : Extern) (s : Hw) (A : Nat)
    (hn : (cfg.has_nova && s.rez_was_hacked) = false) :
    atari_physbase cfg ext (atari_setphys cfg s A) =
      (if cfg.has_videl || HAS_TT_SHIFTER cfg || cfg.has_ste_shifter then A % 16777216
       else A % 16777216 / 256 * 256) ∧
    ((cfg.has_videl || HAS_TT_SHIFTER cfg || cfg.has_ste_shifter) = true → A < 16777216 →
      atari_physbase cfg ext (atari_setphys cfg s A) = A) ∧
    ((cfg.has_videl || HAS_TT_SHIFTER cfg || cfg.has_ste_shifter) = false → A < 16777216 →
      A % 256 = 0 → atari_physbase cfg ext (atari_setphys cfg s A) = A) := by
  have h := atari_physbase_setphys cfg ext s A hn
  refine ⟨h, ?_, ?_⟩
  · intro hf hA
    rw [h, hf, if_pos rfl]
    omega
  · intro hf hA h256
    rw [h, hf]
    simp only [Bool.false_eq_true, if_false]
    omega

/-- Witness of C12: address 0x123456 on a TT, address 0x123400 on a plain ST. -/
theorem C12_setphys_physbase_roundtrip_witness :
    (cfgTT.has_nova && hw0.rez_was_hacked) = false ∧
    atari_physbase cfgTT ext0 (atari_setphys cfgTT hw0 0x123456) = 0x123456 ∧
    atari_physbase cfgST ext0 (atari_setphys cfgST hw0 0x123400) = 0x123400 :=
  ⟨rfl,
   (C12_setphys_physbase_roundtrip cfgTT ext0 hw0 0x123456 rfl).2.1 (by decide) (by decide),
   (C12_setphys_physbase_roundtrip cfgST ext0 hw0 0x123400 rfl).2.2 (by decide) (by decide)
     (by decide)⟩

/-! ## Physical base on the VICKY II and the VICKY III -/

/-- C13: evaluation on the VICKY II driver. `screen_setphys(A)` reaches
`screen_vicky2_setphys`, whose body is empty, so for every state and every address
`physbase()` returns after the call what it returned before it. From a state whose bitmap
address is 0, with video RAM at 0xC00000, `screen_setphys(0xC10000)` followed by
`physbase()` gives 0xC00000, not 0xC10000. -/
theorem C13_vicky2_setphys_is_empty :
    (∀ (cfg : Config) (ext : Extern) (s : Hw) (A : Nat),
      screen_setphys cfg Driver.vicky2 s A = s ∧
      physbase cfg ext Driver.vicky2 (screen_setphys cfg Driver.vicky2 s A) =
        physbase cfg ext Driver.vicky2 s) ∧
    cfgST.VRAM_Bank0 = 0xC00000 ∧
    physbase cfgST ext0 Driver.vicky2 (screen_setphys cfgST Driver.vicky2 hw0 0xC10000)
      = 0xC00000 ∧
    physbase cfgST ext0 Driver.vicky2 (screen_setphys cfgST Driver.vicky2 hw0 0xC10000)
      ≠ 0xC10000 := by
  refine ⟨fun _ _ _ _ => ⟨rfl, rfl⟩, rfl, by decide, by decide⟩

/-- What `vicky3_physbase` reads after `setphys(A)`, when the enable word at 0xFC000000 is
not the start-address register. -/
theorem vicky3_physbase_setphys (cfg : Config) (s : Hw) (A : Nat)
    (hV : cfg.VICKY3 + 4 ≠ 0xFC000000) :
    vicky3_physbase cfg (vicky3_setphys cfg s A) = A % 4294967296 / 4 * 4 := by
  have hV2 : ¬ (cfg.VICKY3 + 4 = 4227858432) := hV
  simp only [vicky3_physbase, vicky3_setphys, setReg, hV2, if_false, if_true]
  omega

/-- C14: on the VICKY III driver, with the start-address register `VICKY3 + 4` distinct from
the enable word at 0xFC000000, `vicky3_physbase()` right after `setphys(A)` returns `A` for
every 32-bit `A` that is a multiple of 4 and `A` with its two low bits cleared for every
other 32-bit `A`; and `setphys` leaves the word `1 + (MODEREZ << 1)` at 0xFC000000, which
is the control register when `VICKY3 = 0xFC000000`. -/
theorem C14_vicky3_setphys_physbase (cfg : Config) (s : Hw) (A : Nat) (hA : A < 4294967296)
    (hV : cfg.VICKY3 + 4 ≠ 0xFC000000) :
    (A % 4 = 0 → vicky3_physbase cfg (vicky3_setphys cfg s A) = A) ∧
    vicky3_physbase cfg (vicky3_setphys cfg s A) = A / 4 * 4 ∧
    vicky3_physbase cfg (vicky3_setphys cfg s A) = A - A % 4 ∧
    (vicky3_setphys cfg s A).r32 0xFC000000 = 1 + (MODEREZ <<< 1) ∧
    (cfg.VICKY3 = 0xFC000000 → (vicky3_setphys cfg s A).r32 cfg.VICKY3 = 1 + (MODEREZ <<< 1)) := by
  have h := vicky3_physbase_setphys cfg s A hV
  rw [Nat.mod_eq_of_lt hA] at h
  refine ⟨?_, h, ?_, ?_, ?_⟩
  · intro h4
    rw [h]
    omega
  · rw [h]
    omega
  · simp [vicky3_setphys, setReg]
  · intro h0
    simp [vicky3_setphys, setReg, h0]

/-- Witness of C14: register block at 0xFC000000, addresses 0x123454 and 0x123457. -/
theorem C14_vicky3_setphys_physbase_witness :
    cfgST.VICKY3 + 4 ≠ 0xFC000000 ∧
    vicky3_physbase cfgST (vicky3_setphys cfgST hw0 0x123454) = 0x123454 ∧
    vicky3_physbase cfgST (vicky3_setphys cfgST hw0 0x123457) = 0x123457 / 4 * 4 ∧
    (vicky3_setphys cfgST hw0 0x123454).r32 cfgST.VICKY3 = 1 + (MODEREZ <<< 1) :=
  ⟨by decide,
   (C14_vicky3_setphys_physbase cfgST hw0 0x123454 (by decide) (by decide)).1 (by decide),
   (C14_vicky3_setphys_physbase cfgST hw0 0x123457 (by decide) (by decide)).2.1,
   (C14_vicky3_setphys_physbase cfgST hw0 0x123454 (by decide) (by decide)).2.2.2.2 rfl⟩

/-! ## Video RAM size -/

/-- The mode that `shifter_get_current_mode_info` reports is a row of `vmode_table`. -/
theorem shifter_info_mem (cfg : Config) (s : Hw) :
    shifter_get_current_mode_info cfg s ∈ shifter_modes := by
  unfold shifter_get_current_mode_info
  have hi : s.sshiftmod &&& 7 ≤ 7 := Nat.and_le_right
  generalize s.sshiftmod &&& 7 = i at hi
  simp only []
  interval_cases i <;> cases h : cfg.CONF_WITH_TT_SHIFTER <;>
    simp [vmode_table, shifter_modes, h]

/-- Without VIDEL `atari_calc_vram_size` is computed from the raw size of the current mode. -/
theorem atari_calc_vram_size_shifter (cfg : Config) (ext : Extern) (s : Hw)
    (hv : cfg.has_videl = false) :
    atari_calc_vram_size cfg ext s =
      if HAS_TT_SHIFTER cfg then
        (raw_vram_size (shifter_get_current_mode_info cfg s) % 4294967296 + EXTRA_VRAM_SIZE)
          % 4294967296
      else ((raw_vram_size (shifter_get_current_mode_info cfg s) % 4294967296 + 768 + 255)
          % 4294967296) &&& (4294967295 - 255) := by
  simp [atari_calc_vram_size, hv, atari_get_current_mode_info, raw_vram_size]

/-- On a TT no row of `vmode_table` overflows 32 bits. -/
theorem tt_size_rows : ∀ t ∈ shifter_modes,
    (raw_vram_size t % 4294967296 + EXTRA_VRAM_SIZE) % 4294967296
      = raw_vram_size t + EXTRA_VRAM_SIZE := by
  decide

/-- On an ST the size of every row of `vmode_table` is a multiple of 256 between
`raw + 768` and `raw + 768 + 255`. -/
theorem st_size_rows : ∀ t ∈ shifter_modes,
    (((raw_vram_size t % 4294967296 + 768 + 255) % 4294967296) &&& (4294967295 - 255)) % 256 = 0 ∧
    raw_vram_size t + 768 ≤
      (((raw_vram_size t % 4294967296 + 768 + 255) % 4294967296) &&& (4294967295 - 255)) ∧
    (((raw_vram_size t % 4294967296 + 768 + 255) % 4294967296) &&& (4294967295 - 255))
      < raw_vram_size t + 768 + 256 := by
  decide

/-- C15: on a non-VIDEL Atari chipset, for the current mode `(planes, w, h)` of `vmode_table`
and `raw = (w / 8 * planes) * h`, `atari_calc_vram_size()` returns `raw + EXTRA_VRAM_SIZE`
on a TT shifter, and on an ST or STe the least multiple of 256 that is at least
`raw + 768`; in both cases the result is at least `raw`. -/
theorem C15_calc_vram_size_shifter (cfg : Config) (ext : Extern) (s : Hw)
    (hv : cfg.has_videl = false) :
    (HAS_TT_SHIFTER cfg = true →
      atari_calc_vram_size cfg ext s =
        raw_vram_size (shifter_get_current_mode_info cfg s) + EXTRA_VRAM_SIZE) ∧
    (HAS_TT_SHIFTER cfg = false →
      atari_calc_vram_size cfg ext s % 256 = 0 ∧
      raw_vram_size (shifter_get_current_mode_info cfg s) + 768 ≤ atari_calc_vram_size cfg ext s ∧
      ∀ m : Nat, m % 256 = 0 → raw_vram_size (shifter_get_current_mode_info cfg s) + 768 ≤ m →
        atari_calc_vram_size cfg ext s ≤ m) ∧
    raw_vram_size (shifter_get_current_mode_info cfg s) ≤ atari_calc_vram_size cfg ext s := by
  have hmem := shifter_info_mem cfg s
  have hsz := atari_calc_vram_size_shifter cfg ext s hv
  have htt := tt_size_rows _ hmem
  have hst := st_size_rows _ hmem
  by_cases ht : HAS_TT_SHIFTER cfg = true
  · rw [ht, if_pos rfl, htt] at hsz
    refine ⟨fun _ => hsz, fun h => ?_, ?_⟩
    · rw [ht] at h
      exact absurd h (by decide)
    · rw [hsz]
      omega
  · simp only [Bool.not_eq_true] at ht
    rw [ht] at hsz
    simp only [Bool.false_eq_true, if_false] at hsz
    rw [← hsz] at hst
    refine ⟨fun h => ?_, fun _ => ⟨hst.1, hst.2.1, ?_⟩, ?_⟩
    · rw [ht] at h
      exact absurd h (by decide)
    · intro m hm hle
      omega
    · omega

/-- Witness of C15: TT medium on a TT gives 153600 + 256, ST low on a plain ST gives 32768. -/
theorem C15_calc_vram_size_shifter_witness :
    atari_calc_vram_size cfgTT ext0 { hw0 with sshiftmod := 4 } = 153600 + EXTRA_VRAM_SIZE ∧
    raw_vram_size (shifter_get_current_mode_info cfgST hw0) = 32000 ∧
    atari_calc_vram_size cfgST ext0 hw0 % 256 = 0 ∧
    atari_calc_vram_size cfgST ext0 hw0 = 32768 :=
  ⟨(C15_calc_vram_size_shifter cfgTT ext0 { hw0 with sshiftmod := 4 } rfl).1 rfl,
   by decide,
   ((C15_calc_vram_size_shifter cfgST ext0 hw0 rfl).2.1 rfl).1,
   by decide⟩

/-- On a TT the size is monotone in `planes * w * h` over the rows of `vmode_table`. -/
theorem tt_size_mono : ∀ t1 ∈ shifter_modes, ∀ t2 ∈ shifter_modes,
    mode_product t1 ≤ mode_product t2 →
    (raw_vram_size t1 % 4294967296 + EXTRA_VRAM_SIZE) % 4294967296
      ≤ (raw_vram_size t2 % 4294967296 + EXTRA_VRAM_SIZE) % 4294967296 := by
  decide

/-- On an ST the size is monotone in `planes * w * h` over the rows of `vmode_table`. -/
theorem st_size_mono : ∀ t1 ∈ shifter_modes, ∀ t2 ∈ shifter_modes,
    mode_product t1 ≤ mode_product t2 →
    (((raw_vram_size t1 % 4294967296 + 768 + 255) % 4294967296) &&& (4294967295 - 255))
      ≤ (((raw_vram_size t2 % 4294967296 + 768 + 255) % 4294967296) &&& (4294967295 - 255)) := by
  decide

/-- On the VICKY II, for 16-bit width and height, the size is `w * h + EXTRA_VRAM_SIZE`. -/
theorem vicky2_size_eq (s : Hw) (hw : s.vicky2_mode.w < 65536) (hh : s.vicky2_mode.h < 65536) :
    screen_vicky2_calc_vram_size s = s.vicky2_mode.w * s.vicky2_mode.h + EXTRA_VRAM_SIZE := by
  have h1 : s.vicky2_mode.w * s.vicky2_mode.h ≤ 65535 * 65535 :=
    Nat.mul_le_mul (by omega) (by omega)
  unfold screen_vicky2_calc_vram_size EXTRA_VRAM_SIZE
  simp only []
  rw [Nat.mod_eq_of_lt (by omega : s.vicky2_mode.w < 4294967296),
    Nat.mod_eq_of_lt (by omega : s.vicky2_mode.h < 4294967296)]
  exact Nat.mod_eq_of_lt (by omega)

/-- With VIDEL the size is non-decreasing in the byte count that `vgetsize` reports, short of
a 32-bit overflow: the count is raised to `FALCON_VRAM_SIZE` when below it, then
`EXTRA_VRAM_SIZE` is added. -/
theorem videl_size_mono (cfg : Config) (ext : Extern) (s1 s2 : Hw)
    (hv : cfg.has_videl = true)
    (hF : cfg.FALCON_VRAM_SIZE + EXTRA_VRAM_SIZE < 4294967296)
    (h2 : ext.vgetsize s2 (ext.vsetmode_query s2) + EXTRA_VRAM_SIZE < 4294967296)
    (hle : ext.vgetsize s1 (ext.vsetmode_query s1) ≤ ext.vgetsize s2 (ext.vsetmode_query s2)) :
    atari_calc_vram_size cfg ext s1 ≤ atari_calc_vram_size cfg ext s2 := by
  unfold EXTRA_VRAM_SIZE at hF h2
  simp only [atari_calc_vram_size, hv, if_true, EXTRA_VRAM_SIZE]
  rw [Nat.mod_eq_of_lt (by omega : ext.vgetsize s1 (ext.vsetmode_query s1) < 4294967296),
    Nat.mod_eq_of_lt (by omega : ext.vgetsize s2 (ext.vsetmode_query s2) < 4294967296)]
  split <;> split <;> omega

/-- C16: for a fixed chipset `calc_vram_size()` is non-decreasing in `planes * w * h` of the
mode that `get_current_mode_info` reports. On the Atari shifters this holds for any two
states, the modes being the rows of `vmode_table`. With a VIDEL the size is the byte count of
`vgetsize`, raised to `FALCON_VRAM_SIZE` and increased by `EXTRA_VRAM_SIZE`: it is
non-decreasing in that count, short of a 32-bit overflow. On the VICKY II, whose modes have 8
bits per pixel, it holds for any two modes of 16-bit width and height; the size is
`w * h + EXTRA_VRAM_SIZE`, so it is non-decreasing in `w * h`, and in `planes * w * h`
among modes of one depth. On the VICKY III the size is constant. -/
theorem C16_calc_vram_size_monotone (cfg : Config) (ext : Extern) (s1 s2 : Hw) :
    (cfg.has_videl = false →
      mode_product (atari_get_current_mode_info cfg ext s1)
        ≤ mode_product (atari_get_current_mode_info cfg ext s2) →
      calc_vram_size cfg ext Driver.atari s1 ≤ calc_vram_size cfg ext Driver.atari s2) ∧
    (cfg.has_videl = true →
      cfg.FALCON_VRAM_SIZE + EXTRA_VRAM_SIZE < 4294967296 →
      ext.vgetsize s2 (ext.vsetmode_query s2) + EXTRA_VRAM_SIZE < 4294967296 →
      ext.vgetsize s1 (ext.vsetmode_query s1) ≤ ext.vgetsize s2 (ext.vsetmode_query s2) →
      calc_vram_size cfg ext Driver.atari s1 ≤ calc_vram_size cfg ext Driver.atari s2) ∧
    (s1.vicky2_mode.bpp = 8 → s2.vicky2_mode.bpp = 8 →
      s1.vicky2_mode.w < 65536 → s1.vicky2_mode.h < 65536 →
      s2.vicky2_mode.w < 65536 → s2.vicky2_mode.h < 65536 →
      mode_product (screen_vicky2_get_current_mode_info s1)
        ≤ mode_product (screen_vicky2_get_current_mode_info s2) →
      calc_vram_size cfg ext Driver.vicky2 s1 ≤ calc_vram_size cfg ext Driver.vicky2 s2) ∧
    (s1.vicky2_mode.w < 65536 → s1.vicky2_mode.h < 65536 →
      s2.vicky2_mode.w < 65536 → s2.vicky2_mode.h < 65536 →
      s1.vicky2_mode.w * s1.vicky2_mode.h ≤ s2.vicky2_mode.w * s2.vicky2_mode.h →
      calc_vram_size cfg ext Driver.vicky2 s1 ≤ calc_vram_size cfg ext Driver.vicky2 s2) ∧
    (s1.vicky2_mode.w < 65536 → s1.vicky2_mode.h < 65536 →
      s2.vicky2_mode.w < 65536 → s2.vicky2_mode.h < 65536 →
      s1.vicky2_mode.bpp = s2.vicky2_mode.bpp → 0 < s1.vicky2_mode.bpp →
      s1.vicky2_mode.bpp * s1.vicky2_mode.w * s1.vicky2_mode.h
        ≤ s2.vicky2_mode.bpp * s2.vicky2_mode.w * s2.vicky2_mode.h →
      calc_vram_size cfg ext Driver.vicky2 s1 ≤ calc_vram_size cfg ext Driver.vicky2 s2) ∧
    calc_vram_size cfg ext Driver.vicky3 s1 ≤ calc_vram_size cfg ext Driver.vicky3 s2 ∧
    calc_vram_size cfg ext Driver.vicky3 s1 = calc_vram_size cfg ext Driver.vicky3 s2 := by
  have hv2 : s1.vicky2_mode.w < 65536 → s1.vicky2_mode.h < 65536 →
      s2.vicky2_mode.w < 65536 → s2.vicky2_mode.h < 65536 →
      s1.vicky2_mode.w * s1.vicky2_mode.h ≤ s2.vicky2_mode.w * s2.vicky2_mode.h →
      calc_vram_size cfg ext Driver.vicky2 s1 ≤ calc_vram_size cfg ext Driver.vicky2 s2 := by
    intro a b c d hle
    simp only [calc_vram_size]
    rw [vicky2_size_eq s1 a b, vicky2_size_eq s2 c d]
    omega
  refine ⟨?_, ?_, ?_, hv2, ?_, Nat.le_refl _, rfl⟩
  · intro hv hle
    have e1 : atari_get_current_mode_info cfg ext s1 = shifter_get_current_mode_info cfg s1 := by
      simp [atari_get_current_mode_info, hv]
    have e2 : atari_get_current_mode_info cfg ext s2 = shifter_get_current_mode_info cfg s2 := by
      simp [atari_get_current_mode_info, hv]
    rw [e1, e2] at hle
    simp only [calc_vram_size]
    rw [atari_calc_vram_size_shifter cfg ext s1 hv, atari_calc_vram_size_shifter cfg ext s2 hv]
    by_cases ht : HAS_TT_SHIFTER cfg = true
    · rw [if_pos ht, if_pos ht]
      exact tt_size_mono _ (shifter_info_mem cfg s1) _ (shifter_info_mem cfg s2) hle
    · rw [if_neg ht, if_neg ht]
      exact st_size_mono _ (shifter_info_mem cfg s1) _ (shifter_info_mem cfg s2) hle
  · intro hv hF h2 hle
    exact videl_size_mono cfg ext s1 s2 hv hF h2 hle
  · intro b1 b2 a b c d hle
    apply hv2 a b c d
    simp only [mode_product, screen_vicky2_get_current_mode_info, b1, b2] at hle
    rw [Nat.mod_eq_of_lt a, Nat.mod_eq_of_lt b, Nat.mod_eq_of_lt c, Nat.mod_eq_of_lt d,
      Nat.mul_assoc, Nat.mul_assoc] at hle
    exact Nat.le_of_mul_le_mul_left hle (by decide)
  · intro a b c d hb hpos hle
    apply hv2 a b c d
    rw [← hb, Nat.mul_assoc, Nat.mul_assoc] at hle
    exact Nat.le_of_mul_le_mul_left hle hpos

/-- Witness of C16: ST low against TT medium on a TT; a VIDEL mode of 153600 bytes against
one of 614400 bytes; 640x480 against 800x600 at depth 8 on the VICKY II. -/
theorem C16_calc_vram_size_monotone_witness :
    calc_vram_size cfgTT ext0 Driver.atari hw0
      ≤ calc_vram_size cfgTT ext0 Driver.atari { hw0 with sshiftmod := 4 } ∧
    calc_vram_size cfgFalcon extVgetsize Driver.atari hw0
      ≤ calc_vram_size cfgFalcon extVgetsize Driver.atari { hw0 with current_video_mode := 1 } ∧
    calc_vram_size cfgST ext0 Driver.vicky2 { hw0 with vicky2_mode := ⟨2, 640, 480, 8⟩ }
      ≤ calc_vram_size cfgST ext0 Driver.vicky2 { hw0 with vicky2_mode := ⟨1, 800, 600, 8⟩ } :=
  ⟨(C16_calc_vram_size_monotone cfgTT ext0 hw0 { hw0 with sshiftmod := 4 }).1 rfl (by decide),
   (C16_calc_vram_size_monotone cfgFalcon extVgetsize hw0
      { hw0 with current_video_mode := 1 }).2.1 rfl (by decide) (by decide) (by decide),
   (C16_calc_vram_size_monotone cfgST ext0 { hw0 with vicky2_mode := ⟨2, 640, 480, 8⟩ }
      { hw0 with vicky2_mode := ⟨1, 800, 600, 8⟩ }).2.2.1 rfl rfl (by decide) (by decide)
      (by decide) (by decide) (by decide)⟩

/-! ## Boot: video RAM set-up -/

/-- What `atari_setphys` leaves alone. -/
theorem atari_setphys_frame (cfg : Config) (s : Hw) (A : Nat) :
    (atari_setphys cfg s A).v_bas_ad = s.v_bas_ad ∧
    (atari_setphys cfg s A).video_ram_size = s.video_ram_size ∧
    (atari_setphys cfg s A).video_ram_addr = s.video_ram_addr ∧
    (atari_setphys cfg s A).trace = s.trace ∧
    (atari_setphys cfg s A).rez_was_hacked = s.rez_was_hacked := by
  unfold atari_setphys
  simp only []
  split <;> simp

/-- The state left by `screen_init` on the Atari driver when no fixed video address is
configured. -/
theorem screen_init_atari_eq (cfg : Config) (ext : Extern) (s : Hw)
    (h0 : cfg.CONF_VRAM_ADDRESS = 0) :
    screen_init cfg ext Driver.atari s =
      atari_setphys cfg
        { emit (Event.balloc_stram
              (toLONG (atari_calc_vram_size cfg ext (atari_booted cfg ext s))) true)
            (atari_booted cfg ext s) with
          video_ram_size := toLONG (atari_calc_vram_size cfg ext (atari_booted cfg ext s)),
          video_ram_addr := ext.balloc_stram (atari_booted cfg ext s)
            (toLONG (atari_calc_vram_size cfg ext (atari_booted cfg ext s))) true,
          v_bas_ad := ext.balloc_stram (atari_booted cfg ext s)
            (toLONG (atari_calc_vram_size cfg ext (atari_booted cfg ext s))) true }
        (ext.balloc_stram (atari_booted cfg ext s)
            (toLONG (atari_calc_vram_size cfg ext (atari_booted cfg ext s))) true) := by
  simp [screen_init, setup_video_ram, h0, atari_booted, calc_vram_size, screen_setphys, emit]

/-- C17: at boot on the Atari driver with no fixed video address configured, for the
address `A` that the allocator returns, `screen_init` requests exactly `calc_vram_size()`
bytes (one `balloc_stram` call, from the top), records `video_ram_size` as that size and
`video_ram_addr = A`, sets `v_bas_ad` to `A`, and programs the video-base registers from
`A`, so that a following `physbase()` returns `A`. The address `A` is one of ST-RAM as the
registers hold it: below 2^24, and a multiple of 256 on a plain ST, where the block is taken
below the 256-aligned top of memory in a size that is a multiple of 256. For any `A` at all,
`physbase()` returns `A` cut to the bytes that the registers hold. -/
theorem C17_screen_init_video_ram (cfg : Config) (ext : Extern) (s : Hw)
    (h0 : cfg.CONF_VRAM_ADDRESS = 0) :
    (screen_init cfg ext Driver.atari s).trace =
      Event.balloc_stram (toLONG (calc_vram_size cfg ext Driver.atari (atari_booted cfg ext s))) true
        :: (atari_booted cfg ext s).trace ∧
    (screen_init cfg ext Driver.atari s).video_ram_size =
      toLONG (calc_vram_size cfg ext Driver.atari (atari_booted cfg ext s)) ∧
    (screen_init cfg ext Driver.atari s).video_ram_addr =
      ext.balloc_stram (atari_booted cfg ext s)
        (toLONG (calc_vram_size cfg ext Driver.atari (atari_booted cfg ext s))) true ∧
    logbase (screen_init cfg ext Driver.atari s) =
      ext.balloc_stram (atari_booted cfg ext s)
        (toLONG (calc_vram_size cfg ext Driver.atari (atari_booted cfg ext s))) true ∧
    (representable cfg (ext.balloc_stram (atari_booted cfg ext s)
        (toLONG (calc_vram_size cfg ext Driver.atari (atari_booted cfg ext s))) true) →
      physbase cfg ext Driver.atari (screen_init cfg ext Driver.atari s) =
        ext.balloc_stram (atari_booted cfg ext s)
          (toLONG (calc_vram_size cfg ext Driver.atari (atari_booted cfg ext s))) true) ∧
    physbase cfg ext Driver.atari (screen_init cfg ext Driver.atari s) =
      (if cfg.has_videl || HAS_TT_SHIFTER cfg || cfg.has_ste_shifter then
        ext.balloc_stram (atari_booted cfg ext s)
          (toLONG (calc_vram_size cfg ext Driver.atari (atari_booted cfg ext s))) true % 16777216
       else
        ext.balloc_stram (atari_booted cfg ext s)
          (toLONG (calc_vram_size cfg ext Driver.atari (atari_booted cfg ext s))) true % 16777216
          / 256 * 256) := by
  have he := screen_init_atari_eq cfg ext s h0
  simp only [calc_vram_size, physbase, logbase]
  generalize ext.balloc_stram (atari_booted cfg ext s)
    (toLONG (atari_calc_vram_size cfg ext (atari_booted cfg ext s))) true = A at he ⊢
  rw [he]
  have hfr := atari_setphys_frame cfg
    { emit (Event.balloc_stram
          (toLONG (atari_calc_vram_size cfg ext (atari_booted cfg ext s))) true)
        (atari_booted cfg ext s) with
      video_ram_size := toLONG (atari_calc_vram_size cfg ext (atari_booted cfg ext s)),
      video_ram_addr := A, v_bas_ad := A } A
  have hpb := atari_physbase_setphys cfg ext
    { emit (Event.balloc_stram
          (toLONG (atari_calc_vram_size cfg ext (atari_booted cfg ext s))) true)
        (atari_booted cfg ext s) with
      video_ram_size := toLONG (atari_calc_vram_size cfg ext (atari_booted cfg ext s)),
      video_ram_addr := A, v_bas_ad := A } A
    (by simp [emit, atari_booted, FALSE])
  refine ⟨?_, ?_, ?_, ?_, ?_, hpb⟩
  · rw [hfr.2.2.2.1]
    rfl
  · rw [hfr.2.1]
  · rw [hfr.2.2.1]
  · rw [hfr.1]
  · intro hrep
    rw [hpb]
    obtain ⟨hlt, h256⟩ := hrep
    by_cases hf : (cfg.has_videl || HAS_TT_SHIFTER cfg || cfg.has_ste_shifter) = true
    · rw [if_pos hf]
      omega
    · simp only [Bool.not_eq_true] at hf
      have := h256 hf
      rw [hf]
      simp only [Bool.false_eq_true, if_false]
      omega

/-- Witness of C17: a TT with a colour monitor boots in TT medium and the allocator returns
0x100000 for the 153856 bytes requested; a plain ST with a colour monitor boots in ST low
and the allocator returns 0xF8000. -/
theorem C17_screen_init_video_ram_witness :
    cfgTT.CONF_VRAM_ADDRESS = 0 ∧
    calc_vram_size cfgTT (extAlloc 0x100000) Driver.atari
        (atari_booted cfgTT (extAlloc 0x100000) hwColour) = 153856 ∧
    (screen_init cfgTT (extAlloc 0x100000) Driver.atari hwColour).video_ram_size = 153856 ∧
    logbase (screen_init cfgTT (extAlloc 0x100000) Driver.atari hwColour) = 0x100000 ∧
    physbase cfgTT (extAlloc 0x100000) Driver.atari
      (screen_init cfgTT (extAlloc 0x100000) Driver.atari hwColour) = 0x100000 ∧
    representable cfgST 0xF8000 ∧
    physbase cfgST (extAlloc 0xF8000) Driver.atari
      (screen_init cfgST (extAlloc 0xF8000) Driver.atari hwColour) = 0xF8000 :=
  ⟨rfl, by decide,
   by
    rw [(C17_screen_init_video_ram cfgTT (extAlloc 0x100000) hwColour rfl).2.1]
    decide,
   (C17_screen_init_video_ram cfgTT (extAlloc 0x100000) hwColour rfl).2.2.2.1,
   (C17_screen_init_video_ram cfgTT (extAlloc 0x100000) hwColour rfl).2.2.2.2.1
     ⟨by decide, fun h => absurd h (by decide)⟩,
   ⟨by decide, fun _ => by decide⟩,
   (C17_screen_init_video_ram cfgST (extAlloc 0xF8000) hwColour rfl).2.2.2.2.1
     ⟨by decide, fun _ => by decide⟩⟩

/-! ## Monitor change -/

/-- The bits of the new shifter value selected by a resolution mask are those of the new
resolution. -/
theorem low_bits (R nr m : Nat) (hm : 0xf8 &&& m = 0) (hm2 : 255 &&& m = m) :
    (((R &&& 0xf8) ||| nr) % 256) &&& m = nr &&& m := by
  have e1 : ((R &&& 0xf8) ||| nr) % 256 = ((R &&& 0xf8) ||| nr) &&& 255 := by
    have := Nat.and_pow_two_sub_one_eq_mod ((R &&& 0xf8) ||| nr) 8
    simpa using this.symm
  rw [e1, Nat.and_assoc, hm2, Nat.and_comm, Nat.and_or_distrib_left,
    Nat.and_comm m (R &&& 0xf8), Nat.and_assoc, hm, Nat.and_zero, Nat.zero_or, Nat.and_comm]

/-- The bits 3..7 of the new shifter value are those of the old one when the new resolution
is below 8. -/
theorem high_bits (R nr : Nat) (h : nr < 8) :
    (((R &&& 0xf8) ||| nr) % 256) &&& 0xf8 = R &&& 0xf8 := by
  have e1 : ((R &&& 0xf8) ||| nr) % 256 = ((R &&& 0xf8) ||| nr) &&& 255 := by
    have := Nat.and_pow_two_sub_one_eq_mod ((R &&& 0xf8) ||| nr) 8
    simpa using this.symm
  have e2 : (0xf8 : Nat) &&& nr = 0 := by
    interval_cases nr <;> decide
  have e3 : (255 : Nat) &&& 0xf8 = 0xf8 := by decide
  have e4 : (0xf8 : Nat) &&& 0xf8 = 0xf8 := by decide
  rw [e1, Nat.and_assoc, e3, Nat.and_comm, Nat.and_or_distrib_left, e2, Nat.or_zero,
    Nat.and_comm, Nat.and_assoc, e4]

/-- The two outcomes of `screen_detect_monitor_change` on a shifter. -/
theorem detect_eq (cfg : Config) (s : Hw) (hv : cfg.has_videl = false) :
    (¬ monitor_mismatch cfg s → screen_detect_monitor_change cfg s = s) ∧
    (monitor_mismatch cfg s →
      screen_detect_monitor_change cfg s =
        emit Event.swv_vec
          (with_shifter_reg cfg
            { s with sshiftmod := fallback_res cfg s (sense_monoflag cfg s) }
            (((shifter_reg cfg s &&& 0xf8) ||| fallback_res cfg s (sense_monoflag cfg s)) % 256))) := by
  have u6 : ubyte TT_HIGH = 6 := by decide
  have u2 : ubyte ST_HIGH = 2 := by decide
  have u0 : ubyte ST_LOW = 0 := by decide
  unfold monitor_mismatch screen_detect_monitor_change fallback_res mono_res res_mask shifter_reg
    with_shifter_reg
  simp only [hv, Bool.false_eq_true, if_false, u6, u2, u0]
  by_cases ht : HAS_TT_SHIFTER cfg = true
  · simp only [ht, if_true]
    by_cases hc : s.TT_SHIFTER % 256 &&& 7 = 6
    · by_cases hm : sense_monoflag cfg s < 0
      · have hge : ¬ sense_monoflag cfg s ≥ 0 := by omega
        simp [hc, hm, hge]
      · have hge : sense_monoflag cfg s ≥ 0 := by omega
        simp [hc, hm, hge]
    · by_cases hm : sense_monoflag cfg s < 0
      · have hge : ¬ sense_monoflag cfg s ≥ 0 := by omega
        simp [hc, hm, hge]
      · have hge : sense_monoflag cfg s ≥ 0 := by omega
        simp [hc, hm, hge]
  · simp only [ht, if_false]
    by_cases hc : s.ST_SHIFTER % 256 &&& 3 = 2
    · by_cases hm : sense_monoflag cfg s < 0
      · have hge : ¬ sense_monoflag cfg s ≥ 0 := by omega
        simp [hc, hm, hge]
      · have hge : sense_monoflag cfg s ≥ 0 := by omega
        simp [hc, hm, hge]
    · by_cases hm : sense_monoflag cfg s < 0
      · have hge : ¬ sense_monoflag cfg s ≥ 0 := by omega
        simp [hc, hm, hge]
      · have hge : sense_monoflag cfg s ≥ 0 := by omega
        simp [hc, hm, hge]

/-- Without DMA sound the monitor is sensed as monochrome exactly when GPIP bit 7 is clear. -/
theorem sense_monoflag_nodma (cfg : Config) (s : Hw) (hd : cfg.has_dmasound = false) :
    (sense_monoflag cfg s ≥ 0 ↔ s.gpip % 256 < 128) := by
  simp only [sense_monoflag, hd, Bool.false_eq_true, if_false, sbyte]
  split <;> omega

/-- The shifter register after the write of `screen_detect_monitor_change`. -/
theorem shifter_reg_with (cfg : Config) (s : Hw) (v : Nat) :
    shifter_reg cfg (emit Event.swv_vec (with_shifter_reg cfg s v)) = v % 256 := by
  unfold shifter_reg with_shifter_reg emit
  by_cases ht : HAS_TT_SHIFTER cfg = true
  · simp [ht]
  · simp [ht]

/-- What the writes of `screen_detect_monitor_change` leave alone. -/
theorem detect_frame (cfg : Config) (s : Hw) (v f : Nat) :
    sense_monoflag cfg (emit Event.swv_vec (with_shifter_reg cfg { s with sshiftmod := f } v))
      = sense_monoflag cfg s ∧
    (emit Event.swv_vec (with_shifter_reg cfg { s with sshiftmod := f } v)).defshiftmod
      = s.defshiftmod ∧
    (emit Event.swv_vec (with_shifter_reg cfg { s with sshiftmod := f } v)).sshiftmod = f ∧
    (emit Event.swv_vec (with_shifter_reg cfg { s with sshiftmod := f } v)).trace
      = Event.swv_vec :: s.trace := by
  unfold sense_monoflag with_shifter_reg emit
  by_cases ht : HAS_TT_SHIFTER cfg = true
  · simp [ht]
  · simp [ht]

/-- C18, counterexample: a plain ST without DMA sound in ST high, colour monitor sensed,
`defshiftmod = 8`. The handler stores the fallback 8 in `sshiftmod` and writes
`(2 & 0xf8) | 8 = 8` to the shifter: the low three bits are 0, not the fallback, and bit 3
is set although it was clear. -/
theorem C18_counterexample :
    cfgST.has_dmasound = false ∧ cfgST.has_videl = false ∧
    shifter_reg cfgST { hw0 with sshiftmod := 2, ST_SHIFTER := 2, gpip := 0x80, defshiftmod := 8 }
      = 2 ∧
    fallback_res cfgST { hw0 with sshiftmod := 2, ST_SHIFTER := 2, gpip := 0x80, defshiftmod := 8 }
      (sbyte 0x80) = 8 ∧
    (screen_detect_monitor_change cfgST
      { hw0 with sshiftmod := 2, ST_SHIFTER := 2, gpip := 0x80, defshiftmod := 8 }).sshiftmod = 8 ∧
    (screen_detect_monitor_change cfgST
      { hw0 with sshiftmod := 2, ST_SHIFTER := 2, gpip := 0x80, defshiftmod := 8 }).ST_SHIFTER = 8 ∧
    (8 : Nat) &&& 7 ≠ 8 ∧ (8 : Nat) &&& 0xf8 ≠ 2 &&& 0xf8 := by
  decide

/-- C18, amended: on a shifter chipset without DMA sound, `screen_detect_monitor_change`
acts if and only if the sensed monitor disagrees with the current resolution. When (the
current resolution is the monochrome one) agrees with (GPIP bit 7 clear) the state is
unchanged: no register write, `sshiftmod` as before, no `swv_vec`. Otherwise it stores the
fallback resolution in `sshiftmod`, writes `(register & 0xf8) | fallback` to the shifter
register, and calls `swv_vec` exactly once; when the fallback is below 8 (always with a
monochrome monitor, and whenever `defshiftmod` is below 8) the low three bits of the
register are the fallback and bits 3..7 are kept. On VIDEL it does nothing. -/
theorem C18_detect_monitor_change (cfg : Config) (s : Hw) :
    (cfg.has_videl = true → screen_detect_monitor_change cfg s = s) ∧
    (cfg.has_videl = false → cfg.has_dmasound = false →
      (((shifter_reg cfg s &&& res_mask cfg = mono_res cfg) ↔ s.gpip % 256 < 128) →
        screen_detect_monitor_change cfg s = s) ∧
      (¬ ((shifter_reg cfg s &&& res_mask cfg = mono_res cfg) ↔ s.gpip % 256 < 128) →
        (screen_detect_monitor_change cfg s).sshiftmod = fallback_res cfg s (sbyte s.gpip) ∧
        shifter_reg cfg (screen_detect_monitor_change cfg s) =
          ((shifter_reg cfg s &&& 0xf8) ||| fallback_res cfg s (sbyte s.gpip)) % 256 ∧
        (fallback_res cfg s (sbyte s.gpip) < 8 →
          shifter_reg cfg (screen_detect_monitor_change cfg s) &&& 7
            = fallback_res cfg s (sbyte s.gpip) ∧
          shifter_reg cfg (screen_detect_monitor_change cfg s) &&& 0xf8
            = shifter_reg cfg s &&& 0xf8) ∧
        (screen_detect_monitor_change cfg s).trace = Event.swv_vec :: s.trace ∧
        screen_detect_monitor_change cfg s =
          emit Event.swv_vec
            (with_shifter_reg cfg { s with sshiftmod := fallback_res cfg s (sbyte s.gpip) }
              (((shifter_reg cfg s &&& 0xf8) ||| fallback_res cfg s (sbyte s.gpip)) % 256)))) ∧
    (s.gpip % 256 < 128 → fallback_res cfg s (sbyte s.gpip) < 8) ∧
    (s.defshiftmod % 256 < 8 → fallback_res cfg s (sbyte s.gpip) < 8) := by
  refine ⟨?_, ?_, ?_, ?_⟩
  · intro hv
    simp [screen_detect_monitor_change, hv]
  · intro hv hd
    have hsm : sense_monoflag cfg s = sbyte s.gpip := by
      simp [sense_monoflag, hd]
    have hiff := sense_monoflag_nodma cfg s hd
    have hde := detect_eq cfg s hv
    unfold monitor_mismatch at hde
    rw [hiff, hsm] at hde
    refine ⟨fun h => hde.1 (not_not.mpr h), fun h => ?_⟩
    have he := hde.2 h
    have hfr := detect_frame cfg s
      (((shifter_reg cfg s &&& 0xf8) ||| fallback_res cfg s (sbyte s.gpip)) % 256)
      (fallback_res cfg s (sbyte s.gpip))
    have hreg := shifter_reg_with cfg { s with sshiftmod := fallback_res cfg s (sbyte s.gpip) }
      (((shifter_reg cfg s &&& 0xf8) ||| fallback_res cfg s (sbyte s.gpip)) % 256)
    rw [Nat.mod_mod] at hreg
    rw [he]
    refine ⟨hfr.2.2.1, hreg, ?_, hfr.2.2.2, rfl⟩
    intro hlt
    rw [hreg]
    refine ⟨?_, high_bits _ _ hlt⟩
    rw [low_bits _ _ 7 (by decide) (by decide)]
    have := Nat.and_pow_two_sub_one_eq_mod (fallback_res cfg s (sbyte s.gpip)) 3
    simp only [Nat.reducePow, Nat.add_one_sub_one] at this
    rw [this]
    exact Nat.mod_eq_of_lt hlt
  · intro hg
    have : sbyte s.gpip ≥ 0 := by
      unfold sbyte
      rw [if_pos hg]
      omega
    unfold fallback_res mono_res
    rw [if_pos this]
    split <;> decide
  · intro hdf
    unfold fallback_res mono_res
    split
    · split <;> decide
    · split <;> split <;> omega

/-- Witness of C18 (amended): a plain ST in ST low with a monochrome monitor switches to
ST high; in ST high with a monochrome monitor nothing happens. -/
theorem C18_detect_monitor_change_witness :
    (screen_detect_monitor_change cfgST hw0).sshiftmod = fallback_res cfgST hw0 (sbyte hw0.gpip) ∧
    (screen_detect_monitor_change cfgST hw0).trace = Event.swv_vec :: hw0.trace ∧
    screen_detect_monitor_change cfgST hwMono = hwMono :=
  ⟨(((C18_detect_monitor_change cfgST hw0).2.1 rfl rfl).2 (by decide)).1,
   (((C18_detect_monitor_change cfgST hw0).2.1 rfl rfl).2 (by decide)).2.2.2.1,
   ((C18_detect_monitor_change cfgST hwMono).2.1 rfl rfl).1 (by decide)⟩

/-- C19, counterexample: a plain ST in ST high with a colour monitor and `defshiftmod = 6`.
The first call programs the fallback 6, which the handler reads back as `6 & 3 = 2`, the
monochrome resolution; the second call sees a mismatch again and the restart hook is
called twice. -/
theorem C19_counterexample :
    cfgST.has_videl = false ∧
    (screen_detect_monitor_change cfgST
      { hw0 with sshiftmod := 2, ST_SHIFTER := 2, gpip := 0x80, defshiftmod := 6 }).trace
      = [Event.swv_vec] ∧
    (screen_detect_monitor_change cfgST (screen_detect_monitor_change cfgST
      { hw0 with sshiftmod := 2, ST_SHIFTER := 2, gpip := 0x80, defshiftmod := 6 })).trace
      = [Event.swv_vec, Event.swv_vec] := by
  decide

/-- C19, amended: on a shifter, for a monitor whose sensed type stays the same and a
`swv_vec` that returns without changing state, two consecutive invocations of
`screen_detect_monitor_change` call the restart hook exactly once when the first one saw a
mismatch, and the second call is a no-op, provided the fallback for a colour monitor is not
read back as the monochrome resolution: `defshiftmod`, through the resolution mask of the
chipset, is the monochrome resolution only if it is that resolution itself. With a
monochrome monitor this needs no condition. -/
theorem C19_detect_twice (cfg : Config) (s : Hw) (hv : cfg.has_videl = false)
    (hfb : sense_monoflag cfg s < 0 →
      (s.defshiftmod % 256) &&& res_mask cfg = mono_res cfg → s.defshiftmod % 256 = mono_res cfg) :
    screen_detect_monitor_change cfg (screen_detect_monitor_change cfg s)
      = screen_detect_monitor_change cfg s ∧
    (monitor_mismatch cfg s →
      (screen_detect_monitor_change cfg s).trace = Event.swv_vec :: s.trace ∧
      (screen_detect_monitor_change cfg (screen_detect_monitor_change cfg s)).trace
        = Event.swv_vec :: s.trace ∧
      (screen_detect_monitor_change cfg s).sshiftmod = fallback_res cfg s (sense_monoflag cfg s) ∧
      ¬ monitor_mismatch cfg (screen_detect_monitor_change cfg s)) := by
  have hde := detect_eq cfg s hv
  by_cases hmm : monitor_mismatch cfg s
  · have he := hde.2 hmm
    have hfr := detect_frame cfg s
      (((shifter_reg cfg s &&& 0xf8) ||| fallback_res cfg s (sense_monoflag cfg s)) % 256)
      (fallback_res cfg s (sense_monoflag cfg s))
    have hreg := shifter_reg_with cfg
      { s with sshiftmod := fallback_res cfg s (sense_monoflag cfg s) }
      (((shifter_reg cfg s &&& 0xf8) ||| fallback_res cfg s (sense_monoflag cfg s)) % 256)
    rw [Nat.mod_mod] at hreg
    have hm0 : (0xf8 : Nat) &&& res_mask cfg = 0 := by
      unfold res_mask
      split <;> decide
    have hm1 : (255 : Nat) &&& res_mask cfg = res_mask cfg := by
      unfold res_mask
      split <;> decide
    have hnm : ¬ monitor_mismatch cfg (screen_detect_monitor_change cfg s) := by
      rw [he]
      unfold monitor_mismatch
      rw [hfr.1, hreg, low_bits _ _ _ hm0 hm1, not_not]
      by_cases hm : sense_monoflag cfg s ≥ 0
      · have : fallback_res cfg s (sense_monoflag cfg s) &&& res_mask cfg = mono_res cfg := by
          unfold fallback_res
          rw [if_pos hm]
          unfold mono_res res_mask
          split <;> decide
        exact ⟨fun _ => hm, fun _ => this⟩
      · have hlt : sense_monoflag cfg s < 0 := by omega
        have : ¬ fallback_res cfg s (sense_monoflag cfg s) &&& res_mask cfg = mono_res cfg := by
          unfold fallback_res
          rw [if_neg hm]
          by_cases hd : s.defshiftmod % 256 = mono_res cfg
          · rw [if_pos hd]
            unfold mono_res res_mask
            split <;> decide
          · rw [if_neg hd]
            exact fun h => hd (hfb hlt h)
        exact ⟨fun h => absurd h this, fun h => absurd h hm⟩
    have hidem := (detect_eq cfg (screen_detect_monitor_change cfg s) hv).1 hnm
    refine ⟨hidem, fun _ => ⟨?_, ?_, ?_, hnm⟩⟩
    · rw [he]; exact hfr.2.2.2
    · rw [hidem, he]; exact hfr.2.2.2
    · rw [he]; exact hfr.2.2.1
  · have he := hde.1 hmm
    rw [he]
    exact ⟨he, fun h => absurd h hmm⟩

/-- Witness of C19 (amended): a plain ST in ST low with a monochrome monitor. -/
theorem C19_detect_twice_witness :
    monitor_mismatch cfgST hw0 ∧
    (screen_detect_monitor_change cfgST (screen_detect_monitor_change cfgST hw0)).trace
      = Event.swv_vec :: hw0.trace :=
  ⟨by unfold monitor_mismatch; decide,
   ((C19_detect_twice cfgST hw0 rfl (fun h => absurd h (by decide))).2
      (by unfold monitor_mismatch; decide)).2.1⟩

/-! ## Deferred palette update -/

/-- The VICKY II palette writer leaves the ST palette registers and `colorptr` alone. -/
theorem vicky2_lut_loop_palette (ext : Extern) (p : Nat → Nat) (i : Nat) (s : Hw) :
    (vicky2_lut_loop ext p i s).palette = s.palette ∧
    (vicky2_lut_loop ext p i s).colorptr = s.colorptr := by
  induction i generalizing s with
  | zero => simp [vicky2_lut_loop]
  | succ n ih => simp [vicky2_lut_loop, ih]

/-- C20: evaluation. The request phase is as stated: `setpalette` only stores its argument
in `colorptr`, and after `setpalette(P); setpalette(Q)` the state is the one
`setpalette(Q)` alone leaves. The apply step on a non-null pending pointer then forwards
to the `set_palette` slot of the linked table: that slot is null in both VICKY tables, so
no palette update from `Q` is defined there; in the Atari table it holds the VICKY II
writer, which is run once on `Q` and leaves the ST palette registers as they were. -/
theorem C20_pending_palette :
    (∀ (s : Hw) (P : Nat), setpalette s P = { s with colorptr := P }) ∧
    (∀ (s : Hw) (P Q : Nat), setpalette (setpalette s P) Q = setpalette s Q ∧
      (setpalette (setpalette s P) Q).colorptr = Q) ∧
    (∀ (cfg : Config) (ext : Extern) (s : Hw) (P Q : Nat),
      apply_pending_palette cfg ext Driver.vicky2 (setpalette (setpalette s P) (Q + 1)) = none ∧
      apply_pending_palette cfg ext Driver.vicky3 (setpalette (setpalette s P) (Q + 1)) = none) ∧
    (∀ (cfg : Config) (ext : Extern) (s : Hw) (P Q : Nat),
      apply_pending_palette cfg ext Driver.atari (setpalette (setpalette s P) (Q + 1)) =
        some { screen_vicky2_set_palette ext (setpalette s (Q + 1))
                (fun i => ext.peekw (Q + 1 + 2 * i)) with colorptr := 0 } ∧
      (screen_vicky2_set_palette ext (setpalette s (Q + 1))
          (fun i => ext.peekw (Q + 1 + 2 * i))).palette = s.palette) ∧
    (screen_driver Driver.vicky2).set_palette = none ∧
    (screen_driver Driver.vicky3).set_palette = none ∧
    (screen_driver Driver.atari).set_palette = some Fn.screen_vicky2_set_palette := by
  refine ⟨fun _ _ => rfl, fun _ _ _ => ⟨rfl, rfl⟩, ?_, ?_, by decide, by decide, by decide⟩
  · intro cfg ext s P Q
    simp [apply_pending_palette, setpalette, screen_do_set_palette]
  · intro cfg ext s P Q
    refine ⟨?_, ?_⟩
    · simp [apply_pending_palette, setpalette, screen_do_set_palette]
    · simp [screen_vicky2_set_palette, setpalette, vicky2_lut_loop_palette]

/-! ## Console re-initialisation after Setscreen -/

/-- Decrementing then incrementing a WORD, each with wrap-around, gives the value back. -/
theorem vblsem_roundtrip (v : Int) (h1 : -32768 ≤ v) (h2 : v ≤ 32767) :
    sword (uword (sword (uword (v - 1)) + 1)) = v := by
  unfold sword uword
  split <;> split <;> omega

/-- The console re-initialisation leaves `vblsem` as it found it: `vblsem--` and `vblsem++`
bracket the two calls. -/
theorem screen_init_services_vblsem (cfg : Config) (ext : Extern) (d : Driver) (s : Hw)
    (h1 : -32768 ≤ s.vblsem) (h2 : s.vblsem ≤ 32767) :
    (screen_init_services_from_mode_info cfg ext d s).vblsem = s.vblsem := by
  simp only [screen_init_services_from_mode_info, screen_init_services, emit]
  exact vblsem_roundtrip _ h1 h2

/-- The console re-initialisation adds exactly two calls to the trace: `linea_init` with the
triple of `get_current_mode_info`, then `vt52_init`. -/
theorem screen_init_services_trace (cfg : Config) (ext : Extern) (s : Hw) :
    (screen_init_services_from_mode_info cfg ext Driver.atari s).trace =
      Event.vt52_init ::
        Event.linea_init (atari_get_current_mode_info cfg ext s).1
          (atari_get_current_mode_info cfg ext s).2.1
          (atari_get_current_mode_info cfg ext s).2.2 :: s.trace := by
  simp [screen_init_services_from_mode_info, screen_init_services, emit]

/-- Neither `vblsem` nor the console calls of the trace change in `atari_setrez`. -/
theorem atari_setrez_frame (cfg : Config) (ext : Extern) (s : Hw) (rez videlmode : Int) :
    (atari_setrez cfg ext s rez videlmode).vblsem = s.vblsem ∧
    (atari_setrez cfg ext s rez videlmode).trace.filter is_console_event
      = s.trace.filter is_console_event := by
  unfold atari_setrez
  split
  · split
    · simp [initialise_falcon_palette, videl_setrez, emit, is_console_event]
    · simp
  · split
    · split <;> simp
    · split <;> simp

/-- Neither `vblsem` nor the console calls of the trace change in the VIDEL block of
`atari_setscreen`. -/
theorem atari_setscreen_videl_frame (cfg : Config) (ext : Extern) (s : Hw)
    (logLoc physLoc : Nat) (rez videlmode : Int) :
    (atari_setscreen_videl cfg ext s logLoc physLoc rez videlmode).1.vblsem = s.vblsem ∧
    (atari_setscreen_videl cfg ext s logLoc physLoc rez videlmode).1.trace.filter is_console_event
      = s.trace.filter is_console_event := by
  unfold atari_setscreen_videl
  split
  · split
    · split
      · split
        · simp only []
          split
          · simp [emit, is_console_event]
          · simp only [screen_setphys, atari_setphys, emit]
            split <;> simp [is_console_event]
        · simp
      · simp
    · simp
  · simp

/-- C21: a Setscreen on the Atari driver that is not hacked, has `rez` in `[MIN_REZ, MAX_REZ]`
(and not -1) and whose VIDEL block does not fail, with `vblsem` a WORD. The call is `vsync`,
`atari_setrez`, then one console re-initialisation: the trace gains `linea_init` then
`vt52_init` and no other console call, `linea_init` receives the triple that
`get_current_mode_info` reports for the state after `atari_setrez`, and `vblsem` ends with the
value it had. On a shifter that triple is the row `sshiftmod & 7` of `vmode_table` for the
final `sshiftmod`, which is the requested code or the former value, and is the former value
whenever `atari_setrez` ignores the request. -/
theorem C21_console_reinit_once (cfg : Config) (ext : Extern) (s s2 : Hw) (logLoc physLoc : Nat)
    (rez videlmode vm1 oldmode : Int)
    (hh : s.rez_was_hacked = false) (h1 : cfg.MIN_REZ ≤ rez) (h2 : rez ≤ cfg.MAX_REZ)
    (hn : rez ≠ -1)
    (hok : atari_setscreen_videl cfg ext (setscreen_addresses cfg Driver.atari s logLoc physLoc)
      logLoc physLoc rez videlmode = (s2, some (vm1, oldmode)))
    (hv1 : -32768 ≤ s.vblsem) (hv2 : s.vblsem ≤ 32767) :
    atari_setscreen cfg ext s logLoc physLoc rez videlmode =
      (oldmode, screen_init_services_from_mode_info cfg ext Driver.atari
        (atari_setrez cfg ext (vsync s2) rez vm1)) ∧
    (atari_setscreen cfg ext s logLoc physLoc rez videlmode).2.trace =
      Event.vt52_init ::
        Event.linea_init
          (atari_get_current_mode_info cfg ext (atari_setrez cfg ext (vsync s2) rez vm1)).1
          (atari_get_current_mode_info cfg ext (atari_setrez cfg ext (vsync s2) rez vm1)).2.1
          (atari_get_current_mode_info cfg ext (atari_setrez cfg ext (vsync s2) rez vm1)).2.2 ::
        (atari_setrez cfg ext (vsync s2) rez vm1).trace ∧
    (atari_setscreen cfg ext s logLoc physLoc rez videlmode).2.trace.filter is_console_event =
      Event.vt52_init ::
        Event.linea_init
          (atari_get_current_mode_info cfg ext (atari_setrez cfg ext (vsync s2) rez vm1)).1
          (atari_get_current_mode_info cfg ext (atari_setrez cfg ext (vsync s2) rez vm1)).2.1
          (atari_get_current_mode_info cfg ext (atari_setrez cfg ext (vsync s2) rez vm1)).2.2 ::
        s.trace.filter is_console_event ∧
    (atari_setscreen cfg ext s logLoc physLoc rez videlmode).2.vblsem = s.vblsem ∧
    (cfg.has_videl = false →
      atari_get_current_mode_info cfg ext (atari_setrez cfg ext (vsync s2) rez vm1) =
        ((((vmode_table cfg)[(atari_setscreen cfg ext s logLoc physLoc rez videlmode).2.sshiftmod
            &&& 7]?).getD ⟨0, 0, 0⟩).planes,
         (((vmode_table cfg)[(atari_setscreen cfg ext s logLoc physLoc rez videlmode).2.sshiftmod
            &&& 7]?).getD ⟨0, 0, 0⟩).hz_rez,
         (((vmode_table cfg)[(atari_setscreen cfg ext s logLoc physLoc rez videlmode).2.sshiftmod
            &&& 7]?).getD ⟨0, 0, 0⟩).vt_rez) ∧
      ((atari_setscreen cfg ext s logLoc physLoc rez videlmode).2.sshiftmod = ubyte rez ∨
        (atari_setscreen cfg ext s logLoc physLoc rez videlmode).2.sshiftmod = s.sshiftmod) ∧
      ((if HAS_TT_SHIFTER cfg then rez = FALCON_REZ else ST_HIGH < rez) →
        (atari_setscreen cfg ext s logLoc physLoc rez videlmode).2.sshiftmod = s.sshiftmod)) := by
  have ha := setscreen_addresses_frame cfg Driver.atari s logLoc physLoc
  have hvf := atari_setscreen_videl_frame cfg ext
    (setscreen_addresses cfg Driver.atari s logLoc physLoc) logLoc physLoc rez videlmode
  rw [hok] at hvf
  simp only [] at hvf
  have hrf := atari_setrez_frame cfg ext (vsync s2) rez vm1
  have heq : atari_setscreen cfg ext s logLoc physLoc rez videlmode =
      (oldmode, screen_init_services_from_mode_info cfg ext Driver.atari
        (atari_setrez cfg ext (vsync s2) rez vm1)) := by
    rw [atari_setscreen_eq, if_neg (not_neutral_guard cfg _ s logLoc physLoc rez hh hn),
      if_neg (by omega), hok]
  have hvs : (vsync s2).vblsem = s2.vblsem ∧
      (vsync s2).trace.filter is_console_event = s2.trace.filter is_console_event := by
    simp [vsync, emit, is_console_event]
  have hmidv : (atari_setrez cfg ext (vsync s2) rez vm1).vblsem = s.vblsem := by
    rw [hrf.1, hvs.1, hvf.1, ha.2.2.2.2.2.2.2]
  have hmidt : (atari_setrez cfg ext (vsync s2) rez vm1).trace.filter is_console_event
      = s.trace.filter is_console_event := by
    rw [hrf.2, hvs.2, hvf.2, ha.2.2.2.2.2.1]
  have htr := screen_init_services_trace cfg ext (atari_setrez cfg ext (vsync s2) rez vm1)
  rw [heq]
  refine ⟨rfl, htr, ?_, ?_, ?_⟩
  · simp only []
    rw [htr]
    simp only [List.filter_cons, is_console_event, if_true]
    rw [hmidt]
  · simp only []
    rw [screen_init_services_vblsem cfg ext Driver.atari _ (by rw [hmidv]; exact hv1)
      (by rw [hmidv]; exact hv2), hmidv]
  · intro hv
    have hs2 : s2 = setscreen_addresses cfg Driver.atari s logLoc physLoc := by
      have := atari_setscreen_videl_shifter cfg ext
        (setscreen_addresses cfg Driver.atari s logLoc physLoc) logLoc physLoc rez videlmode hv
      rw [hok] at this
      exact (Prod.mk.inj this).1
    have hfin := (screen_init_services_from_mode_info_frame cfg ext Driver.atari
      (atari_setrez cfg ext (vsync s2) rez vm1)).1
    simp only []
    rw [hfin]
    have hvss : (vsync s2).sshiftmod = s.sshiftmod := by
      rw [hs2]
      simp only [vsync, emit]
      exact ha.1
    refine ⟨?_, ?_, ?_⟩
    · simp [atari_get_current_mode_info, hv, shifter_get_current_mode_info]
    · unfold atari_setrez
      simp only [hv, Bool.false_eq_true, if_false]
      split
      · split
        · left; rfl
        · right; exact hvss
      · split
        · left; rfl
        · right; exact hvss
    · intro hna
      unfold atari_setrez
      simp only [hv, Bool.false_eq_true, if_false]
      by_cases ht : HAS_TT_SHIFTER cfg = true
      · rw [if_pos ht] at hna ⊢
        rw [if_neg (by simp [hna])]
        exact hvss
      · rw [if_neg ht] at hna ⊢
        rw [if_neg (not_le.mpr hna)]
        exact hvss

/-- C21, witness: a plain ST in ST low asked for ST medium. The console is re-initialised once
with the ST medium row (2, 640, 200), `sshiftmod` becomes 1 and `vblsem` stays 0. -/
theorem C21_console_reinit_once_witness :
    hw0.rez_was_hacked = false ∧ cfgST.MIN_REZ ≤ 1 ∧ (1 : Int) ≤ cfgST.MAX_REZ ∧
    (atari_setscreen cfgST ext0 hw0 0 0 1 0).2.trace.filter is_console_event =
      [Event.vt52_init, Event.linea_init 2 640 200] ∧
    (atari_setscreen cfgST ext0 hw0 0 0 1 0).2.vblsem = hw0.vblsem ∧
    (atari_setscreen cfgST ext0 hw0 0 0 1 0).2.sshiftmod = 1 :=
  ⟨rfl, by decide, by decide,
   (C21_console_reinit_once cfgST ext0 hw0 (setscreen_addresses cfgST Driver.atari hw0 0 0)
      0 0 1 0 0 0 rfl (by decide) (by decide) (by decide) rfl (by decide) (by decide)).2.2.1,
   (C21_console_reinit_once cfgST ext0 hw0 (setscreen_addresses cfgST Driver.atari hw0 0 0)
      0 0 1 0 0 0 rfl (by decide) (by decide) (by decide) rfl (by decide) (by decide)).2.2.2.1,
   by decide⟩

/-! ## Monitor sensing with DMA sound -/

set_option maxRecDepth 100000 in
/-- Bit 7 of a byte is set exactly when the byte is at least 128. -/
theorem and_80 : ∀ x < 256, ((x &&& 0x80 ≠ 0) ↔ 128 ≤ x) := by
  decide

/-- Reading a byte as SBYTE and taking its low eight bits gives the byte back. -/
theorem ubyte_sbyte (d : Nat) : ubyte (sbyte d) = d % 256 := by
  unfold ubyte sbyte
  split <;> omega

/-- Bit 7 of the GPIP byte is the sign of the byte read as SBYTE. -/
theorem bit7_iff (g : Nat) : bit7 g = true ↔ sbyte g < 0 := by
  have h := and_80 (g % 256) (Nat.mod_lt _ (by decide))
  unfold bit7 sbyte
  rw [decide_eq_true_iff, h]
  split <;> omega

/-- The combined `monoflag` with DMA sound. With the sound-active bit clear it is the GPIP byte
and its sign is bit 7. With the bit set it is the SBYTE negation of the GPIP byte: the sign is
the opposite of bit 7 when the low seven bits of the byte are not all zero, but the negation
of 0x80 is 0x80 again (-128) and the negation of 0 is 0. -/
theorem sense_monoflag_dma (cfg : Config) (s : Hw) (hd : cfg.has_dmasound = true) :
    (bit0 s.DMASOUND_CTRL = false → sense_monoflag cfg s = sbyte s.gpip) ∧
    (bit0 s.DMASOUND_CTRL = true → sense_monoflag cfg s = sbyte (ubyte (- sbyte s.gpip))) ∧
    (bit0 s.DMASOUND_CTRL = false → (sense_monoflag cfg s < 0 ↔ bit7 s.gpip = true)) ∧
    (bit0 s.DMASOUND_CTRL = true → s.gpip % 128 ≠ 0 →
      (sense_monoflag cfg s < 0 ↔ bit7 s.gpip = false)) ∧
    (bit0 s.DMASOUND_CTRL = true → s.gpip % 256 = 0x80 → sense_monoflag cfg s = -128) ∧
    (bit0 s.DMASOUND_CTRL = true → s.gpip % 256 = 0 → sense_monoflag cfg s = 0) := by
  have hb : (ubyte (sbyte s.DMASOUND_CTRL) &&& 1 ≠ 0) ↔ bit0 s.DMASOUND_CTRL = true := by
    unfold bit0
    rw [ubyte_sbyte, decide_eq_true_iff]
  have h0 : bit0 s.DMASOUND_CTRL = false → sense_monoflag cfg s = sbyte s.gpip := by
    intro h
    have : ¬ (ubyte (sbyte s.DMASOUND_CTRL) &&& 1 ≠ 0) := by
      rw [hb, h]
      decide
    simp only [sense_monoflag, hd, if_true]
    rw [if_neg this]
  have h1 : bit0 s.DMASOUND_CTRL = true →
      sense_monoflag cfg s = sbyte (ubyte (- sbyte s.gpip)) := by
    intro h
    simp only [sense_monoflag, hd, if_true]
    rw [if_pos (hb.mpr h)]
  refine ⟨h0, h1, ?_, ?_, ?_, ?_⟩
  · intro h
    rw [h0 h, bit7_iff]
  · intro h hg
    rw [h1 h]
    have hb7 : bit7 s.gpip = false ↔ ¬ sbyte s.gpip < 0 := by
      rw [← bit7_iff]
      simp
    rw [hb7]
    unfold sbyte ubyte
    split <;> split <;> omega
  · intro h hg
    rw [h1 h]
    unfold sbyte ubyte
    split <;> split <;> omega
  · intro h hg
    rw [h1 h]
    unfold sbyte ubyte
    split <;> split <;> omega

set_option maxRecDepth 100000 in
/-- C22: on an STe with DMA sound and the sound-active bit set (`d = 0x01`), the SBYTE negation
`monoflag = -monoflag` does not flip the sign of two GPIP bytes. For `g = 0x80` bit 7 XOR
bit 0 is 0 (monochrome monitor), yet `monoflag` is -128 and the handler, in ST low, takes the
monitor for colour and does nothing. For `g = 0x00` the XOR is 1 (colour monitor), yet
`monoflag` is 0 and the handler switches to ST high and calls `swv_vec`. For every other
value of `g` the sign is the opposite of bit 7: the two bytes are the only exceptions. -/
theorem C22_dma_negation_keeps_sign :
    cfgSTe.has_dmasound = true ∧ cfgSTe.has_videl = false ∧
    bit7 0x80 = true ∧ bit0 0x01 = true ∧
    sense_monoflag cfgSTe { hw0 with gpip := 0x80, DMASOUND_CTRL := 0x01 } = -128 ∧
    (screen_detect_monitor_change cfgSTe
      { hw0 with gpip := 0x80, DMASOUND_CTRL := 0x01 }).trace = [] ∧
    (screen_detect_monitor_change cfgSTe
      { hw0 with gpip := 0x80, DMASOUND_CTRL := 0x01 }).sshiftmod = 0 ∧
    bit7 0x00 = false ∧
    sense_monoflag cfgSTe { hw0 with gpip := 0x00, DMASOUND_CTRL := 0x01 } = 0 ∧
    (screen_detect_monitor_change cfgSTe
      { hw0 with gpip := 0x00, DMASOUND_CTRL := 0x01 }).sshiftmod = 2 ∧
    (screen_detect_monitor_change cfgSTe
      { hw0 with gpip := 0x00, DMASOUND_CTRL := 0x01 }).trace = [Event.swv_vec] ∧
    (∀ g : Fin 256,
      ((sense_monoflag cfgSTe { hw0 with gpip := g.val, DMASOUND_CTRL := 0x01 } < 0 ↔
          bit7 g.val = false) ↔ (g.val ≠ 0x00 ∧ g.val ≠ 0x80))) := by
  decide

/-! ## The VICKY II palette writer -/

/-- The loop of `screen_vicky2_set_palette` started at index `n` writes the entries `0..n` of
LUT 0 and no other. -/
theorem vicky2_lut_loop_lut (ext : Extern) (p : Nat → Nat) (n : Nat) (s : Hw) (j : Nat) :
    (vicky2_lut_loop ext p n s).vicky_lut0 j =
      if j ≤ n then ext.convert_atari2vicky_color (p j) else s.vicky_lut0 j := by
  induction n generalizing s with
  | zero =>
    simp only [vicky2_lut_loop, setReg]
    by_cases h : j = 0
    · simp [h]
    · simp [h]
  | succ n ih =>
    simp only [vicky2_lut_loop]
    rw [ih]
    by_cases h : j ≤ n
    · have : j ≤ n + 1 := by omega
      simp [h, this]
    · by_cases h2 : j = n + 1
      · simp [h2, setReg]
      · have : ¬ j ≤ n + 1 := by omega
        simp [h, this, setReg, h2]

/-- The loop of `screen_vicky2_set_palette` leaves the background colour register alone. -/
theorem vicky2_lut_loop_bg (ext : Extern) (p : Nat → Nat) (n : Nat) (s : Hw) :
    (vicky2_lut_loop ext p n s).VICKY_B_BG_COLOR = s.VICKY_B_BG_COLOR := by
  induction n generalizing s with
  | zero => simp [vicky2_lut_loop]
  | succ n ih => simp [vicky2_lut_loop, ih]

/-- C23: `screen_vicky2_set_palette` starts its loop at `i = 16-1-1 = 14`. The background
colour register receives the converted `p[0]` and the entries 0..14 of LUT 0 the converted
`p[i]`, but entry 15 keeps the value it had: on the all-zero state with the identity
conversion and the palette that is 0x0fff everywhere, entry 14 is 0x0fff and entry 15 is
still 0. -/
theorem C23_lut_entry_15_unwritten :
    (∀ (ext : Extern) (s : Hw) (p : Nat → Nat),
      (screen_vicky2_set_palette ext s p).vicky_lut0 15 = s.vicky_lut0 15) ∧
    (∀ (ext : Extern) (s : Hw) (p : Nat → Nat) (i : Fin 15),
      (screen_vicky2_set_palette ext s p).vicky_lut0 i.val
        = ext.convert_atari2vicky_color (p i.val)) ∧
    (∀ (ext : Extern) (s : Hw) (p : Nat → Nat),
      (screen_vicky2_set_palette ext s p).VICKY_B_BG_COLOR
        = ext.convert_atari2vicky_color (p 0)) ∧
    (screen_vicky2_set_palette ext0 hw0 (fun _ => 0x0fff)).vicky_lut0 15 = 0 ∧
    ext0.convert_atari2vicky_color ((fun _ => 0x0fff) 15) = 0x0fff ∧
    (screen_vicky2_set_palette ext0 hw0 (fun _ => 0x0fff)).vicky_lut0 15
      ≠ ext0.convert_atari2vicky_color ((fun _ => 0x0fff) 15) ∧
    (screen_vicky2_set_palette ext0 hw0 (fun _ => 0x0fff)).vicky_lut0 14 = 0x0fff := by
  refine ⟨?_, ?_, ?_, by decide, by decide, by decide, by decide⟩
  · intro ext s p
    simp only [screen_vicky2_set_palette]
    rw [vicky2_lut_loop_lut]
    simp
  · intro ext s p i
    simp only [screen_vicky2_set_palette]
    rw [vicky2_lut_loop_lut]
    have : i.val ≤ 16 - 1 - 1 := by
      have := i.isLt
      omega
    rw [if_pos this]
  · intro ext s p
    simp only [screen_vicky2_set_palette]
    rw [vicky2_lut_loop_bg]

/-! ## The shifter mode shadow -/

/-- A resolution of the chipset is below 8 and fits the resolution bits of the shifter. -/
theorem valid_res_mask (cfg : Config) (n : Nat) (h : valid_res cfg n) :
    n &&& res_mask cfg = n ∧ n < 8 ∧ n % 256 = n := by
  unfold valid_res at h
  unfold res_mask
  by_cases ht : HAS_TT_SHIFTER cfg = true
  · simp only [ht, if_true] at h ⊢
    rcases h with h | h | h | h | h | h <;> subst h <;> decide
  · simp only [ht] at h ⊢
    simp only [Bool.false_eq_true, if_false] at h ⊢
    rcases h with h | h | h <;> subst h <;> decide

/-- The shadow invariant depends only on `sshiftmod` and the two shifter registers. -/
theorem shadow_ok_of_fields (cfg : Config) (s r : Hw) (h : shadow_ok cfg s)
    (h1 : r.sshiftmod = s.sshiftmod) (h2 : r.ST_SHIFTER = s.ST_SHIFTER)
    (h3 : r.TT_SHIFTER = s.TT_SHIFTER) : shadow_ok cfg r := by
  unfold shadow_ok shifter_reg at h ⊢
  rw [h1, h2, h3]
  exact h

/-- The shadow invariant holds once a resolution of the chipset is in `sshiftmod` and in the
resolution bits of the shifter register. -/
theorem shadow_ok_of_store (cfg : Config) (r : Hw) (n : Nat) (hn : valid_res cfg n)
    (h1 : r.sshiftmod = n) (h2 : shifter_reg cfg r &&& res_mask cfg = n) : shadow_ok cfg r := by
  unfold shadow_ok
  rw [h1, h2]
  exact ⟨rfl, hn⟩

/-- On a TT `atari_setrez` ignores `FALCON_REZ` and `REZ_UNSUPPORTED`, and nothing else. -/
theorem atari_setrez_tt_ignored (cfg : Config) (ext : Extern) (s : Hw) (rez videlmode : Int)
    (hv : cfg.has_videl = false) (ht : HAS_TT_SHIFTER cfg = true)
    (hr : rez = FALCON_REZ ∨ rez = REZ_UNSUPPORTED) :
    atari_setrez cfg ext s rez videlmode = s := by
  have : ¬ (rez ≠ FALCON_REZ ∧ rez ≠ REZ_UNSUPPORTED) := by
    rcases hr with h | h <;> simp [h]
  simp only [atari_setrez, hv, ht, Bool.false_eq_true, if_false, if_true]
  rw [if_neg this]

/-- Setscreen on a shifter either leaves `sshiftmod` and the shifter registers as they were,
or stores the byte of `rez` in both; the second only for `rez` in `[MIN_REZ, MAX_REZ]` that
passes the guard of `atari_setrez`. -/
theorem atari_setscreen_mode_cases (cfg : Config) (ext : Extern) (s : Hw) (logLoc physLoc : Nat)
    (rez videlmode : Int) (hv : cfg.has_videl = false) :
    ((atari_setscreen cfg ext s logLoc physLoc rez videlmode).2.sshiftmod = s.sshiftmod ∧
      (atari_setscreen cfg ext s logLoc physLoc rez videlmode).2.ST_SHIFTER = s.ST_SHIFTER ∧
      (atari_setscreen cfg ext s logLoc physLoc rez videlmode).2.TT_SHIFTER = s.TT_SHIFTER) ∨
    (cfg.MIN_REZ ≤ rez ∧ rez ≤ cfg.MAX_REZ ∧ rez ≠ -1 ∧
      (if HAS_TT_SHIFTER cfg then rez ≠ FALCON_REZ else rez ≤ ST_HIGH) ∧
      (atari_setscreen cfg ext s logLoc physLoc rez videlmode).2.sshiftmod = ubyte rez ∧
      shifter_reg cfg (atari_setscreen cfg ext s logLoc physLoc rez videlmode).2 = ubyte rez) := by
  have ha := setscreen_addresses_frame cfg Driver.atari s logLoc physLoc
  simp only [] at ha
  by_cases hg : s.rez_was_hacked = true ∨ rez = -1
  · left
    rw [atari_setscreen_neutral cfg ext s logLoc physLoc rez videlmode hg]
    exact ⟨ha.1, ha.2.1, ha.2.2.1⟩
  · have hh : s.rez_was_hacked = false := by
      cases h : s.rez_was_hacked
      · rfl
      · exact absurd (Or.inl h) hg
    have hn : rez ≠ -1 := fun h => hg (Or.inr h)
    by_cases hr : rez < cfg.MIN_REZ ∨ rez > cfg.MAX_REZ
    · left
      rw [atari_setscreen_invalid cfg ext s logLoc physLoc rez videlmode hh hr hn]
      exact ⟨ha.1, ha.2.1, ha.2.2.1⟩
    · have h1 : cfg.MIN_REZ ≤ rez := by omega
      have h2 : rez ≤ cfg.MAX_REZ := by omega
      rw [atari_setscreen_shifter cfg ext s logLoc physLoc rez videlmode hv hh h1 h2 hn]
      have hf := screen_init_services_from_mode_info_frame cfg ext Driver.atari
        (atari_setrez cfg ext (vsync (setscreen_addresses cfg Driver.atari s logLoc physLoc))
          rez videlmode)
      simp only [] at hf ⊢
      have hvs : (vsync (setscreen_addresses cfg Driver.atari s logLoc physLoc)).sshiftmod
            = s.sshiftmod ∧
          (vsync (setscreen_addresses cfg Driver.atari s logLoc physLoc)).ST_SHIFTER
            = s.ST_SHIFTER ∧
          (vsync (setscreen_addresses cfg Driver.atari s logLoc physLoc)).TT_SHIFTER
            = s.TT_SHIFTER := by
        simp only [vsync, emit]
        exact ⟨ha.1, ha.2.1, ha.2.2.1⟩
      have hub : ubyte rez % 256 = ubyte rez := by
        unfold ubyte
        omega
      by_cases hvalid : (if HAS_TT_SHIFTER cfg then rez ≠ FALCON_REZ ∧ rez ≠ REZ_UNSUPPORTED
          else rez ≤ ST_HIGH)
      · right
        have hs := atari_setrez_shifter cfg ext
          (vsync (setscreen_addresses cfg Driver.atari s logLoc physLoc)) rez videlmode hv hvalid
        refine ⟨h1, h2, hn, ?_, ?_, ?_⟩
        · by_cases ht : HAS_TT_SHIFTER cfg = true
          · rw [if_pos ht] at hvalid ⊢
            exact hvalid.1
          · rw [if_neg ht] at hvalid ⊢
            exact hvalid
        · rw [hf.1, hs]
          split <;> rfl
        · unfold shifter_reg
          rw [hf.2.1, hf.2.2.1, hs]
          by_cases ht : HAS_TT_SHIFTER cfg = true
          · simp only [ht, if_true]
            exact hub
          · simp only [ht]
            simp only [Bool.false_eq_true, if_false]
            exact hub
      · left
        have hid : atari_setrez cfg ext
            (vsync (setscreen_addresses cfg Driver.atari s logLoc physLoc)) rez videlmode
            = vsync (setscreen_addresses cfg Driver.atari s logLoc physLoc) := by
          by_cases ht : HAS_TT_SHIFTER cfg = true
          · rw [if_pos ht] at hvalid
            refine atari_setrez_tt_ignored cfg ext _ rez videlmode hv ht ?_
            by_cases h3 : rez = FALCON_REZ
            · exact Or.inl h3
            · by_cases h4 : rez = REZ_UNSUPPORTED
              · exact Or.inr h4
              · exact absurd ⟨h3, h4⟩ hvalid
          · rw [if_neg ht] at hvalid
            simp only [Bool.not_eq_true] at ht
            exact atari_setrez_st_reserved cfg ext _ rez videlmode hv ht (by omega)
        rw [hf.1, hf.2.1, hf.2.2.1, hid]
        exact hvs

/-- Setscreen keeps the shadow invariant on a shifter with `0 <= MIN_REZ` and `MAX_REZ <= 7`,
for any arguments on an ST or STe, and for any `rez` other than 5 on a TT. -/
theorem shadow_ok_setscreen (cfg : Config) (ext : Extern) (s : Hw) (logLoc physLoc : Nat)
    (rez videlmode : Int) (hv : cfg.has_videl = false) (hmin : 0 ≤ cfg.MIN_REZ)
    (hmax : cfg.MAX_REZ ≤ 7) (h5 : HAS_TT_SHIFTER cfg = true → rez ≠ 5) (h : shadow_ok cfg s) :
    shadow_ok cfg (atari_setscreen cfg ext s logLoc physLoc rez videlmode).2 := by
  rcases atari_setscreen_mode_cases cfg ext s logLoc physLoc rez videlmode hv with
    ⟨e1, e2, e3⟩ | ⟨h1, h2, _, hg, e1, e2⟩
  · exact shadow_ok_of_fields cfg s _ h e1 e2 e3
  · have hval : valid_res cfg (ubyte rez) := by
      unfold valid_res
      by_cases ht : HAS_TT_SHIFTER cfg = true
      · rw [if_pos ht] at hg ⊢
        have := h5 ht
        have hF : FALCON_REZ = 3 := rfl
        rw [hF] at hg
        have hb1 : 0 ≤ rez := by omega
        have hb2 : rez ≤ 7 := by omega
        interval_cases rez <;> simp [ubyte] at *
      · rw [if_neg ht] at hg ⊢
        have hS : ST_HIGH = 2 := rfl
        rw [hS] at hg
        have hb1 : 0 ≤ rez := by omega
        interval_cases rez <;> simp [ubyte]
    refine shadow_ok_of_store cfg _ (ubyte rez) hval e1 ?_
    rw [e2]
    exact (valid_res_mask cfg _ hval).1

/-- The monitor-change handler keeps the shadow invariant when `defshiftmod` is a resolution
of the chipset. -/
theorem shadow_ok_detect (cfg : Config) (s : Hw) (hv : cfg.has_videl = false)
    (hd : valid_res cfg (s.defshiftmod % 256)) (h : shadow_ok cfg s) :
    shadow_ok cfg (screen_detect_monitor_change cfg s) := by
  by_cases hm : monitor_mismatch cfg s
  · rw [(detect_eq cfg s hv).2 hm]
    have hval : valid_res cfg (fallback_res cfg s (sense_monoflag cfg s)) := by
      unfold fallback_res
      have hmono : valid_res cfg (mono_res cfg) := by
        unfold valid_res mono_res
        split <;> simp
      have hzero : valid_res cfg 0 := by
        unfold valid_res
        split <;> simp
      split
      · exact hmono
      · split
        · exact hzero
        · exact hd
    have hk := valid_res_mask cfg _ hval
    refine shadow_ok_of_store cfg _ _ hval (detect_frame cfg s _ _).2.2.1 ?_
    rw [shifter_reg_with, Nat.mod_mod]
    have hmask : 0xf8 &&& res_mask cfg = 0 ∧ 255 &&& res_mask cfg = res_mask cfg := by
      unfold res_mask
      split <;> decide
    rw [low_bits _ _ _ hmask.1 hmask.2]
    exact hk.1
  · rw [(detect_eq cfg s hv).1 hm]
    exact h

/-- Under the shadow invariant `shifter_get_current_mode_info` indexes `vmode_table` inside
its bounds and does not report the all-zero row. -/
theorem shadow_ok_info (cfg : Config) (s : Hw) (h : shadow_ok cfg s) :
    s.sshiftmod &&& 7 < (vmode_table cfg).length ∧
    shifter_get_current_mode_info cfg s ≠ (0, 0, 0) := by
  have hval := h.2
  have a1 : (1 &&& 7 : Nat) = 1 := by decide
  have a2 : (2 &&& 7 : Nat) = 2 := by decide
  have a4 : (4 &&& 7 : Nat) = 4 := by decide
  have a6 : (6 &&& 7 : Nat) = 6 := by decide
  have a7 : (7 &&& 7 : Nat) = 7 := by decide
  unfold valid_res at hval
  unfold shifter_get_current_mode_info
  by_cases ht : HAS_TT_SHIFTER cfg = true
  · have hc : cfg.CONF_WITH_TT_SHIFTER = true := by
      unfold HAS_TT_SHIFTER at ht
      simp only [Bool.and_eq_true] at ht
      exact ht.1
    rw [if_pos ht] at hval
    rcases hval with e | e | e | e | e | e <;> rw [e] <;>
      simp [vmode_table, hc, a1, a2, a4, a6, a7]
  · rw [if_neg ht] at hval
    rcases hval with e | e | e <;> rw [e] <;>
      cases hc : cfg.CONF_WITH_TT_SHIFTER <;> simp [vmode_table, hc, a1, a2]

end Screen
